import Mathlib

/-!
# Reference circle renderer (`refRenderer.cpp`): embedding and verified properties

The code is embedded twice, over the same data model.

Exact embedding.  A C++ `float` is an exact rational number: every arithmetic
operation is the exact one and rounding is not modelled.

Embedding with rounding (definitions with the suffix `R`).  The same code with the
exact result of every float operation passed through a rounding operator `fl`.  The
theorems about it hold for every `fl`, unless they say otherwise; the samples evaluate
it with `ieee`, the round-to-nearest-even of IEEE 754 binary32.  With the identity for
`fl` it is the exact embedding (last section).

In both, the library functions `sqrt`, `exp`, `sin`, `cos` and the noise generator are
parameters (`Externals`).  An `int` is an integer; a float-to-int conversion truncates
toward zero and is undefined (`none`) outside the 32-bit range.  A read outside the
colour table and a division by a zero radius are undefined (`none`) as well.  Arrays
are functions from the index to the stored value, and a `float*` into the image is the
offset into `image->data`.  Infinities and NaN are not modelled.
-/

namespace CircleRenderer

/-! ## Data model -/

/-- Modelled from the spec: the `SceneName` enumeration of `sceneLoader.h`.  The five
scenes `refRenderer.cpp` names, and `STATIC tag` for every other value. -/
inductive SceneName where
  | SNOWFLAKES
  | SNOWFLAKES_SINGLE_FRAME
  | BOUNCING_BALLS
  | HYPNOSIS
  | FIREWORKS
  | STATIC (tag : Nat)
  deriving DecidableEq, Repr

/-- Modelled from the spec: the `Image` of `image.h`, a flat buffer of
`width * height` pixels of four floats (R, G, B, A) each. -/
structure Image where
  width : ℤ
  height : ℤ
  data : ℤ → ℚ

/-- Collaborators of `refRenderer.cpp` that are not part of it: the noise generator
of `noise.h`, the math library, and the two FIREWORKS constants of `sceneLoader.h`. -/
structure Externals where
  vec2CellNoise : ℚ → ℚ → ℚ → Nat → ℚ × ℚ
  sqrt : ℚ → ℚ
  exp : ℚ → ℚ
  sin : ℚ → ℚ
  cos : ℚ → ℚ
  NUM_FIREWORKS : Nat
  NUM_SPARKS : Nat

/-- The fields of the `RefRenderer` class. -/
structure RefRenderer where
  sceneName : SceneName
  numCircles : Nat
  position : Nat → ℚ
  velocity : Nat → ℚ
  color : Nat → ℚ
  radius : Nat → ℚ
  image : Image

/-! ## Helpers -/

/-- Modelled from the spec: the `CLAMP(x, minimum, maximum)` macro of `util.h`,
which clamps `x` to the interval from `minimum` to `maximum`. -/
def CLAMP {α : Type} [LinearOrder α] (x minimum maximum : α) : α :=
  max minimum (min x maximum)

/-- An `int` result: defined when it fits in 32 bits. -/
def checkInt (z : ℤ) : Option ℤ :=
  if -2147483648 ≤ z ∧ z ≤ 2147483647 then some z else none

/-- Truncation toward zero. -/
def truncate (x : ℚ) : ℤ :=
  if 0 ≤ x then ⌊x⌋ else ⌈x⌉

/-- The conversion `static_cast<int>(x)` of a float. -/
def castInt (x : ℚ) : Option ℤ :=
  checkInt (truncate x)

/-- The loop `for (int i = 0; i < n; i++) body`. -/
def forLoop {σ : Type} : Nat → (Nat → σ → σ) → σ → σ
  | 0, _, s => s
  | n + 1, body, s => body n (forLoop n body s)

/-- The loop `for (int i = 0; i < n; i++) body` with a body that can be undefined. -/
def forLoopM {σ : Type} : Nat → (Nat → σ → Option σ) → σ → Option σ
  | 0, _, s => some s
  | n + 1, body, s => (forLoopM n body s).bind (body n)

/-- The loop `for (int k = lo; k < hi; k++) body`. -/
def forRangeM {σ : Type} (lo hi : ℤ) (body : ℤ → σ → Option σ) (s : σ) : Option σ :=
  forLoopM (hi - lo).toNat (fun k => body (lo + (k : ℤ))) s

/-! ## advanceAnimation -/

/-- Body of the SNOWFLAKES loop of `advanceAnimation` for circle `i`. -/
def snowflakesBody (ext : Externals) (i : Nat) (s : RefRenderer) : RefRenderer :=
  let dt : ℚ := 1 / 60
  let kGravity : ℚ := -(9 / 5)
  let kDragCoeff : ℚ := 2
  let index3 := 3 * i
  let forceScaling : ℚ := CLAMP (1 - s.position (index3 + 2)) (1 / 10) 1
  let noise1 := ext.vec2CellNoise (10 * s.position index3) (10 * s.position (index3 + 1))
    (255 * s.position (index3 + 2)) i
  let noiseForce0 := noise1.1 * (15 / 2)
  let noiseForce1 := noise1.2 * 5
  let dragForce0 := -1 * kDragCoeff * s.velocity index3
  let dragForce1 := -1 * kDragCoeff * s.velocity (index3 + 1)
  let pos1 := Function.update s.position index3 (s.position index3 + s.velocity index3 * dt)
  let pos2 := Function.update pos1 (index3 + 1) (pos1 (index3 + 1) + s.velocity (index3 + 1) * dt)
  let pos3 := Function.update pos2 (index3 + 2) (pos2 (index3 + 2) + s.velocity (index3 + 2) * dt)
  let vel1 := Function.update s.velocity index3
    (s.velocity index3 + forceScaling * (noiseForce0 + dragForce0) * dt)
  let vel2 := Function.update vel1 (index3 + 1)
    (vel1 (index3 + 1) + forceScaling * (kGravity + noiseForce1 + dragForce1) * dt)
  if pos3 (index3 + 1) + s.radius i < 0 ∨ pos3 index3 + s.radius i < 0
      ∨ pos3 index3 - s.radius i > 1 then
    let noise2 := ext.vec2CellNoise (255 * pos3 index3) (255 * pos3 (index3 + 1))
      (255 * pos3 (index3 + 2)) i
    let pos4 := Function.update pos3 index3 (1 / 2 + 1 / 2 * noise2.1)
    let pos5 := Function.update pos4 (index3 + 1) (27 / 20 + s.radius i)
    let vel3 := Function.update vel2 index3 (2 * noise2.2)
    let vel4 := Function.update vel3 (index3 + 1) 0
    { s with position := pos5, velocity := vel4 }
  else
    { s with position := pos3, velocity := vel2 }

/-- Body of the BOUNCING_BALLS loop of `advanceAnimation` for circle `i`. -/
def bouncingBallsBody (i : Nat) (s : RefRenderer) : RefRenderer :=
  let dt : ℚ := 1 / 60
  let kGravity : ℚ := -(14 / 5)
  let kDragCoeff : ℚ := -(4 / 5)
  let epsilon : ℚ := 1 / 1000
  let index3 := 3 * i
  let oldVelocity := s.velocity (index3 + 1)
  let oldPosition := s.position (index3 + 1)
  if oldVelocity = 0 ∧ oldPosition = 0 then
    s
  else
    let vel1 :=
      if s.position (index3 + 1) < 0 ∧ oldVelocity < 0 then
        Function.update s.velocity (index3 + 1) (s.velocity (index3 + 1) * kDragCoeff)
      else s.velocity
    let vel2 := Function.update vel1 (index3 + 1) (vel1 (index3 + 1) + kGravity * dt)
    let pos1 := Function.update s.position (index3 + 1)
      (s.position (index3 + 1) + vel2 (index3 + 1) * dt)
    if |vel2 (index3 + 1) - oldVelocity| < epsilon ∧ oldPosition < 0
        ∧ |pos1 (index3 + 1) - oldPosition| < epsilon then
      { s with velocity := Function.update vel2 (index3 + 1) 0,
               position := Function.update pos1 (index3 + 1) 0 }
    else
      { s with velocity := vel2, position := pos1 }

/-- Body of the HYPNOSIS loop of `advanceAnimation` for circle `i`. -/
def hypnosisBody (i : Nat) (s : RefRenderer) : RefRenderer :=
  let cutOff : ℚ := 1 / 2
  if s.radius i > cutOff then
    { s with radius := Function.update s.radius i (1 / 50) }
  else
    { s with radius := Function.update s.radius i (s.radius i + 1 / 100) }

/-- Body of the inner FIREWORKS loop: spark `j` of firework `i`, whose centre
`(cx, cy)` was read before the inner loop. -/
def fireworksSparkBody (ext : Externals) (i : Nat) (cx cy : ℚ) (j : Nat)
    (s : RefRenderer) : RefRenderer :=
  let dt : ℚ := 1 / 60
  let pi : ℚ := 314159 / 100000
  let maxDist : ℚ := 1 / 4
  let index3i := 3 * i
  let sIdx := ext.NUM_FIREWORKS + i * ext.NUM_SPARKS + j
  let index3j := 3 * sIdx
  let pos1 := Function.update s.position index3j (s.position index3j + s.velocity index3j * dt)
  let pos2 := Function.update pos1 (index3j + 1)
    (pos1 (index3j + 1) + s.velocity (index3j + 1) * dt)
  let sx := pos2 index3j
  let sy := pos2 (index3j + 1)
  let cxsx := sx - cx
  let cysy := sy - cy
  let dist := ext.sqrt (cxsx * cxsx + cysy * cysy)
  if dist > maxDist then
    let angle : ℚ := (((j * 2 : Nat) : ℚ) * pi) / (ext.NUM_SPARKS : ℚ)
    let sinA := ext.sin angle
    let cosA := ext.cos angle
    let x := cosA * s.radius i
    let y := sinA * s.radius i
    let pos3 := Function.update pos2 index3j (pos2 index3i + x)
    let pos4 := Function.update pos3 (index3j + 1) (pos3 (index3i + 1) + y)
    let pos5 := Function.update pos4 (index3j + 2) 0
    let vel1 := Function.update s.velocity index3j (cosA / 5)
    let vel2 := Function.update vel1 (index3j + 1) (sinA / 5)
    let vel3 := Function.update vel2 (index3j + 2) 0
    { s with position := pos5, velocity := vel3 }
  else
    { s with position := pos2 }

/-- Body of the outer FIREWORKS loop for firework `i`. -/
def fireworksBody (ext : Externals) (i : Nat) (s : RefRenderer) : RefRenderer :=
  let index3i := 3 * i
  let cx := s.position index3i
  let cy := s.position (index3i + 1)
  forLoop ext.NUM_SPARKS (fireworksSparkBody ext i cx cy) s

/-- The method `RefRenderer::advanceAnimation`: one simulation tick. -/
def RefRenderer.advanceAnimation (ext : Externals) (s : RefRenderer) : RefRenderer :=
  if s.sceneName = SceneName.SNOWFLAKES then
    forLoop s.numCircles (snowflakesBody ext) s
  else if s.sceneName = SceneName.BOUNCING_BALLS then
    forLoop s.numCircles bouncingBallsBody s
  else if s.sceneName = SceneName.HYPNOSIS then
    forLoop s.numCircles hypnosisBody s
  else if s.sceneName = SceneName.FIREWORKS then
    forLoop ext.NUM_FIREWORKS (fireworksBody ext) s
  else
    s

/-! ## lookupColor, shadePixel, render -/

/-- The gradient table of `lookupColor`. -/
def lookupTable : List (ℚ × ℚ × ℚ) :=
  [(1, 1, 1), (1, 1, 1), (4 / 5, 9 / 10, 1), (4 / 5, 9 / 10, 1), (4 / 5, 4 / 5, 1)]

/-- The read `lookupTable[i]`, undefined outside the table. -/
def tableAt (i : ℤ) : Option (ℚ × ℚ × ℚ) :=
  if 0 ≤ i then lookupTable[i.toNat]? else none

/-- The function `lookupColor`: the results `(r, g, b)`. -/
def lookupColor (coord : ℚ) : Option (ℚ × ℚ × ℚ) :=
  let N : ℤ := 5
  let scaledCoord : ℚ := coord * ((N - 1 : ℤ) : ℚ)
  (castInt scaledCoord).bind fun c =>
    let base : ℤ := min c (N - 1)
    let weight : ℚ := scaledCoord - (base : ℚ)
    let oneMinusWeight : ℚ := 1 - weight
    (tableAt base).bind fun lo =>
      (tableAt (base + 1)).bind fun hi =>
        some (oneMinusWeight * lo.1 + weight * hi.1,
              oneMinusWeight * lo.2.1 + weight * hi.2.1,
              oneMinusWeight * lo.2.2 + weight * hi.2.2)

/-- The colour and opacity `(colR, colG, colB, alpha)` that `shadePixel` computes
for a contributing circle, before it blends. -/
def RefRenderer.shading (ext : Externals) (s : RefRenderer) (circleIndex : Nat)
    (pixelDist rad pz : ℚ) : Option (ℚ × ℚ × ℚ × ℚ) :=
  if s.sceneName = SceneName.SNOWFLAKES ∨ s.sceneName = SceneName.SNOWFLAKES_SINGLE_FRAME then
    let kCircleMaxAlpha : ℚ := 1 / 2
    let falloffScale : ℚ := 4
    if rad = 0 then none
    else
      let normPixelDist := ext.sqrt pixelDist / rad
      (lookupColor normPixelDist).bind fun c =>
        let maxAlpha := kCircleMaxAlpha * CLAMP (3 / 5 + 2 / 5 * (1 - pz)) 0 1
        let alpha := maxAlpha * ext.exp (-1 * falloffScale * normPixelDist * normPixelDist)
        some (c.1, c.2.1, c.2.2, alpha)
  else
    let index3 := 3 * circleIndex
    some (s.color index3, s.color (index3 + 1), s.color (index3 + 2), 1 / 2)

/-- The method `RefRenderer::shadePixel`; `pixelData` is the offset of the pixel
slot in `data`. -/
def RefRenderer.shadePixel (ext : Externals) (s : RefRenderer) (circleIndex : Nat)
    (pixelCenterX pixelCenterY px py pz : ℚ) (data : ℤ → ℚ) (pixelData : ℤ) :
    Option (ℤ → ℚ) :=
  let diffX := px - pixelCenterX
  let diffY := py - pixelCenterY
  let pixelDist := diffX * diffX + diffY * diffY
  let rad := s.radius circleIndex
  let maxDist := rad * rad
  if pixelDist > maxDist then
    some data
  else
    (s.shading ext circleIndex pixelDist rad pz).bind fun c =>
      let colR := c.1
      let colG := c.2.1
      let colB := c.2.2.1
      let alpha := c.2.2.2
      let oneMinusAlpha := 1 - alpha
      let d0 := Function.update data pixelData (alpha * colR + oneMinusAlpha * data pixelData)
      let d1 := Function.update d0 (pixelData + 1)
        (alpha * colG + oneMinusAlpha * d0 (pixelData + 1))
      let d2 := Function.update d1 (pixelData + 2)
        (alpha * colB + oneMinusAlpha * d1 (pixelData + 2))
      some (Function.update d2 (pixelData + 3) (d2 (pixelData + 3) + alpha))

/-- The pixel-space bounding box `(screenMinX, screenMaxX, screenMinY, screenMaxY)`
that `render` computes for a circle. -/
def RefRenderer.screenBox (s : RefRenderer) (circleIndex : Nat) : Option (ℤ × ℤ × ℤ × ℤ) :=
  let index3 := 3 * circleIndex
  let px := s.position index3
  let py := s.position (index3 + 1)
  let rad := s.radius circleIndex
  let minX := px - rad
  let maxX := px + rad
  let minY := py - rad
  let maxY := py + rad
  (castInt (minX * (s.image.width : ℚ))).bind fun x0 =>
    ((castInt (maxX * (s.image.width : ℚ))).bind fun t => checkInt (t + 1)).bind fun x1 =>
      (castInt (minY * (s.image.height : ℚ))).bind fun y0 =>
        ((castInt (maxY * (s.image.height : ℚ))).bind fun t => checkInt (t + 1)).bind fun y1 =>
          some (CLAMP x0 0 s.image.width, CLAMP x1 0 s.image.width,
                CLAMP y0 0 s.image.height, CLAMP y1 0 s.image.height)

/-- Body of the circle loop of `render`: the two pixel loops over the bounding box
of circle `circleIndex`.  The running pointer `imgPtr` is at offset
`4 * (pixelY * width + pixelX)` when pixel `(pixelX, pixelY)` is shaded. -/
def RefRenderer.renderCircle (ext : Externals) (s : RefRenderer) (circleIndex : Nat)
    (data : ℤ → ℚ) : Option (ℤ → ℚ) :=
  let index3 := 3 * circleIndex
  let px := s.position index3
  let py := s.position (index3 + 1)
  let pz := s.position (index3 + 2)
  (s.screenBox circleIndex).bind fun box =>
    let screenMinX := box.1
    let screenMaxX := box.2.1
    let screenMinY := box.2.2.1
    let screenMaxY := box.2.2.2
    let invWidth : ℚ := 1 / (s.image.width : ℚ)
    let invHeight : ℚ := 1 / (s.image.height : ℚ)
    forRangeM screenMinY screenMaxY (fun pixelY dataY =>
      forRangeM screenMinX screenMaxX (fun pixelX dataX =>
        let pixelCenterNormX := invWidth * ((pixelX : ℚ) + 1 / 2)
        let pixelCenterNormY := invHeight * ((pixelY : ℚ) + 1 / 2)
        s.shadePixel ext circleIndex pixelCenterNormX pixelCenterNormY px py pz dataX
          (4 * (pixelY * s.image.width + pixelX))) dataY) data

/-- The method `RefRenderer::render`: the image data after all circles. -/
def RefRenderer.renderData (ext : Externals) (s : RefRenderer) : Option (ℤ → ℚ) :=
  forLoopM s.numCircles (fun circleIndex data => s.renderCircle ext circleIndex data)
    s.image.data

/-- The method `RefRenderer::render`, as a state change. -/
def RefRenderer.render (ext : Externals) (s : RefRenderer) : Option RefRenderer :=
  (s.renderData ext).map fun d => { s with image := { s.image with data := d } }

/-! ## The embedding with float rounding

The same code with the rounding of `float` arithmetic made explicit.  The exact result
of every float operation, of every conversion of an `int` to a `float`, and of every
decimal literal that is not a binary fraction, passes through the rounding operator
`fl`; a `double` result passes through `fd`.  Comparisons are exact.  With both
operators the identity these definitions are the exact ones above. -/

/-- The rounding of an exact result to a `float` (`fl`) and to a `double` (`fd`). -/
structure Rounding where
  fl : ℚ → ℚ
  fd : ℚ → ℚ

/-- Body of the SNOWFLAKES loop of `advanceAnimation` for circle `i`, with rounding. -/
def snowflakesBodyR (rnd : Rounding) (ext : Externals) (i : Nat) (s : RefRenderer) :
    RefRenderer :=
  let dt : ℚ := rnd.fl (1 / 60)
  let kGravity : ℚ := rnd.fl (-(9 / 5))
  let kDragCoeff : ℚ := 2
  let index3 := 3 * i
  let forceScaling : ℚ := CLAMP (rnd.fl (1 - s.position (index3 + 2))) (rnd.fl (1 / 10)) 1
  let noise1 := ext.vec2CellNoise (rnd.fl (10 * s.position index3))
    (rnd.fl (10 * s.position (index3 + 1))) (rnd.fl (255 * s.position (index3 + 2))) i
  let noiseForce0 := rnd.fl (noise1.1 * (15 / 2))
  let noiseForce1 := rnd.fl (noise1.2 * 5)
  let dragForce0 := rnd.fl (rnd.fl (-1 * kDragCoeff) * s.velocity index3)
  let dragForce1 := rnd.fl (rnd.fl (-1 * kDragCoeff) * s.velocity (index3 + 1))
  let pos1 := Function.update s.position index3
    (rnd.fl (s.position index3 + rnd.fl (s.velocity index3 * dt)))
  let pos2 := Function.update pos1 (index3 + 1)
    (rnd.fl (pos1 (index3 + 1) + rnd.fl (s.velocity (index3 + 1) * dt)))
  let pos3 := Function.update pos2 (index3 + 2)
    (rnd.fl (pos2 (index3 + 2) + rnd.fl (s.velocity (index3 + 2) * dt)))
  let vel1 := Function.update s.velocity index3
    (rnd.fl (s.velocity index3
      + rnd.fl (rnd.fl (forceScaling * rnd.fl (noiseForce0 + dragForce0)) * dt)))
  let vel2 := Function.update vel1 (index3 + 1)
    (rnd.fl (vel1 (index3 + 1)
      + rnd.fl (rnd.fl (forceScaling * rnd.fl (rnd.fl (kGravity + noiseForce1) + dragForce1))
          * dt)))
  if rnd.fl (pos3 (index3 + 1) + s.radius i) < 0 ∨ rnd.fl (pos3 index3 + s.radius i) < 0
      ∨ rnd.fl (pos3 index3 - s.radius i) > 1 then
    let noise2 := ext.vec2CellNoise (rnd.fl (255 * pos3 index3))
      (rnd.fl (255 * pos3 (index3 + 1))) (rnd.fl (255 * pos3 (index3 + 2))) i
    let pos4 := Function.update pos3 index3 (rnd.fl (1 / 2 + rnd.fl (1 / 2 * noise2.1)))
    let pos5 := Function.update pos4 (index3 + 1) (rnd.fl (rnd.fl (27 / 20) + s.radius i))
    let vel3 := Function.update vel2 index3 (rnd.fl (2 * noise2.2))
    let vel4 := Function.update vel3 (index3 + 1) 0
    { s with position := pos5, velocity := vel4 }
  else
    { s with position := pos3, velocity := vel2 }

/-- Body of the BOUNCING_BALLS loop of `advanceAnimation` for circle `i`, with
rounding. -/
def bouncingBallsBodyR (rnd : Rounding) (i : Nat) (s : RefRenderer) : RefRenderer :=
  let dt : ℚ := rnd.fl (1 / 60)
  let kGravity : ℚ := rnd.fl (-(14 / 5))
  let kDragCoeff : ℚ := rnd.fl (-(4 / 5))
  let epsilon : ℚ := rnd.fl (1 / 1000)
  let index3 := 3 * i
  let oldVelocity := s.velocity (index3 + 1)
  let oldPosition := s.position (index3 + 1)
  if oldVelocity = 0 ∧ oldPosition = 0 then
    s
  else
    let vel1 :=
      if s.position (index3 + 1) < 0 ∧ oldVelocity < 0 then
        Function.update s.velocity (index3 + 1) (rnd.fl (s.velocity (index3 + 1) * kDragCoeff))
      else s.velocity
    let vel2 := Function.update vel1 (index3 + 1)
      (rnd.fl (vel1 (index3 + 1) + rnd.fl (kGravity * dt)))
    let pos1 := Function.update s.position (index3 + 1)
      (rnd.fl (s.position (index3 + 1) + rnd.fl (vel2 (index3 + 1) * dt)))
    if |rnd.fl (vel2 (index3 + 1) - oldVelocity)| < epsilon ∧ oldPosition < 0
        ∧ |rnd.fl (pos1 (index3 + 1) - oldPosition)| < epsilon then
      { s with velocity := Function.update vel2 (index3 + 1) 0,
               position := Function.update pos1 (index3 + 1) 0 }
    else
      { s with velocity := vel2, position := pos1 }

/-- Body of the HYPNOSIS loop of `advanceAnimation` for circle `i`, with rounding. -/
def hypnosisBodyR (rnd : Rounding) (i : Nat) (s : RefRenderer) : RefRenderer :=
  let cutOff : ℚ := 1 / 2
  if s.radius i > cutOff then
    { s with radius := Function.update s.radius i (rnd.fl (1 / 50)) }
  else
    { s with radius := Function.update s.radius i (rnd.fl (s.radius i + rnd.fl (1 / 100))) }

/-- Body of the inner FIREWORKS loop, with rounding: spark `j` of firework `i`, whose
centre `(cx, cy)` was read before the inner loop.  The literal `3.14159` and the
quotients by `5.0` are `double` values converted to `float`. -/
def fireworksSparkBodyR (rnd : Rounding) (ext : Externals) (i : Nat) (cx cy : ℚ) (j : Nat)
    (s : RefRenderer) : RefRenderer :=
  let dt : ℚ := rnd.fl (1 / 60)
  let pi : ℚ := rnd.fl (rnd.fd (314159 / 100000))
  let maxDist : ℚ := 1 / 4
  let index3i := 3 * i
  let sIdx := ext.NUM_FIREWORKS + i * ext.NUM_SPARKS + j
  let index3j := 3 * sIdx
  let pos1 := Function.update s.position index3j
    (rnd.fl (s.position index3j + rnd.fl (s.velocity index3j * dt)))
  let pos2 := Function.update pos1 (index3j + 1)
    (rnd.fl (pos1 (index3j + 1) + rnd.fl (s.velocity (index3j + 1) * dt)))
  let sx := pos2 index3j
  let sy := pos2 (index3j + 1)
  let cxsx := rnd.fl (sx - cx)
  let cysy := rnd.fl (sy - cy)
  let dist := ext.sqrt (rnd.fl (rnd.fl (cxsx * cxsx) + rnd.fl (cysy * cysy)))
  if dist > maxDist then
    let angle : ℚ :=
      rnd.fl (rnd.fl (rnd.fl ((j * 2 : Nat) : ℚ) * pi) / rnd.fl (ext.NUM_SPARKS : ℚ))
    let sinA := ext.sin angle
    let cosA := ext.cos angle
    let x := rnd.fl (cosA * s.radius i)
    let y := rnd.fl (sinA * s.radius i)
    let pos3 := Function.update pos2 index3j (rnd.fl (pos2 index3i + x))
    let pos4 := Function.update pos3 (index3j + 1) (rnd.fl (pos3 (index3i + 1) + y))
    let pos5 := Function.update pos4 (index3j + 2) 0
    let vel1 := Function.update s.velocity index3j (rnd.fl (rnd.fd (cosA / 5)))
    let vel2 := Function.update vel1 (index3j + 1) (rnd.fl (rnd.fd (sinA / 5)))
    let vel3 := Function.update vel2 (index3j + 2) 0
    { s with position := pos5, velocity := vel3 }
  else
    { s with position := pos2 }

/-- Body of the outer FIREWORKS loop for firework `i`, with rounding. -/
def fireworksBodyR (rnd : Rounding) (ext : Externals) (i : Nat) (s : RefRenderer) :
    RefRenderer :=
  let index3i := 3 * i
  let cx := s.position index3i
  let cy := s.position (index3i + 1)
  forLoop ext.NUM_SPARKS (fireworksSparkBodyR rnd ext i cx cy) s

/-- The method `RefRenderer::advanceAnimation` with rounding: one simulation tick. -/
def RefRenderer.advanceAnimationR (rnd : Rounding) (ext : Externals) (s : RefRenderer) :
    RefRenderer :=
  if s.sceneName = SceneName.SNOWFLAKES then
    forLoop s.numCircles (snowflakesBodyR rnd ext) s
  else if s.sceneName = SceneName.BOUNCING_BALLS then
    forLoop s.numCircles (bouncingBallsBodyR rnd) s
  else if s.sceneName = SceneName.HYPNOSIS then
    forLoop s.numCircles (hypnosisBodyR rnd) s
  else if s.sceneName = SceneName.FIREWORKS then
    forLoop ext.NUM_FIREWORKS (fireworksBodyR rnd ext) s
  else
    s

/-- The gradient table of `lookupColor`, with its literals rounded. -/
def lookupTableR (rnd : Rounding) : List (ℚ × ℚ × ℚ) :=
  [(1, 1, 1), (1, 1, 1), (rnd.fl (4 / 5), rnd.fl (9 / 10), 1),
   (rnd.fl (4 / 5), rnd.fl (9 / 10), 1), (rnd.fl (4 / 5), rnd.fl (4 / 5), 1)]

/-- The read `lookupTable[i]` of the rounded table, undefined outside the table. -/
def tableAtR (rnd : Rounding) (i : ℤ) : Option (ℚ × ℚ × ℚ) :=
  if 0 ≤ i then (lookupTableR rnd)[i.toNat]? else none

/-- The function `lookupColor` with rounding: the results `(r, g, b)`. -/
def lookupColorR (rnd : Rounding) (coord : ℚ) : Option (ℚ × ℚ × ℚ) :=
  let N : ℤ := 5
  let scaledCoord : ℚ := rnd.fl (coord * rnd.fl ((N - 1 : ℤ) : ℚ))
  (castInt scaledCoord).bind fun c =>
    let base : ℤ := min c (N - 1)
    let weight : ℚ := rnd.fl (scaledCoord - rnd.fl (base : ℚ))
    let oneMinusWeight : ℚ := rnd.fl (1 - weight)
    (tableAtR rnd base).bind fun lo =>
      (tableAtR rnd (base + 1)).bind fun hi =>
        some (rnd.fl (rnd.fl (oneMinusWeight * lo.1) + rnd.fl (weight * hi.1)),
              rnd.fl (rnd.fl (oneMinusWeight * lo.2.1) + rnd.fl (weight * hi.2.1)),
              rnd.fl (rnd.fl (oneMinusWeight * lo.2.2) + rnd.fl (weight * hi.2.2)))

/-- The colour and opacity `(colR, colG, colB, alpha)` that `shadePixel` computes for a
contributing circle, with rounding. -/
def RefRenderer.shadingR (rnd : Rounding) (ext : Externals) (s : RefRenderer)
    (circleIndex : Nat) (pixelDist rad pz : ℚ) : Option (ℚ × ℚ × ℚ × ℚ) :=
  if s.sceneName = SceneName.SNOWFLAKES ∨ s.sceneName = SceneName.SNOWFLAKES_SINGLE_FRAME then
    let kCircleMaxAlpha : ℚ := 1 / 2
    let falloffScale : ℚ := 4
    if rad = 0 then none
    else
      let normPixelDist := rnd.fl (ext.sqrt pixelDist / rad)
      (lookupColorR rnd normPixelDist).bind fun c =>
        let maxAlpha := rnd.fl (kCircleMaxAlpha
          * CLAMP (rnd.fl (rnd.fl (3 / 5) + rnd.fl (rnd.fl (2 / 5) * rnd.fl (1 - pz)))) 0 1)
        let alpha := rnd.fl (maxAlpha
          * ext.exp (rnd.fl (rnd.fl (rnd.fl (-1 * falloffScale) * normPixelDist)
              * normPixelDist)))
        some (c.1, c.2.1, c.2.2, alpha)
  else
    let index3 := 3 * circleIndex
    some (s.color index3, s.color (index3 + 1), s.color (index3 + 2), 1 / 2)

/-- The method `RefRenderer::shadePixel` with rounding; `pixelData` is the offset of
the pixel slot in `data`. -/
def RefRenderer.shadePixelR (rnd : Rounding) (ext : Externals) (s : RefRenderer)
    (circleIndex : Nat) (pixelCenterX pixelCenterY px py pz : ℚ) (data : ℤ → ℚ)
    (pixelData : ℤ) : Option (ℤ → ℚ) :=
  let diffX := rnd.fl (px - pixelCenterX)
  let diffY := rnd.fl (py - pixelCenterY)
  let pixelDist := rnd.fl (rnd.fl (diffX * diffX) + rnd.fl (diffY * diffY))
  let rad := s.radius circleIndex
  let maxDist := rnd.fl (rad * rad)
  if pixelDist > maxDist then
    some data
  else
    (s.shadingR rnd ext circleIndex pixelDist rad pz).bind fun c =>
      let colR := c.1
      let colG := c.2.1
      let colB := c.2.2.1
      let alpha := c.2.2.2
      let oneMinusAlpha := rnd.fl (1 - alpha)
      let d0 := Function.update data pixelData
        (rnd.fl (rnd.fl (alpha * colR) + rnd.fl (oneMinusAlpha * data pixelData)))
      let d1 := Function.update d0 (pixelData + 1)
        (rnd.fl (rnd.fl (alpha * colG) + rnd.fl (oneMinusAlpha * d0 (pixelData + 1))))
      let d2 := Function.update d1 (pixelData + 2)
        (rnd.fl (rnd.fl (alpha * colB) + rnd.fl (oneMinusAlpha * d1 (pixelData + 2))))
      some (Function.update d2 (pixelData + 3) (rnd.fl (d2 (pixelData + 3) + alpha)))

/-- The pixel-space bounding box `(screenMinX, screenMaxX, screenMinY, screenMaxY)`
that `render` computes for a circle, with rounding: the sum or difference and the
product are each rounded before the conversion to `int`. -/
def RefRenderer.screenBoxR (rnd : Rounding) (s : RefRenderer) (circleIndex : Nat) :
    Option (ℤ × ℤ × ℤ × ℤ) :=
  let index3 := 3 * circleIndex
  let px := s.position index3
  let py := s.position (index3 + 1)
  let rad := s.radius circleIndex
  let minX := rnd.fl (px - rad)
  let maxX := rnd.fl (px + rad)
  let minY := rnd.fl (py - rad)
  let maxY := rnd.fl (py + rad)
  (castInt (rnd.fl (minX * rnd.fl (s.image.width : ℚ)))).bind fun x0 =>
    ((castInt (rnd.fl (maxX * rnd.fl (s.image.width : ℚ)))).bind fun t =>
        checkInt (t + 1)).bind fun x1 =>
      (castInt (rnd.fl (minY * rnd.fl (s.image.height : ℚ)))).bind fun y0 =>
        ((castInt (rnd.fl (maxY * rnd.fl (s.image.height : ℚ)))).bind fun t =>
            checkInt (t + 1)).bind fun y1 =>
          some (CLAMP x0 0 s.image.width, CLAMP x1 0 s.image.width,
                CLAMP y0 0 s.image.height, CLAMP y1 0 s.image.height)

/-- Body of the circle loop of `render`, with rounding: the two pixel loops over the
bounding box of circle `circleIndex`. -/
def RefRenderer.renderCircleR (rnd : Rounding) (ext : Externals) (s : RefRenderer)
    (circleIndex : Nat) (data : ℤ → ℚ) : Option (ℤ → ℚ) :=
  let index3 := 3 * circleIndex
  let px := s.position index3
  let py := s.position (index3 + 1)
  let pz := s.position (index3 + 2)
  (s.screenBoxR rnd circleIndex).bind fun box =>
    let screenMinX := box.1
    let screenMaxX := box.2.1
    let screenMinY := box.2.2.1
    let screenMaxY := box.2.2.2
    let invWidth : ℚ := rnd.fl (1 / rnd.fl (s.image.width : ℚ))
    let invHeight : ℚ := rnd.fl (1 / rnd.fl (s.image.height : ℚ))
    forRangeM screenMinY screenMaxY (fun pixelY dataY =>
      forRangeM screenMinX screenMaxX (fun pixelX dataX =>
        let pixelCenterNormX := rnd.fl (invWidth * rnd.fl (rnd.fl (pixelX : ℚ) + 1 / 2))
        let pixelCenterNormY := rnd.fl (invHeight * rnd.fl (rnd.fl (pixelY : ℚ) + 1 / 2))
        s.shadePixelR rnd ext circleIndex pixelCenterNormX pixelCenterNormY px py pz dataX
          (4 * (pixelY * s.image.width + pixelX))) dataY) data

/-- The method `RefRenderer::render` with rounding: the image data after all circles. -/
def RefRenderer.renderDataR (rnd : Rounding) (ext : Externals) (s : RefRenderer) :
    Option (ℤ → ℚ) :=
  forLoopM s.numCircles (fun circleIndex data => s.renderCircleR rnd ext circleIndex data)
    s.image.data

/-! ## Derived quantities and the specification's formulations -/

/-- One BOUNCING_BALLS tick on the pair `(velocity.y, position.y)` of one ball, in
the words of the specification. -/
def ballTick (vp : ℚ × ℚ) : ℚ × ℚ :=
  if vp.1 = 0 ∧ vp.2 = 0 then vp
  else
    let v1 := (if vp.2 < 0 ∧ vp.1 < 0 then -(4 / 5) * vp.1 else vp.1) + (-(14 / 5)) * (1 / 60)
    let p1 := vp.2 + v1 * (1 / 60)
    if |v1 - vp.1| < 1 / 1000 ∧ vp.2 < 0 ∧ |p1 - vp.2| < 1 / 1000 then (0, 0) else (v1, p1)

/-- The pair `(velocity.y, position.y)` of ball `i`. -/
def RefRenderer.ballY (s : RefRenderer) (i : Nat) : ℚ × ℚ :=
  (s.velocity (3 * i + 1), s.position (3 * i + 1))

/-- The four floats of the pixel slot at offset `off`. -/
def readPixel (data : ℤ → ℚ) (off : ℤ) : ℚ × ℚ × ℚ × ℚ :=
  (data off, data (off + 1), data (off + 2), data (off + 3))

/-- Offset `m` lies in the four-float slot of pixel `(x, y)` of an image of width `w`. -/
def inSlot (w x y m : ℤ) : Prop :=
  4 * (y * w + x) ≤ m ∧ m < 4 * (y * w + x) + 4

/-- The particle index of spark `j` of firework `i`. -/
def sparkIndex (ext : Externals) (i j : Nat) : Nat :=
  ext.NUM_FIREWORKS + i * ext.NUM_SPARKS + j

/-- The position and velocity triples of particle `i`. -/
def RefRenderer.particle (s : RefRenderer) (i : Nat) : (ℚ × ℚ × ℚ) × (ℚ × ℚ × ℚ) :=
  ((s.position (3 * i), s.position (3 * i + 1), s.position (3 * i + 2)),
   (s.velocity (3 * i), s.velocity (3 * i + 1), s.velocity (3 * i + 2)))

/-- The particle store with its circles reordered: circle `i` of the result is circle
`σ i` of `s`. -/
def RefRenderer.permute (σ : Nat → Nat) (s : RefRenderer) : RefRenderer :=
  { s with
    position := fun k => s.position (3 * σ (k / 3) + k % 3)
    velocity := fun k => s.velocity (3 * σ (k / 3) + k % 3)
    color := fun k => s.color (3 * σ (k / 3) + k % 3)
    radius := fun i => s.radius (σ i) }

/-- One BOUNCING_BALLS tick on the pair `(velocity.y, position.y)` of one ball, in the
words of the specification, every float operation rounded. -/
def ballTickR (rnd : Rounding) (vp : ℚ × ℚ) : ℚ × ℚ :=
  if vp.1 = 0 ∧ vp.2 = 0 then vp
  else
    let v1 := rnd.fl ((if vp.2 < 0 ∧ vp.1 < 0 then rnd.fl (vp.1 * rnd.fl (-(4 / 5))) else vp.1)
      + rnd.fl (rnd.fl (-(14 / 5)) * rnd.fl (1 / 60)))
    let p1 := rnd.fl (vp.2 + rnd.fl (v1 * rnd.fl (1 / 60)))
    if |rnd.fl (v1 - vp.1)| < rnd.fl (1 / 1000) ∧ vp.2 < 0
        ∧ |rnd.fl (p1 - vp.2)| < rnd.fl (1 / 1000) then (0, 0) else (v1, p1)

/-- One HYPNOSIS tick on the radius of one circle, every float operation rounded. -/
def radiusTickR (rnd : Rounding) (r : ℚ) : ℚ :=
  if r > 1 / 2 then rnd.fl (1 / 50) else rnd.fl (r + rnd.fl (1 / 100))

/-- One SNOWFLAKES tick on the position `p` and velocity `v` of particle `i` with
radius `r`, in the words of the specification, every float operation rounded. -/
def snowTickR (rnd : Rounding) (ext : Externals) (i : Nat) (p v : ℚ × ℚ × ℚ) (r : ℚ) :
    (ℚ × ℚ × ℚ) × (ℚ × ℚ × ℚ) :=
  let dt := rnd.fl (1 / 60)
  let x1 := rnd.fl (p.1 + rnd.fl (v.1 * dt))
  let y1 := rnd.fl (p.2.1 + rnd.fl (v.2.1 * dt))
  let z1 := rnd.fl (p.2.2 + rnd.fl (v.2.2 * dt))
  let forceScaling : ℚ := CLAMP (rnd.fl (1 - p.2.2)) (rnd.fl (1 / 10)) 1
  let noise1 := ext.vec2CellNoise (rnd.fl (10 * p.1)) (rnd.fl (10 * p.2.1))
    (rnd.fl (255 * p.2.2)) i
  let vx1 := rnd.fl (v.1 + rnd.fl (rnd.fl (forceScaling
    * rnd.fl (rnd.fl (noise1.1 * (15 / 2)) + rnd.fl (rnd.fl (-1 * 2) * v.1))) * dt))
  let vy1 := rnd.fl (v.2.1 + rnd.fl (rnd.fl (forceScaling
    * rnd.fl (rnd.fl (rnd.fl (-(9 / 5)) + rnd.fl (noise1.2 * 5))
        + rnd.fl (rnd.fl (-1 * 2) * v.2.1))) * dt))
  if rnd.fl (y1 + r) < 0 ∨ rnd.fl (x1 + r) < 0 ∨ rnd.fl (x1 - r) > 1 then
    let noise2 := ext.vec2CellNoise (rnd.fl (255 * x1)) (rnd.fl (255 * y1))
      (rnd.fl (255 * z1)) i
    ((rnd.fl (1 / 2 + rnd.fl (1 / 2 * noise2.1)), rnd.fl (rnd.fl (27 / 20) + r), z1),
     (rnd.fl (2 * noise2.2), 0, v.2.2))
  else
    ((x1, y1, z1), (vx1, vy1, v.2.2))

/-- The normalized coordinate of the centre of pixel column (or row) `k` of an image
of `n` columns (rows), as `render` computes it:
`invWidth * (static_cast<float>(pixelX) + 0.5f)` with `invWidth = 1.f / width`. -/
def pixelCenterR (rnd : Rounding) (n k : ℤ) : ℚ :=
  rnd.fl (rnd.fl (1 / rnd.fl (n : ℚ)) * rnd.fl (rnd.fl (k : ℚ) + 1 / 2))

/-- The squared distance `pixelDist` that `shadePixel` computes for circle `i` at
pixel `(x, y)`. -/
def RefRenderer.pixelDistR (rnd : Rounding) (s : RefRenderer) (i : Nat) (x y : ℤ) : ℚ :=
  rnd.fl
    (rnd.fl (rnd.fl (s.position (3 * i) - pixelCenterR rnd s.image.width x)
        * rnd.fl (s.position (3 * i) - pixelCenterR rnd s.image.width x))
      + rnd.fl (rnd.fl (s.position (3 * i + 1) - pixelCenterR rnd s.image.height y)
        * rnd.fl (s.position (3 * i + 1) - pixelCenterR rnd s.image.height y)))

/-- The two pixel loops of `render` for circle `circleIndex` with rounding, with the
bounds of the box as parameters. -/
def RefRenderer.shadeBoxR (rnd : Rounding) (ext : Externals) (s : RefRenderer)
    (circleIndex : Nat) (screenMinX screenMaxX screenMinY screenMaxY : ℤ) (data : ℤ → ℚ) :
    Option (ℤ → ℚ) :=
  forRangeM screenMinY screenMaxY (fun pixelY dataY =>
    forRangeM screenMinX screenMaxX (fun pixelX dataX =>
      s.shadePixelR rnd ext circleIndex (pixelCenterR rnd s.image.width pixelX)
        (pixelCenterR rnd s.image.height pixelY)
        (s.position (3 * circleIndex)) (s.position (3 * circleIndex + 1))
        (s.position (3 * circleIndex + 2)) dataX
        (4 * (pixelY * s.image.width + pixelX))) dataY) data

/-- Circle `i` contributes to pixel `(x, y)` in the computation with rounding: the
pixel lies in the circle's box and the computed `pixelDist` does not exceed the
computed `maxDist`. -/
def RefRenderer.contributesR (rnd : Rounding) (s : RefRenderer) (i : Nat) (x y : ℤ) : Bool :=
  match s.screenBoxR rnd i with
  | some box =>
    decide (box.1 ≤ x ∧ x < box.2.1 ∧ box.2.2.1 ≤ y ∧ y < box.2.2.2)
    && decide (¬ s.pixelDistR rnd i x y > rnd.fl (s.radius i * s.radius i))
  | none => false

/-- The four products of the bounding box of circle `i`, as computed with rounding,
lie in the range from `-2^31` to `2^31 - 1`. -/
def RefRenderer.boxFitsR (rnd : Rounding) (s : RefRenderer) (i : Nat) : Prop :=
  (-2147483648 ≤ rnd.fl (rnd.fl (s.position (3 * i) - s.radius i) * rnd.fl (s.image.width : ℚ))
    ∧ rnd.fl (rnd.fl (s.position (3 * i) - s.radius i) * rnd.fl (s.image.width : ℚ))
      < 2147483647)
  ∧ (-2147483648
      ≤ rnd.fl (rnd.fl (s.position (3 * i) + s.radius i) * rnd.fl (s.image.width : ℚ))
    ∧ rnd.fl (rnd.fl (s.position (3 * i) + s.radius i) * rnd.fl (s.image.width : ℚ))
      < 2147483647)
  ∧ (-2147483648
      ≤ rnd.fl (rnd.fl (s.position (3 * i + 1) - s.radius i) * rnd.fl (s.image.height : ℚ))
    ∧ rnd.fl (rnd.fl (s.position (3 * i + 1) - s.radius i) * rnd.fl (s.image.height : ℚ))
      < 2147483647)
  ∧ (-2147483648
      ≤ rnd.fl (rnd.fl (s.position (3 * i + 1) + s.radius i) * rnd.fl (s.image.height : ℚ))
    ∧ rnd.fl (rnd.fl (s.position (3 * i + 1) + s.radius i) * rnd.fl (s.image.height : ℚ))
      < 2147483647)

/-- The read `lookupTable[i]` in a memory in which the floats around the table hold the
values `stray`: inside the table the entry, outside it what lies there. -/
def tableRead (rnd : Rounding) (stray : ℤ → ℚ × ℚ × ℚ) (i : ℤ) : ℚ × ℚ × ℚ :=
  (tableAtR rnd i).getD (stray i)

/-- The function `lookupColor` in a memory in which the reads outside the table return
the values `stray`, with rounding. -/
def lookupColorIn (rnd : Rounding) (stray : ℤ → ℚ × ℚ × ℚ) (coord : ℚ) :
    Option (ℚ × ℚ × ℚ) :=
  let N : ℤ := 5
  let scaledCoord : ℚ := rnd.fl (coord * rnd.fl ((N - 1 : ℤ) : ℚ))
  (castInt scaledCoord).bind fun c =>
    let base : ℤ := min c (N - 1)
    let weight : ℚ := rnd.fl (scaledCoord - rnd.fl (base : ℚ))
    let oneMinusWeight : ℚ := rnd.fl (1 - weight)
    let lo := tableRead rnd stray base
    let hi := tableRead rnd stray (base + 1)
    some (rnd.fl (rnd.fl (oneMinusWeight * lo.1) + rnd.fl (weight * hi.1)),
          rnd.fl (rnd.fl (oneMinusWeight * lo.2.1) + rnd.fl (weight * hi.2.1)),
          rnd.fl (rnd.fl (oneMinusWeight * lo.2.2) + rnd.fl (weight * hi.2.2)))

/-! ## Sample inputs -/

/-- Sample collaborators for concrete evaluations.  They agree with the real functions
at the only arguments the samples evaluate them at: `sqrt 0 = 0`, `sqrt 1 = 1`,
`exp 0 = 1`, `sin 0 = 0`, `cos 0 = 1`. -/
def sampleExt : Externals where
  vec2CellNoise := fun _ _ _ _ => (0, 0)
  sqrt := fun x => x
  exp := fun _ => 1
  sin := fun _ => 0
  cos := fun _ => 1
  NUM_FIREWORKS := 1
  NUM_SPARKS := 2

/-- Sample BOUNCING_BALLS scene: ball 0 lies at rest on the floor, ball 1 hangs at
height one half. -/
def twoBalls : RefRenderer where
  sceneName := SceneName.BOUNCING_BALLS
  numCircles := 2
  position := fun k => if k = 3 then 1 / 4 else if k = 4 then 1 / 2 else 0
  velocity := fun _ => 0
  color := fun _ => 1 / 2
  radius := fun _ => 1 / 10
  image := ⟨1, 1, fun _ => 1⟩

/-- Sample BOUNCING_BALLS scene of the specification's scenario: one ball at
position (0.5, 0.5, 0) with velocity (0, 0, 0). -/
def oneBall : RefRenderer where
  sceneName := SceneName.BOUNCING_BALLS
  numCircles := 1
  position := fun k => if k = 0 then 1 / 2 else if k = 1 then 1 / 2 else 0
  velocity := fun _ => 0
  color := fun _ => 1 / 2
  radius := fun _ => 1 / 10
  image := ⟨1, 1, fun _ => 1⟩

/-- Sample HYPNOSIS scene: one circle whose radius is exactly one half. -/
def halfRing : RefRenderer where
  sceneName := SceneName.HYPNOSIS
  numCircles := 1
  position := fun _ => 1 / 2
  velocity := fun _ => 0
  color := fun _ => 1 / 2
  radius := fun _ => 1 / 2
  image := ⟨1, 1, fun _ => 1⟩

/-- Sample static scene: two circles of radius one half, red then blue, both at the
centre of the single pixel of a white one-by-one image. -/
def twoDiscs : RefRenderer where
  sceneName := SceneName.STATIC 0
  numCircles := 2
  position := fun k => if k = 2 then 0 else if k = 5 then 0 else 1 / 2
  velocity := fun _ => 0
  color := fun k => if k = 0 then 1 else if k = 5 then 1 else 0
  radius := fun _ => 1 / 2
  image := ⟨1, 1, fun _ => 1⟩

/-- Sample FIREWORKS scene for `sampleExt` (one firework, two sparks): the centre at
(0.5, 0.5, 0) with radius 0.1, spark 0 at (1.5, 0.5, 0.1), at distance 1 from the
centre, and spark 1 on the centre. -/
def fireScene : RefRenderer where
  sceneName := SceneName.FIREWORKS
  numCircles := 3
  position := fun k =>
    if k = 0 then 1 / 2 else if k = 1 then 1 / 2 else if k = 3 then 3 / 2
    else if k = 4 then 1 / 2 else if k = 5 then 1 / 10 else if k = 6 then 1 / 2
    else if k = 7 then 1 / 2 else 0
  velocity := fun _ => 0
  color := fun _ => 1 / 2
  radius := fun _ => 1 / 10
  image := ⟨1, 1, fun _ => 1⟩

/-- Sample static scene: one circle of radius 0.25 at (-0.5, 0.5, 0), wholly to the
left of a white one-by-one image. -/
def leftDisc : RefRenderer where
  sceneName := SceneName.STATIC 0
  numCircles := 1
  position := fun k => if k = 0 then -(1 / 2) else if k = 1 then 1 / 2 else 0
  velocity := fun _ => 0
  color := fun k => if k = 0 then 1 else if k = 1 then 0 else 1 / 2
  radius := fun _ => 1 / 4
  image := ⟨1, 1, fun _ => 1⟩

/-- Sample SNOWFLAKES scene: one flake of radius 1 at (1.5, 0.5, 0), so that the centre
(0.5, 0.5) of the single pixel of a white one-by-one image lies exactly on its rim. -/
def rimFlake : RefRenderer where
  sceneName := SceneName.SNOWFLAKES
  numCircles := 1
  position := fun k => if k = 0 then 3 / 2 else if k = 1 then 1 / 2 else 0
  velocity := fun _ => 0
  color := fun _ => 1
  radius := fun _ => 1
  image := ⟨1, 1, fun _ => 1⟩

/-- Rounding of a rational to the nearest integer, ties to the even one. -/
def roundNearestEven (y : ℚ) : ℤ :=
  let f : ℤ := ⌊y⌋
  let r : ℚ := y - (f : ℚ)
  if r < 1 / 2 then f
  else if 1 / 2 < r then f + 1
  else if f % 2 = 0 then f else f + 1

/-- The binary logarithm of `n`, rounded down, computed with `fuel` halvings. -/
def log2Fuel : Nat → Nat → Nat
  | 0, _ => 0
  | fuel + 1, n => if n < 2 then 0 else log2Fuel fuel (n / 2) + 1

/-- The exponent `e` with `2^e ≤ |x| < 2^(e+1)` of a rational `x ≠ 0`. -/
def binaryExponent (x : ℚ) : ℤ :=
  let e0 : ℤ := (log2Fuel x.num.natAbs x.num.natAbs : ℤ) - (log2Fuel x.den x.den : ℤ)
  if (2 : ℚ) ^ e0 ≤ |x| then e0 else e0 - 1

/-- Rounding to the nearest binary floating-point number with `p + 1` significant bits
and least normal exponent `emin`, ties to even, with gradual underflow.  Overflow to
infinity is not modelled. -/
def roundBinary (p : ℤ) (emin : ℤ) (x : ℚ) : ℚ :=
  if x = 0 then 0
  else
    let e : ℤ := max (binaryExponent x) emin
    let ulp : ℚ := (2 : ℚ) ^ (e - p)
    (roundNearestEven (x / ulp) : ℚ) * ulp

/-- The rounding of IEEE 754 arithmetic: `float` is binary32, `double` is binary64. -/
def ieee : Rounding where
  fl := roundBinary 23 (-126)
  fd := roundBinary 52 (-1022)

/-- No rounding: the exact arithmetic of the first embedding. -/
def noRounding : Rounding where
  fl := fun x => x
  fd := fun x => x

/-- Sample BOUNCING_BALLS scene: one ball just below the floor, with the float values
position.y = -0.01f and velocity.y = -0.0264814813f. -/
def grazingBall : RefRenderer where
  sceneName := SceneName.BOUNCING_BALLS
  numCircles := 1
  position := fun k => if k = 1 then -(5368709 / 536870912) else 1 / 2
  velocity := fun k => if k = 1 then -(14217137 / 536870912) else 0
  color := fun _ => 1 / 2
  radius := fun _ => 1 / 8
  image := ⟨1, 1, fun _ => 1⟩

/-- Sample HYPNOSIS scene: one circle whose radius is the float 0.1f. -/
def tenthRing : RefRenderer where
  sceneName := SceneName.HYPNOSIS
  numCircles := 1
  position := fun _ => 1 / 2
  velocity := fun _ => 0
  color := fun _ => 1 / 2
  radius := fun _ => 13421773 / 134217728
  image := ⟨1, 1, fun _ => 1⟩

/-- Sample SNOWFLAKES scene of float values: flake 0 at (0.5, -0.1f, 0) with radius 0.1f
and velocity.y = -1e-9f touches the bottom edge from above; flake 1 at (0.5, -0.25, 0)
with radius 0.125 and velocity 0 lies below it. -/
def dustScene : RefRenderer where
  sceneName := SceneName.SNOWFLAKES
  numCircles := 2
  position := fun k =>
    if k = 0 then 1 / 2 else if k = 1 then -(13421773 / 134217728) else if k = 3 then 1 / 2
    else if k = 4 then -(1 / 4) else 0
  velocity := fun k => if k = 1 then -(9007199 / 9007199254740992) else 0
  color := fun _ => 1
  radius := fun i => if i = 0 then 13421773 / 134217728 else 1 / 8
  image := ⟨1, 1, fun _ => 1⟩

/-- Sample static scene of float values: one circle of radius 0.1f at (0.7f, 0.7f, 0) on
a white ten-by-ten image. -/
def offsetDisc : RefRenderer where
  sceneName := SceneName.STATIC 0
  numCircles := 1
  position := fun k => if k = 2 then 0 else 11744051 / 16777216
  velocity := fun _ => 0
  color := fun k => if k = 0 then 1 else if k = 1 then 0 else 1 / 2
  radius := fun _ => 13421773 / 134217728
  image := ⟨10, 10, fun _ => 1⟩

/-- Sample SNOWFLAKES scene: two flakes of radius 1 at the centre (0.5, 0.5) of the
single pixel of a white one-by-one image, flake 0 at depth z = 0.125 and flake 1 at
depth z = 0.375. -/
def twoFlakes : RefRenderer where
  sceneName := SceneName.SNOWFLAKES
  numCircles := 2
  position := fun k => if k = 2 then 1 / 8 else if k = 5 then 3 / 8 else 1 / 2
  velocity := fun _ => 0
  color := fun _ => 1
  radius := fun _ => 1
  image := ⟨1, 1, fun _ => 1⟩

/-! ## BOUNCING_BALLS -/

theorem bouncingBallsBody_fields (i : Nat) (s : RefRenderer) :
    (bouncingBallsBody i s).sceneName = s.sceneName
    ∧ (bouncingBallsBody i s).numCircles = s.numCircles
    ∧ (bouncingBallsBody i s).color = s.color
    ∧ (bouncingBallsBody i s).radius = s.radius
    ∧ (bouncingBallsBody i s).image = s.image := by
  unfold bouncingBallsBody
  simp only []
  split_ifs <;> simp

theorem bouncingBallsBody_other (i : Nat) (s : RefRenderer) (k : Nat) (hk : k ≠ 3 * i + 1) :
    (bouncingBallsBody i s).position k = s.position k
    ∧ (bouncingBallsBody i s).velocity k = s.velocity k := by
  unfold bouncingBallsBody
  simp only []
  split_ifs <;> simp [Function.update, hk]

theorem bouncingBallsBody_self (i : Nat) (s : RefRenderer) :
    ((bouncingBallsBody i s).velocity (3 * i + 1), (bouncingBallsBody i s).position (3 * i + 1))
      = ballTick (s.velocity (3 * i + 1), s.position (3 * i + 1)) := by
  unfold bouncingBallsBody ballTick
  simp only []
  generalize hv : s.velocity (3 * i + 1) = v
  generalize hp : s.position (3 * i + 1) = p
  by_cases h0 : v = 0 ∧ p = 0
  · rw [if_pos h0, if_pos h0, hv, hp]
  · rw [if_neg h0, if_neg h0]
    by_cases hb : p < 0 ∧ v < 0
    · simp only [if_pos hb, Function.update_same]
      have e : v * -(4 / 5) + -(14 / 5) * (1 / 60) = -(4 / 5) * v + -(14 / 5) * (1 / 60) := by
        ring
      rw [e]
      split_ifs <;> simp
    · simp only [if_neg hb, Function.update_same, hv]
      split_ifs <;> simp

theorem forLoop_bouncingBalls_fields (n : Nat) (s : RefRenderer) :
    (forLoop n bouncingBallsBody s).sceneName = s.sceneName
    ∧ (forLoop n bouncingBallsBody s).numCircles = s.numCircles
    ∧ (forLoop n bouncingBallsBody s).color = s.color
    ∧ (forLoop n bouncingBallsBody s).radius = s.radius
    ∧ (forLoop n bouncingBallsBody s).image = s.image := by
  induction n with
  | zero => simp [forLoop]
  | succ n ih =>
    obtain ⟨h1, h2, h3, h4, h5⟩ := bouncingBallsBody_fields n (forLoop n bouncingBallsBody s)
    obtain ⟨i1, i2, i3, i4, i5⟩ := ih
    simp only [forLoop]
    exact ⟨h1.trans i1, h2.trans i2, h3.trans i3, h4.trans i4, h5.trans i5⟩

theorem forLoop_bouncingBalls_other (n : Nat) (s : RefRenderer) (k : Nat)
    (hk : ∀ i, i < n → k ≠ 3 * i + 1) :
    (forLoop n bouncingBallsBody s).position k = s.position k
    ∧ (forLoop n bouncingBallsBody s).velocity k = s.velocity k := by
  induction n with
  | zero => simp [forLoop]
  | succ n ih =>
    obtain ⟨h1, h2⟩ := bouncingBallsBody_other n (forLoop n bouncingBallsBody s) k
      (hk n (Nat.lt_succ_self n))
    obtain ⟨i1, i2⟩ := ih (fun i hi => hk i (Nat.lt_succ_of_lt hi))
    simp only [forLoop]
    exact ⟨h1.trans i1, h2.trans i2⟩

theorem forLoop_bouncingBalls_self (n : Nat) (s : RefRenderer) (i : Nat) (hi : i < n) :
    ((forLoop n bouncingBallsBody s).velocity (3 * i + 1),
      (forLoop n bouncingBallsBody s).position (3 * i + 1))
      = ballTick (s.velocity (3 * i + 1), s.position (3 * i + 1)) := by
  induction n with
  | zero => omega
  | succ n ih =>
    simp only [forLoop]
    rcases Nat.lt_succ_iff_lt_or_eq.mp hi with hlt | heq
    · obtain ⟨h1, h2⟩ := bouncingBallsBody_other n (forLoop n bouncingBallsBody s) (3 * i + 1)
        (by omega)
      rw [h1, h2]
      exact ih hlt
    · subst heq
      rw [bouncingBallsBody_self]
      obtain ⟨h1, h2⟩ := forLoop_bouncingBalls_other i s (3 * i + 1) (by intro j hj; omega)
      rw [h1, h2]

theorem advanceAnimation_bouncingBalls (ext : Externals) (s : RefRenderer)
    (hs : s.sceneName = SceneName.BOUNCING_BALLS) :
    s.advanceAnimation ext = forLoop s.numCircles bouncingBallsBody s := by
  simp [RefRenderer.advanceAnimation, hs]

theorem ballTick_rest : ballTick (0, 0) = (0, 0) := by
  simp [ballTick]

theorem advanceAnimation_bouncingBalls_ballY (ext : Externals) (s : RefRenderer)
    (hs : s.sceneName = SceneName.BOUNCING_BALLS) (i : Nat) :
    (s.advanceAnimation ext).ballY i
      = if i < s.numCircles then ballTick (s.ballY i) else s.ballY i := by
  rw [advanceAnimation_bouncingBalls ext s hs]
  unfold RefRenderer.ballY
  split_ifs with h
  · exact forLoop_bouncingBalls_self s.numCircles s i h
  · obtain ⟨h1, h2⟩ := forLoop_bouncingBalls_other s.numCircles s (3 * i + 1)
      (by intro j hj; omega)
    rw [h1, h2]

theorem iterate_bouncingBalls_scene (ext : Externals) (n : Nat) (s : RefRenderer)
    (hs : s.sceneName = SceneName.BOUNCING_BALLS) :
    ((RefRenderer.advanceAnimation ext)^[n] s).sceneName = SceneName.BOUNCING_BALLS
    ∧ ((RefRenderer.advanceAnimation ext)^[n] s).numCircles = s.numCircles := by
  induction n with
  | zero => exact ⟨hs, rfl⟩
  | succ n ih =>
    rw [Function.iterate_succ_apply']
    rw [advanceAnimation_bouncingBalls ext _ ih.1]
    obtain ⟨h1, h2, -⟩ := forLoop_bouncingBalls_fields
      ((RefRenderer.advanceAnimation ext)^[n] s).numCircles ((RefRenderer.advanceAnimation ext)^[n] s)
    exact ⟨h1.trans ih.1, h2.trans ih.2⟩

theorem iterate_bouncingBalls_ballY (ext : Externals) (n : Nat) (s : RefRenderer)
    (hs : s.sceneName = SceneName.BOUNCING_BALLS) (i : Nat) (hi : i < s.numCircles) :
    ((RefRenderer.advanceAnimation ext)^[n] s).ballY i = ballTick^[n] (s.ballY i) := by
  induction n with
  | zero => rfl
  | succ n ih =>
    rw [Function.iterate_succ_apply', Function.iterate_succ_apply']
    obtain ⟨h1, h2⟩ := iterate_bouncingBalls_scene ext n s hs
    rw [advanceAnimation_bouncingBalls_ballY ext _ h1, h2, if_pos hi, ih]

theorem iterate_bouncingBalls_rest (ext : Externals) (n : Nat) (s : RefRenderer)
    (hs : s.sceneName = SceneName.BOUNCING_BALLS) (i : Nat) (h0 : s.ballY i = (0, 0)) :
    ((RefRenderer.advanceAnimation ext)^[n] s).ballY i = (0, 0) := by
  induction n with
  | zero => exact h0
  | succ n ih =>
    rw [Function.iterate_succ_apply']
    obtain ⟨h1, -⟩ := iterate_bouncingBalls_scene ext n s hs
    rw [advanceAnimation_bouncingBalls_ballY ext _ h1, ih, ballTick_rest]
    simp

set_option maxRecDepth 1000000 in
theorem ballTick_halfDrop : ballTick^[245] (0, 1 / 2) = (0, 0) := by
  decide!

/-- C3: in the BOUNCING_BALLS scene a ball whose velocity.y and position.y are both
exactly 0 still has both exactly 0 after any number `n` of `advanceAnimation` calls. -/
theorem bouncingBalls_terminal_rest (ext : Externals) (s : RefRenderer) (i n : Nat)
    (hs : s.sceneName = SceneName.BOUNCING_BALLS)
    (hv : s.velocity (3 * i + 1) = 0) (hp : s.position (3 * i + 1) = 0) :
    ((RefRenderer.advanceAnimation ext)^[n] s).velocity (3 * i + 1) = 0
    ∧ ((RefRenderer.advanceAnimation ext)^[n] s).position (3 * i + 1) = 0 := by
  have h := iterate_bouncingBalls_rest ext n s hs i (by simp [RefRenderer.ballY, hv, hp])
  simp only [RefRenderer.ballY, Prod.mk.injEq] at h
  exact h

theorem bouncingBalls_terminal_rest_witness :
    twoBalls.sceneName = SceneName.BOUNCING_BALLS
    ∧ twoBalls.velocity (3 * 0 + 1) = 0 ∧ twoBalls.position (3 * 0 + 1) = 0
    ∧ ((RefRenderer.advanceAnimation sampleExt)^[7] twoBalls).velocity (3 * 0 + 1) = 0
    ∧ ((RefRenderer.advanceAnimation sampleExt)^[7] twoBalls).position (3 * 0 + 1) = 0 :=
  ⟨rfl, rfl, rfl, bouncingBalls_terminal_rest sampleExt twoBalls 0 7 rfl rfl rfl⟩

/-- C8: a single BOUNCING_BALLS ball dropped from height position.y = 0.5 with
velocity.y = 0 (as the ball at (0.5, 0.5, 0) with velocity (0, 0, 0) is; its x and z
play no role) reaches, after some number `n` of `advanceAnimation` calls,
position.y = 0 with velocity.y = 0, and its position.y is 0 after every `m ≥ n`
calls. -/
theorem bouncingBalls_drop_settles (ext : Externals) (s : RefRenderer)
    (hs : s.sceneName = SceneName.BOUNCING_BALLS) (hn : s.numCircles = 1)
    (hpy : s.position 1 = 1 / 2) (hvy : s.velocity 1 = 0) :
    ∃ n : Nat,
      ((RefRenderer.advanceAnimation ext)^[n] s).position 1 = 0
      ∧ ((RefRenderer.advanceAnimation ext)^[n] s).velocity 1 = 0
      ∧ ∀ m : Nat, n ≤ m → ((RefRenderer.advanceAnimation ext)^[m] s).position 1 = 0 := by
  have hstart : s.ballY 0 = (0, 1 / 2) := by simp [RefRenderer.ballY, hvy, hpy]
  have h245 : ((RefRenderer.advanceAnimation ext)^[245] s).ballY 0 = (0, 0) := by
    rw [iterate_bouncingBalls_ballY ext 245 s hs 0 (by omega), hstart, ballTick_halfDrop]
  have hscene := (iterate_bouncingBalls_scene ext 245 s hs).1
  have hrest : ∀ m : Nat, 245 ≤ m →
      ((RefRenderer.advanceAnimation ext)^[m] s).position 1 = 0
      ∧ ((RefRenderer.advanceAnimation ext)^[m] s).velocity 1 = 0 := by
    intro m hm
    obtain ⟨k, rfl⟩ := Nat.exists_eq_add_of_le hm
    rw [Nat.add_comm, Function.iterate_add_apply]
    have h := iterate_bouncingBalls_rest ext k _ hscene 0 h245
    generalize (RefRenderer.advanceAnimation ext)^[k]
      ((RefRenderer.advanceAnimation ext)^[245] s) = t at h
    simp only [RefRenderer.ballY, Prod.mk.injEq] at h
    exact ⟨h.2, h.1⟩
  exact ⟨245, (hrest 245 le_rfl).1, (hrest 245 le_rfl).2, fun m hm => (hrest m hm).1⟩

theorem bouncingBalls_drop_settles_witness :
    ∃ n : Nat,
      ((RefRenderer.advanceAnimation sampleExt)^[n] oneBall).position 1 = 0
      ∧ ((RefRenderer.advanceAnimation sampleExt)^[n] oneBall).velocity 1 = 0
      ∧ ∀ m : Nat, n ≤ m → ((RefRenderer.advanceAnimation sampleExt)^[m] oneBall).position 1 = 0 :=
  bouncingBalls_drop_settles sampleExt oneBall rfl rfl rfl rfl

/-! ## HYPNOSIS -/

theorem shadePixel_reject (ext : Externals) (s : RefRenderer) (i : Nat)
    (cx cy px py pz : ℚ) (data : ℤ → ℚ) (p : ℤ)
    (h : (px - cx) * (px - cx) + (py - cy) * (py - cy) > s.radius i * s.radius i) :
    s.shadePixel ext i cx cy px py pz data p = some data := by
  unfold RefRenderer.shadePixel
  simp only []
  rw [if_pos h]

theorem shadePixel_blend (ext : Externals) (s : RefRenderer) (i : Nat)
    (cx cy px py pz : ℚ) (data : ℤ → ℚ) (p : ℤ)
    (h : ¬ (px - cx) * (px - cx) + (py - cy) * (py - cy) > s.radius i * s.radius i) :
    s.shadePixel ext i cx cy px py pz data p
      = (s.shading ext i ((px - cx) * (px - cx) + (py - cy) * (py - cy)) (s.radius i) pz).bind
          fun c => some (Function.update (Function.update (Function.update (Function.update data
            p (c.2.2.2 * c.1 + (1 - c.2.2.2) * data p))
            (p + 1) (c.2.2.2 * c.2.1 + (1 - c.2.2.2) * data (p + 1)))
            (p + 2) (c.2.2.2 * c.2.2.1 + (1 - c.2.2.2) * data (p + 2)))
            (p + 3) (data (p + 3) + c.2.2.2)) := by
  unfold RefRenderer.shadePixel
  simp only []
  rw [if_neg h]
  congr 1
  funext c
  have h1 : p + 1 ≠ p := by omega
  have h2 : p + 2 ≠ p := by omega
  have h3 : p + 3 ≠ p := by omega
  have h21 : p + 2 ≠ p + 1 := by omega
  have h31 : p + 3 ≠ p + 1 := by omega
  have h32 : p + 3 ≠ p + 2 := by omega
  simp [Function.update, h1, h2, h3, h21, h31, h32]

theorem update4_read (data : ℤ → ℚ) (p : ℤ) (a b c d : ℚ) :
    readPixel (Function.update (Function.update (Function.update (Function.update data
      p a) (p + 1) b) (p + 2) c) (p + 3) d) p = (a, b, c, d) := by
  have h1 : p ≠ p + 1 := by omega
  have h2 : p ≠ p + 2 := by omega
  have h3 : p ≠ p + 3 := by omega
  have h21 : p + 1 ≠ p + 2 := by omega
  have h31 : p + 1 ≠ p + 3 := by omega
  have h32 : p + 2 ≠ p + 3 := by omega
  simp [readPixel, Function.update, h1, h2, h3, h21, h31, h32]

theorem update4_other (data : ℤ → ℚ) (p : ℤ) (a b c d : ℚ) (k : ℤ)
    (hk : k < p ∨ p + 4 ≤ k) :
    (Function.update (Function.update (Function.update (Function.update data
      p a) (p + 1) b) (p + 2) c) (p + 3) d) k = data k := by
  have h0 : k ≠ p := by omega
  have h1 : k ≠ p + 1 := by omega
  have h2 : k ≠ p + 2 := by omega
  have h3 : k ≠ p + 3 := by omega
  simp [Function.update, h0, h1, h2, h3]

theorem forLoopM_succ_some {σ : Type} (n : Nat) (body : Nat → σ → Option σ) (s s1 : σ)
    (h : forLoopM (n + 1) body s = some s1) :
    ∃ t, forLoopM n body s = some t ∧ body n t = some s1 := by
  simp only [forLoopM] at h
  exact Option.bind_eq_some.mp h

theorem forLoopM_frame (body : Nat → (ℤ → ℚ) → Option (ℤ → ℚ)) (R : Nat → ℤ → Prop)
    (hframe : ∀ k d d1, body k d = some d1 → ∀ m, ¬ R k m → d1 m = d m)
    (n : Nat) (s s1 : ℤ → ℚ) (h : forLoopM n body s = some s1)
    (m : ℤ) (hm : ∀ k, k < n → ¬ R k m) : s1 m = s m := by
  induction n generalizing s1 with
  | zero =>
    simp only [forLoopM, Option.some.injEq] at h
    rw [h]
  | succ n ih =>
    obtain ⟨t, ht, hb⟩ := forLoopM_succ_some n body s s1 h
    rw [hframe n t s1 hb m (hm n (Nat.lt_succ_self n))]
    exact ih t ht (fun k hk => hm k (Nat.lt_succ_of_lt hk))

theorem forLoopM_cell (body : Nat → (ℤ → ℚ) → Option (ℤ → ℚ)) (R : Nat → ℤ → Prop)
    (hframe : ∀ k d d1, body k d = some d1 → ∀ m, ¬ R k m → d1 m = d m)
    (n : Nat) (hdisj : ∀ k k1 m, k < n → k1 < n → k ≠ k1 → R k m → ¬ R k1 m)
    (s s1 : ℤ → ℚ) (h : forLoopM n body s = some s1) (k0 : Nat) (hk0 : k0 < n) :
    ∃ d1 d2, body k0 d1 = some d2 ∧ (∀ m, R k0 m → d1 m = s m)
      ∧ (∀ m, R k0 m → s1 m = d2 m) := by
  induction n generalizing s1 with
  | zero => omega
  | succ n ih =>
    obtain ⟨t, ht, hb⟩ := forLoopM_succ_some n body s s1 h
    rcases Nat.lt_succ_iff_lt_or_eq.mp hk0 with hlt | heq
    · obtain ⟨d1, d2, h1, h2, h3⟩ := ih
        (fun k k1 m hk hk1 => hdisj k k1 m (Nat.lt_succ_of_lt hk) (Nat.lt_succ_of_lt hk1))
        t ht hlt
      refine ⟨d1, d2, h1, h2, ?_⟩
      intro m hm
      rw [hframe n t s1 hb m
        (hdisj k0 n m hk0 (Nat.lt_succ_self n) (Nat.ne_of_lt hlt) hm)]
      exact h3 m hm
    · subst heq
      refine ⟨t, s1, hb, ?_, fun m _ => rfl⟩
      intro m hm
      apply forLoopM_frame body R hframe k0 s t ht m
      intro k hk hR
      exact hdisj k k0 m (Nat.lt_succ_of_lt hk) (Nat.lt_succ_self k0) (Nat.ne_of_lt hk) hR hm

theorem forLoopM_defined {σ : Type} (body : Nat → σ → Option σ)
    (n : Nat) (hdef : ∀ k d, k < n → ∃ d1, body k d = some d1) (s : σ) :
    ∃ s1, forLoopM n body s = some s1 := by
  induction n with
  | zero => exact ⟨s, rfl⟩
  | succ n ih =>
    obtain ⟨t, ht⟩ := ih (fun k d hk => hdef k d (Nat.lt_succ_of_lt hk))
    obtain ⟨u, hu⟩ := hdef n t (Nat.lt_succ_self n)
    exact ⟨u, by simp only [forLoopM, ht, Option.some_bind, hu]⟩

theorem range_index (lo hi z : ℤ) (h1 : lo ≤ z) (h2 : z < hi) :
    (z - lo).toNat < (hi - lo).toNat ∧ lo + ((z - lo).toNat : ℤ) = z := by
  omega

theorem forRangeM_frame (body : ℤ → (ℤ → ℚ) → Option (ℤ → ℚ)) (R : ℤ → ℤ → Prop)
    (hframe : ∀ z d d1, body z d = some d1 → ∀ m, ¬ R z m → d1 m = d m)
    (lo hi : ℤ) (s s1 : ℤ → ℚ) (h : forRangeM lo hi body s = some s1)
    (m : ℤ) (hm : ∀ z, lo ≤ z → z < hi → ¬ R z m) : s1 m = s m := by
  unfold forRangeM at h
  apply forLoopM_frame (fun k => body (lo + (k : ℤ))) (fun k => R (lo + (k : ℤ)))
    (fun k d d1 hb => hframe _ d d1 hb) _ s s1 h m
  intro k hk
  apply hm <;> omega

theorem forRangeM_cell (body : ℤ → (ℤ → ℚ) → Option (ℤ → ℚ)) (R : ℤ → ℤ → Prop)
    (hframe : ∀ z d d1, body z d = some d1 → ∀ m, ¬ R z m → d1 m = d m)
    (lo hi : ℤ)
    (hdisj : ∀ z z1 m, lo ≤ z → z < hi → lo ≤ z1 → z1 < hi → z ≠ z1 → R z m → ¬ R z1 m)
    (s s1 : ℤ → ℚ) (h : forRangeM lo hi body s = some s1) (z0 : ℤ)
    (h1 : lo ≤ z0) (h2 : z0 < hi) :
    ∃ d1 d2, body z0 d1 = some d2 ∧ (∀ m, R z0 m → d1 m = s m)
      ∧ (∀ m, R z0 m → s1 m = d2 m) := by
  unfold forRangeM at h
  obtain ⟨hk, hz⟩ := range_index lo hi z0 h1 h2
  have := forLoopM_cell (fun k => body (lo + (k : ℤ))) (fun k => R (lo + (k : ℤ)))
    (fun k d d1 hb => hframe _ d d1 hb) _
    (by
      intro k k1 m hk hk1 hne
      apply hdisj <;> omega)
    s s1 h (z0 - lo).toNat hk
  simp only [hz] at this
  exact this

theorem forRangeM_defined {σ : Type} (body : ℤ → σ → Option σ) (lo hi : ℤ)
    (hdef : ∀ z d, lo ≤ z → z < hi → ∃ d1, body z d = some d1) (s : σ) :
    ∃ s1, forRangeM lo hi body s = some s1 := by
  unfold forRangeM
  apply forLoopM_defined
  intro k d hk
  apply hdef <;> omega

/-! ## render: one circle -/

theorem shadePixel_frame (ext : Externals) (s : RefRenderer) (i : Nat)
    (cx cy px py pz : ℚ) (data d1 : ℤ → ℚ) (p : ℤ)
    (h : s.shadePixel ext i cx cy px py pz data p = some d1)
    (m : ℤ) (hm : ¬ (p ≤ m ∧ m < p + 4)) : d1 m = data m := by
  by_cases hd : (px - cx) * (px - cx) + (py - cy) * (py - cy) > s.radius i * s.radius i
  · rw [shadePixel_reject ext s i cx cy px py pz data p hd] at h
    simp only [Option.some.injEq] at h
    rw [← h]
  · rw [shadePixel_blend ext s i cx cy px py pz data p hd] at h
    obtain ⟨c, -, hc⟩ := Option.bind_eq_some.mp h
    simp only [Option.some.injEq] at hc
    rw [← hc]
    apply update4_other
    omega

theorem slot_disjoint (w x y x1 y1 m : ℤ) (hx : 0 ≤ x) (hxw : x < w) (hx1 : 0 ≤ x1)
    (hx1w : x1 < w) (h : inSlot w x y m) (h1 : inSlot w x1 y1 m) : x = x1 ∧ y = y1 := by
  unfold inSlot at h h1
  have he : y * w + x = y1 * w + x1 := by omega
  have hy : y = y1 := by
    rcases lt_trichotomy y y1 with hlt | heq | hgt
    · exfalso
      have : (y + 1) * w ≤ y1 * w := mul_le_mul_of_nonneg_right (by omega) (by omega)
      nlinarith
    · exact heq
    · exfalso
      have : (y1 + 1) * w ≤ y * w := mul_le_mul_of_nonneg_right (by omega) (by omega)
      nlinarith
  subst hy
  exact ⟨by omega, rfl⟩

theorem CLAMP_bounds (x w : ℤ) : 0 ≤ CLAMP x 0 w ∧ CLAMP x 0 w ≤ max 0 w := by
  unfold CLAMP
  constructor
  · exact le_max_left _ _
  · exact max_le_max le_rfl (min_le_right _ _)

theorem screenBox_bounds (s : RefRenderer) (i : Nat) (x0 x1 y0 y1 : ℤ)
    (h : s.screenBox i = some (x0, x1, y0, y1)) :
    0 ≤ x0 ∧ x1 ≤ max 0 s.image.width ∧ 0 ≤ y0 ∧ y1 ≤ max 0 s.image.height := by
  unfold RefRenderer.screenBox at h
  simp only [] at h
  obtain ⟨a, -, h⟩ := Option.bind_eq_some.mp h
  obtain ⟨b, -, h⟩ := Option.bind_eq_some.mp h
  obtain ⟨c, -, h⟩ := Option.bind_eq_some.mp h
  obtain ⟨d, -, h⟩ := Option.bind_eq_some.mp h
  simp only [Option.some.injEq, Prod.mk.injEq] at h
  obtain ⟨rfl, rfl, rfl, rfl⟩ := h
  exact ⟨(CLAMP_bounds _ _).1, (CLAMP_bounds _ _).2, (CLAMP_bounds _ _).1, (CLAMP_bounds _ _).2⟩

theorem renderCircle_cells (ext : Externals) (s : RefRenderer) (i : Nat)
    (data data1 : ℤ → ℚ) (h : s.renderCircle ext i data = some data1) :
    ∃ x0 x1 y0 y1 : ℤ, s.screenBox i = some (x0, x1, y0, y1)
      ∧ (∀ x y : ℤ, x0 ≤ x → x < x1 → y0 ≤ y → y < y1 →
          ∃ d1 d2 : ℤ → ℚ,
            s.shadePixel ext i (1 / (s.image.width : ℚ) * ((x : ℚ) + 1 / 2))
              (1 / (s.image.height : ℚ) * ((y : ℚ) + 1 / 2))
              (s.position (3 * i)) (s.position (3 * i + 1)) (s.position (3 * i + 2))
              d1 (4 * (y * s.image.width + x)) = some d2
            ∧ (∀ m, inSlot s.image.width x y m → d1 m = data m)
            ∧ (∀ m, inSlot s.image.width x y m → data1 m = d2 m))
      ∧ (∀ m : ℤ, (∀ x y : ℤ, x0 ≤ x → x < x1 → y0 ≤ y → y < y1 →
          ¬ inSlot s.image.width x y m) → data1 m = data m) := by
  unfold RefRenderer.renderCircle at h
  simp only [] at h
  obtain ⟨⟨x0, x1, y0, y1⟩, hbox, hloop⟩ := Option.bind_eq_some.mp h
  simp only [] at hloop
  obtain ⟨hx0, hx1, -, -⟩ := screenBox_bounds s i x0 x1 y0 y1 hbox
  refine ⟨x0, x1, y0, y1, hbox, ?_, ?_⟩
  all_goals
    have hinner : ∀ (y : ℤ) (d d1 : ℤ → ℚ),
        forRangeM x0 x1 (fun pixelX dataX =>
          s.shadePixel ext i (1 / (s.image.width : ℚ) * ((pixelX : ℚ) + 1 / 2))
            (1 / (s.image.height : ℚ) * ((y : ℚ) + 1 / 2))
            (s.position (3 * i)) (s.position (3 * i + 1)) (s.position (3 * i + 2))
            dataX (4 * (y * s.image.width + pixelX))) d = some d1 →
        ∀ m, ¬ (∃ x, x0 ≤ x ∧ x < x1 ∧ inSlot s.image.width x y m) → d1 m = d m := by
      intro y d d1 hd m hm
      refine forRangeM_frame _ (fun x m => inSlot s.image.width x y m) ?_ x0 x1 d d1 hd m ?_
      · intro z e e1 he m1 hm1
        exact shadePixel_frame ext s i _ _ _ _ _ e e1 _ he m1 hm1
      · intro z hz1 hz2 hin
        exact hm ⟨z, hz1, hz2, hin⟩
  · intro x y hx hxx hy hyy
    obtain ⟨D1, D2, hD, hD1, hD2⟩ := forRangeM_cell _
      (fun y m => ∃ x, x0 ≤ x ∧ x < x1 ∧ inSlot s.image.width x y m)
      hinner y0 y1
      (by
        intro z z1 m _ _ _ _ hne ⟨a, ha1, ha2, ha⟩ ⟨b, hb1, hb2, hb⟩
        exact hne (slot_disjoint s.image.width a z b z1 m (by omega) (by omega) (by omega)
          (by omega) ha hb).2)
      data data1 hloop y hy hyy
    obtain ⟨d1, d2, hd, hd1, hd2⟩ := forRangeM_cell _
      (fun x m => inSlot s.image.width x y m)
      (by
        intro z e e1 he m1 hm1
        exact shadePixel_frame ext s i _ _ _ _ _ e e1 _ he m1 hm1)
      x0 x1
      (by
        intro z z1 m _ _ _ _ hne ha hb
        unfold inSlot at ha hb
        omega)
      D1 D2 hD x hx hxx
    refine ⟨d1, d2, hd, ?_, ?_⟩
    · intro m hm
      rw [hd1 m hm]
      exact hD1 m ⟨x, hx, hxx, hm⟩
    · intro m hm
      rw [hD2 m ⟨x, hx, hxx, hm⟩]
      exact hd2 m hm
  · intro m hm
    refine forRangeM_frame _ (fun y m => ∃ x, x0 ≤ x ∧ x < x1 ∧ inSlot s.image.width x y m)
      hinner y0 y1 data data1 hloop m ?_
    intro z hz1 hz2 ⟨a, ha1, ha2, ha⟩
    exact hm a z ha1 ha2 hz1 hz2 ha

theorem box_pixel_in_image (s : RefRenderer) (i : Nat) (x0 x1 y0 y1 x y : ℤ)
    (h : s.screenBox i = some (x0, x1, y0, y1))
    (hx : x0 ≤ x) (hxx : x < x1) (hy : y0 ≤ y) (hyy : y < y1) :
    0 ≤ x ∧ x < s.image.width ∧ 0 ≤ y ∧ y < s.image.height := by
  obtain ⟨h1, h2, h3, h4⟩ := screenBox_bounds s i x0 x1 y0 y1 h
  have := max_le_iff (a := (0 : ℤ)) (b := s.image.width) (c := max 0 s.image.width)
  rcases max_cases 0 s.image.width with ⟨e1, _⟩ | ⟨e1, _⟩ <;>
    rcases max_cases 0 s.image.height with ⟨e2, _⟩ | ⟨e2, _⟩ <;>
    rw [e1] at h2 <;> rw [e2] at h4 <;> omega

theorem truncate_lt_succ (q : ℚ) : q < (truncate q : ℚ) + 1 := by
  unfold truncate
  split_ifs with h
  · exact Int.lt_floor_add_one q
  · have := Int.le_ceil q
    linarith

theorem truncate_le_of_pos (q : ℚ) (h : 1 ≤ truncate q) : (truncate q : ℚ) ≤ q := by
  unfold truncate at h ⊢
  split_ifs with h0
  · exact Int.floor_le q
  · exfalso
    rw [if_neg h0] at h
    have hq : q ≤ ((0 : ℤ) : ℚ) := by
      push_cast
      linarith
    have := Int.ceil_le.mpr hq
    omega

theorem forLoop_frame_pv (body : Nat → RefRenderer → RefRenderer) (R : Nat → Nat → Prop)
    (hframe : ∀ k t m, ¬ R k m →
      (body k t).position m = t.position m ∧ (body k t).velocity m = t.velocity m)
    (n : Nat) (s : RefRenderer) (m : Nat) (hm : ∀ k, k < n → ¬ R k m) :
    (forLoop n body s).position m = s.position m
    ∧ (forLoop n body s).velocity m = s.velocity m := by
  induction n with
  | zero => exact ⟨rfl, rfl⟩
  | succ n ih =>
    obtain ⟨h1, h2⟩ := hframe n (forLoop n body s) m (hm n (Nat.lt_succ_self n))
    obtain ⟨i1, i2⟩ := ih (fun k hk => hm k (Nat.lt_succ_of_lt hk))
    simp only [forLoop]
    exact ⟨h1.trans i1, h2.trans i2⟩

theorem forLoop_at_pv (body : Nat → RefRenderer → RefRenderer) (R : Nat → Nat → Prop)
    (hframe : ∀ k t m, ¬ R k m →
      (body k t).position m = t.position m ∧ (body k t).velocity m = t.velocity m)
    (n : Nat) (s : RefRenderer) (k0 : Nat) (hk0 : k0 < n) (m : Nat)
    (hdisj : ∀ k, k0 < k → k < n → ¬ R k m) :
    (forLoop n body s).position m = (body k0 (forLoop k0 body s)).position m
    ∧ (forLoop n body s).velocity m = (body k0 (forLoop k0 body s)).velocity m := by
  induction n with
  | zero => omega
  | succ n ih =>
    rcases Nat.lt_succ_iff_lt_or_eq.mp hk0 with hlt | heq
    · obtain ⟨h1, h2⟩ := hframe n (forLoop n body s) m (hdisj n hlt (Nat.lt_succ_self n))
      obtain ⟨i1, i2⟩ := ih hlt (fun k hk hkn => hdisj k hk (Nat.lt_succ_of_lt hkn))
      simp only [forLoop]
      exact ⟨h1.trans i1, h2.trans i2⟩
    · subst heq
      exact ⟨rfl, rfl⟩

theorem forLoop_radius (body : Nat → RefRenderer → RefRenderer)
    (hrad : ∀ k t, (body k t).radius = t.radius) (n : Nat) (s : RefRenderer) :
    (forLoop n body s).radius = s.radius := by
  induction n with
  | zero => rfl
  | succ n ih =>
    simp only [forLoop]
    rw [hrad, ih]

theorem fireworksSparkBody_radius (ext : Externals) (i : Nat) (cx cy : ℚ) (j : Nat)
    (s : RefRenderer) : (fireworksSparkBody ext i cx cy j s).radius = s.radius := by
  unfold fireworksSparkBody
  simp only []
  split_ifs <;> rfl

theorem fireworksSparkBody_frame (ext : Externals) (i : Nat) (cx cy : ℚ) (j : Nat)
    (s : RefRenderer) (m : Nat) (hm : ¬ m / 3 = sparkIndex ext i j) :
    (fireworksSparkBody ext i cx cy j s).position m = s.position m
    ∧ (fireworksSparkBody ext i cx cy j s).velocity m = s.velocity m := by
  unfold sparkIndex at hm
  have h0 : m ≠ 3 * (ext.NUM_FIREWORKS + i * ext.NUM_SPARKS + j) := by omega
  have h1 : m ≠ 3 * (ext.NUM_FIREWORKS + i * ext.NUM_SPARKS + j) + 1 := by omega
  have h2 : m ≠ 3 * (ext.NUM_FIREWORKS + i * ext.NUM_SPARKS + j) + 2 := by omega
  unfold fireworksSparkBody
  simp only []
  split_ifs <;> simp [Function.update, h0, h1, h2]

theorem fireworksBody_frame (ext : Externals) (i : Nat) (s : RefRenderer) (m : Nat)
    (hm : ¬ ∃ j, j < ext.NUM_SPARKS ∧ m / 3 = sparkIndex ext i j) :
    (fireworksBody ext i s).position m = s.position m
    ∧ (fireworksBody ext i s).velocity m = s.velocity m := by
  unfold fireworksBody
  simp only []
  exact forLoop_frame_pv _ (fun j m => m / 3 = sparkIndex ext i j)
    (fun k t m1 h1 => fireworksSparkBody_frame ext i _ _ k t m1 h1)
    ext.NUM_SPARKS s m (fun k hk hR => hm ⟨k, hk, hR⟩)

theorem fireworksBody_radius (ext : Externals) (i : Nat) (s : RefRenderer) :
    (fireworksBody ext i s).radius = s.radius := by
  unfold fireworksBody
  simp only []
  exact forLoop_radius _ (fun k t => fireworksSparkBody_radius ext i _ _ k t) _ s

theorem advanceAnimation_fireworks (ext : Externals) (s : RefRenderer)
    (hs : s.sceneName = SceneName.FIREWORKS) :
    s.advanceAnimation ext = forLoop ext.NUM_FIREWORKS (fireworksBody ext) s := by
  simp [RefRenderer.advanceAnimation, hs]

theorem centre_not_spark (ext : Externals) (i : Nat) (hi : i < ext.NUM_FIREWORKS)
    (m : Nat) (hm : m / 3 = i) (k j : Nat) : ¬ m / 3 = sparkIndex ext k j := by
  unfold sparkIndex
  omega

theorem fireworks_centre_fixed (ext : Externals) (s : RefRenderer) (i : Nat)
    (hi : i < ext.NUM_FIREWORKS) (n : Nat) (m : Nat) (hm : m / 3 = i) :
    (forLoop n (fireworksBody ext) s).position m = s.position m
    ∧ (forLoop n (fireworksBody ext) s).velocity m = s.velocity m :=
  forLoop_frame_pv _ (fun k m => ∃ j, j < ext.NUM_SPARKS ∧ m / 3 = sparkIndex ext k j)
    (fun k t m1 h1 => fireworksBody_frame ext k t m1 h1) n s m
    (fun k _ ⟨j, _, hR⟩ => centre_not_spark ext i hi m hm k j hR)

/-! ## FIREWORKS: what a tick writes -/

theorem forLoop_color (body : Nat → RefRenderer → RefRenderer)
    (hcol : ∀ k t, (body k t).color = t.color) (n : Nat) (s : RefRenderer) :
    (forLoop n body s).color = s.color := by
  induction n with
  | zero => rfl
  | succ n ih =>
    simp only [forLoop]
    rw [hcol, ih]

theorem fireworksSparkBody_color (ext : Externals) (i : Nat) (cx cy : ℚ) (j : Nat)
    (s : RefRenderer) : (fireworksSparkBody ext i cx cy j s).color = s.color := by
  unfold fireworksSparkBody
  simp only []
  split_ifs <;> rfl

theorem fireworksBody_color (ext : Externals) (i : Nat) (s : RefRenderer) :
    (fireworksBody ext i s).color = s.color := by
  unfold fireworksBody
  simp only []
  exact forLoop_color _ (fun k t => fireworksSparkBody_color ext i _ _ k t) _ s

theorem fireworks_only_sparks (ext : Externals) (s : RefRenderer) (n m : Nat)
    (hm : ¬ ∃ i j, i < n ∧ j < ext.NUM_SPARKS ∧ m / 3 = sparkIndex ext i j) :
    (forLoop n (fireworksBody ext) s).position m = s.position m
    ∧ (forLoop n (fireworksBody ext) s).velocity m = s.velocity m :=
  forLoop_frame_pv _ (fun k m => ∃ j, j < ext.NUM_SPARKS ∧ m / 3 = sparkIndex ext k j)
    (fun k t m1 h1 => fireworksBody_frame ext k t m1 h1) n s m
    (fun k hk ⟨j, hj, hR⟩ => hm ⟨k, j, hk, hj, hR⟩)

/-- C11: in the FIREWORKS scene `advanceAnimation` leaves the position, velocity,
radius and colour of every firework centre (indices `0 .. NUM_FIREWORKS-1`)
unchanged; it writes no radius and no colour at all, and the only position and
velocity entries it writes belong to spark indices
`NUM_FIREWORKS + i*NUM_SPARKS + j` with `i < NUM_FIREWORKS`, `j < NUM_SPARKS`. -/
theorem fireworks_centres_unchanged (ext : Externals) (s : RefRenderer)
    (hs : s.sceneName = SceneName.FIREWORKS) :
    (∀ i c : Nat, i < ext.NUM_FIREWORKS → c < 3 →
        (s.advanceAnimation ext).position (3 * i + c) = s.position (3 * i + c)
        ∧ (s.advanceAnimation ext).velocity (3 * i + c) = s.velocity (3 * i + c)
        ∧ (s.advanceAnimation ext).color (3 * i + c) = s.color (3 * i + c)
        ∧ (s.advanceAnimation ext).radius i = s.radius i)
    ∧ (s.advanceAnimation ext).radius = s.radius
    ∧ (s.advanceAnimation ext).color = s.color
    ∧ (∀ m : Nat,
        (¬ ∃ i j, i < ext.NUM_FIREWORKS ∧ j < ext.NUM_SPARKS ∧ m / 3 = sparkIndex ext i j) →
        (s.advanceAnimation ext).position m = s.position m
        ∧ (s.advanceAnimation ext).velocity m = s.velocity m) := by
  rw [advanceAnimation_fireworks ext s hs]
  have hr : (forLoop ext.NUM_FIREWORKS (fireworksBody ext) s).radius = s.radius :=
    forLoop_radius _ (fun k t => fireworksBody_radius ext k t) _ s
  have hc : (forLoop ext.NUM_FIREWORKS (fireworksBody ext) s).color = s.color :=
    forLoop_color _ (fun k t => fireworksBody_color ext k t) _ s
  refine ⟨?_, hr, hc, fun m hm => fireworks_only_sparks ext s ext.NUM_FIREWORKS m hm⟩
  intro i c hi hc3
  obtain ⟨h1, h2⟩ := fireworks_centre_fixed ext s i hi ext.NUM_FIREWORKS (3 * i + c) (by omega)
  exact ⟨h1, h2, by rw [hc], by rw [hr]⟩

set_option maxRecDepth 100000 in
theorem fireworks_centres_unchanged_witness :
    fireScene.sceneName = SceneName.FIREWORKS
    ∧ (fireScene.advanceAnimation sampleExt).position (3 * 0 + 0) = 1 / 2
    ∧ (fireScene.advanceAnimation sampleExt).position (3 * 0 + 1) = 1 / 2
    ∧ (fireScene.advanceAnimation sampleExt).radius 0 = 1 / 10
    ∧ (fireScene.advanceAnimation sampleExt).position 3 ≠ fireScene.position 3 := by
  obtain ⟨h, -, -, -⟩ := fireworks_centres_unchanged sampleExt fireScene rfl
  refine ⟨rfl, ?_, ?_, ?_, by decide!⟩
  · rw [(h 0 0 (by decide) (by decide)).1]; rfl
  · rw [(h 0 1 (by decide) (by decide)).1]; rfl
  · rw [(h 0 0 (by decide) (by decide)).2.2.2]; rfl

/-! ## SNOWFLAKES -/

theorem truncate_eq_floor (q : ℚ) (h : 0 ≤ q) : truncate q = ⌊q⌋ := by
  unfold truncate
  rw [if_pos h]

theorem truncate_nonpos (q : ℚ) (h : q < 0) : truncate q ≤ 0 ∧ ⌊q⌋ < 0 := by
  unfold truncate
  rw [if_neg (not_le.mpr h)]
  constructor
  · apply Int.ceil_le.mpr
    push_cast
    linarith
  · apply Int.floor_lt.mpr
    push_cast
    exact h

theorem CLAMP_nonpos (a w : ℤ) (h : a ≤ 0) : CLAMP a 0 w = 0 := by
  unfold CLAMP
  apply max_eq_left
  exact le_trans (min_le_left a w) h

theorem CLAMP_truncate_low (q : ℚ) (w : ℤ) : CLAMP (truncate q) 0 w = CLAMP ⌊q⌋ 0 w := by
  by_cases h : 0 ≤ q
  · rw [truncate_eq_floor q h]
  · obtain ⟨h1, h2⟩ := truncate_nonpos q (not_le.mp h)
    rw [CLAMP_nonpos _ w h1, CLAMP_nonpos _ w (le_of_lt h2)]

theorem CLAMP_truncate_high (q : ℚ) (w : ℤ) (h : ¬ (-1 < q ∧ q < 0)) :
    CLAMP (truncate q + 1) 0 w = CLAMP (⌊q⌋ + 1) 0 w := by
  by_cases h0 : 0 ≤ q
  · rw [truncate_eq_floor q h0]
  · have hq : q ≤ -1 := by
      by_contra hc
      exact h ⟨not_le.mp hc, not_le.mp h0⟩
    have h1 : truncate q ≤ -1 := by
      unfold truncate
      rw [if_neg h0]
      apply Int.ceil_le.mpr
      push_cast
      exact hq
    have h2 : ⌊q⌋ ≤ -1 := by
      have := Int.floor_le q
      have h3 : (⌊q⌋ : ℚ) ≤ ((-1 : ℤ) : ℚ) := by
        push_cast
        linarith
      exact_mod_cast h3
    rw [CLAMP_nonpos _ w (by omega), CLAMP_nonpos _ w (by omega)]

theorem CLAMP_truncate_gap (q : ℚ) (w : ℤ) (hw : 0 < w) (h : -1 < q ∧ q < 0) :
    CLAMP (truncate q + 1) 0 w = 1 ∧ CLAMP (⌊q⌋ + 1) 0 w = 0 := by
  have ht : truncate q = 0 := by
    unfold truncate
    rw [if_neg (not_le.mpr h.2)]
    apply le_antisymm
    · apply Int.ceil_le.mpr
      push_cast
      linarith
    · have : (-1 : ℤ) < ⌈q⌉ := by
        apply Int.lt_ceil.mpr
        push_cast
        exact h.1
      omega
  have hf : ⌊q⌋ < 0 := (truncate_nonpos q h.2).2
  constructor
  · rw [ht]
    unfold CLAMP
    rw [min_eq_left (by omega : (0 : ℤ) + 1 ≤ w)]
    rfl
  · exact CLAMP_nonpos _ w (by omega)

theorem castInt_defined (q : ℚ) (h1 : -2147483648 ≤ q) (h2 : q < 2147483647) :
    castInt q = some (truncate q) ∧ checkInt (truncate q + 1) = some (truncate q + 1) := by
  have hlo : -2147483648 ≤ truncate q := by
    unfold truncate
    split_ifs with h0
    · exact le_trans (by norm_num) (Int.floor_nonneg.mpr h0)
    · apply Int.le_ceil_iff.mpr
      push_cast
      linarith
  have hhi : truncate q ≤ 2147483646 := by
    have := truncate_lt_succ q
    by_contra hc
    have h3 : (2147483647 : ℤ) ≤ truncate q := by omega
    have h4 : ((2147483647 : ℤ) : ℚ) ≤ (truncate q : ℚ) := by exact_mod_cast h3
    by_cases h0 : 1 ≤ truncate q
    · have := truncate_le_of_pos q h0
      push_cast at h4
      linarith
    · omega
  unfold castInt checkInt
  constructor
  · rw [if_pos ⟨hlo, by omega⟩]
  · rw [if_pos ⟨by omega, by omega⟩]

theorem slot_in_buffer (w h x y m : ℤ) (hx : 0 ≤ x) (hxw : x < w) (hy : 0 ≤ y) (hyh : y < h)
    (hm : inSlot w x y m) : 0 ≤ m ∧ m < w * h * 4 := by
  unfold inSlot at hm
  have h1 : 0 ≤ y * w := mul_nonneg hy (by omega)
  have h2 : (y + 1) * w ≤ h * w := mul_le_mul_of_nonneg_right (by omega) (by omega)
  constructor
  · nlinarith
  · nlinarith

theorem renderCircle_outside_buffer (ext : Externals) (s : RefRenderer) (i : Nat)
    (data data1 : ℤ → ℚ) (h : s.renderCircle ext i data = some data1) (m : ℤ)
    (hm : m < 0 ∨ s.image.width * s.image.height * 4 ≤ m) : data1 m = data m := by
  obtain ⟨x0, x1, y0, y1, hbox, -, hrest⟩ := renderCircle_cells ext s i data data1 h
  apply hrest
  intro x y hx hxx hy hyy hin
  obtain ⟨p1, p2, p3, p4⟩ := box_pixel_in_image s i x0 x1 y0 y1 x y hbox hx hxx hy hyy
  have := slot_in_buffer s.image.width s.image.height x y m p1 p2 p3 p4 hin
  omega

theorem render_prefix_outside_buffer (ext : Externals) (s : RefRenderer) (n : Nat)
    (data data1 : ℤ → ℚ)
    (h : forLoopM n (fun circleIndex d => s.renderCircle ext circleIndex d) data = some data1)
    (m : ℤ) (hm : m < 0 ∨ s.image.width * s.image.height * 4 ≤ m) : data1 m = data m := by
  induction n generalizing data1 with
  | zero =>
    simp only [forLoopM, Option.some.injEq] at h
    rw [h]
  | succ n ih =>
    obtain ⟨t, ht, hb⟩ := forLoopM_succ_some n _ data data1 h
    rw [renderCircle_outside_buffer ext s n t data1 hb m hm]
    exact ih t ht

/-- C19: for every particle store (any positions and radii, also circles partly or
wholly off-screen) every pixel `render` passes to `shadePixel`, that is, every pixel
of a circle's box, has `0 ≤ pixelX < width` and `0 ≤ pixelY < height`, so every index
`4*(pixelY*width + pixelX) + c` with `c` in 0..3 lies inside the `width*height*4`
buffer; accordingly `render` changes nothing outside that buffer. -/
theorem render_accesses_in_buffer (ext : Externals) (s : RefRenderer) :
    (∀ (i : Nat) (x0 x1 y0 y1 : ℤ), s.screenBox i = some (x0, x1, y0, y1) →
      ∀ x y : ℤ, x0 ≤ x → x < x1 → y0 ≤ y → y < y1 →
        0 ≤ x ∧ x < s.image.width ∧ 0 ≤ y ∧ y < s.image.height
        ∧ ∀ c : ℤ, 0 ≤ c → c < 4 →
            0 ≤ 4 * (y * s.image.width + x) + c
            ∧ 4 * (y * s.image.width + x) + c < s.image.width * s.image.height * 4)
    ∧ (∀ data1 : ℤ → ℚ, s.renderData ext = some data1 →
        ∀ m : ℤ, m < 0 ∨ s.image.width * s.image.height * 4 ≤ m →
          data1 m = s.image.data m) := by
  constructor
  · intro i x0 x1 y0 y1 hbox x y hx hxx hy hyy
    obtain ⟨p1, p2, p3, p4⟩ := box_pixel_in_image s i x0 x1 y0 y1 x y hbox hx hxx hy hyy
    refine ⟨p1, p2, p3, p4, ?_⟩
    intro c hc0 hc4
    exact slot_in_buffer s.image.width s.image.height x y _ p1 p2 p3 p4
      ⟨by omega, by omega⟩
  · intro data1 h m hm
    exact render_prefix_outside_buffer ext s s.numCircles s.image.data data1 h m hm

set_option maxRecDepth 100000 in
theorem render_accesses_in_buffer_witness :
    leftDisc.screenBox 0 = some (0, 1, 0, 1)
    ∧ (0 : ℤ) < leftDisc.image.width ∧ (0 : ℤ) < leftDisc.image.height
    ∧ 4 * (0 * leftDisc.image.width + 0) + 3
        < leftDisc.image.width * leftDisc.image.height * 4
    ∧ ∃ hsome : (leftDisc.renderData sampleExt).isSome = true,
        ((leftDisc.renderData sampleExt).get hsome) 4 = leftDisc.image.data 4 := by
  have hbox : leftDisc.screenBox 0 = some (0, 1, 0, 1) := by decide!
  have hsome : (leftDisc.renderData sampleExt).isSome = true := by decide!
  obtain ⟨a, b⟩ := render_accesses_in_buffer sampleExt leftDisc
  obtain ⟨-, a2, -, a4, a5⟩ := a 0 0 1 0 1 hbox 0 0 (by decide) (by decide) (by decide) (by decide)
  exact ⟨hbox, a2, a4, (a5 3 (by decide) (by decide)).2, hsome,
    b _ (Option.some_get hsome).symm 4 (Or.inr (by decide))⟩

/-! ## render: the box loses no pixel of the circle -/

theorem tableAt_inside (b : ℤ) (h0 : 0 ≤ b) (h4 : b ≤ 4) :
    ∃ c, tableAt b = some c ∧ 4 / 5 ≤ c.1 ∧ c.1 ≤ 1 ∧ 4 / 5 ≤ c.2.1 ∧ c.2.1 ≤ 1
      ∧ 4 / 5 ≤ c.2.2 ∧ c.2.2 ≤ 1 := by
  have hb : b = 0 ∨ b = 1 ∨ b = 2 ∨ b = 3 ∨ b = 4 := by omega
  rcases hb with rfl | rfl | rfl | rfl | rfl
  · exact ⟨(1, 1, 1), by decide!, by norm_num⟩
  · exact ⟨(1, 1, 1), by decide!, by norm_num⟩
  · exact ⟨(4 / 5, 9 / 10, 1), by decide!, by norm_num⟩
  · exact ⟨(4 / 5, 9 / 10, 1), by decide!, by norm_num⟩
  · exact ⟨(4 / 5, 4 / 5, 1), by decide!, by norm_num⟩

theorem lookupColor_base (coord : ℚ) (h0 : 0 ≤ coord) (h1 : coord < 1) :
    castInt (coord * 4) = some ⌊coord * 4⌋ ∧ 0 ≤ ⌊coord * 4⌋ ∧ ⌊coord * 4⌋ ≤ 3 := by
  have hs0 : (0 : ℚ) ≤ coord * 4 := by linarith
  have hf0 : 0 ≤ ⌊coord * 4⌋ := Int.floor_nonneg.mpr hs0
  have hf4 : ⌊coord * 4⌋ < 4 := by
    apply Int.floor_lt.mpr
    push_cast
    linarith
  refine ⟨?_, hf0, by omega⟩
  unfold castInt checkInt
  rw [truncate_eq_floor _ hs0, if_pos ⟨by omega, by omega⟩]

theorem lookupColor_inside (coord : ℚ) (h0 : 0 ≤ coord) (h1 : coord < 1) :
    ∃ c, lookupColor coord = some c ∧ 0 ≤ c.1 ∧ c.1 ≤ 1 ∧ 0 ≤ c.2.1 ∧ c.2.1 ≤ 1
      ∧ 0 ≤ c.2.2 ∧ c.2.2 ≤ 1 := by
  obtain ⟨hc, hf0, hf3⟩ := lookupColor_base coord h0 h1
  obtain ⟨lo, hlo, l1, l2, l3, l4, l5, l6⟩ := tableAt_inside ⌊coord * 4⌋ hf0 (by omega)
  obtain ⟨hi, hhi, u1, u2, u3, u4, u5, u6⟩ := tableAt_inside (⌊coord * 4⌋ + 1) (by omega)
    (by omega)
  have hw0 : 0 ≤ coord * 4 - (⌊coord * 4⌋ : ℚ) := by
    have := Int.floor_le (coord * 4)
    linarith
  have hw1 : coord * 4 - (⌊coord * 4⌋ : ℚ) ≤ 1 := by
    have := Int.lt_floor_add_one (coord * 4)
    linarith
  have hmin : min ⌊coord * 4⌋ (5 - 1) = ⌊coord * 4⌋ := min_eq_left (by omega)
  have hcast : coord * ((5 - 1 : ℤ) : ℚ) = coord * 4 := by norm_num
  unfold lookupColor
  simp only []
  rw [hcast, hc]
  simp only [Option.some_bind, hmin, hlo, hhi]
  refine ⟨_, rfl, ?_, ?_, ?_, ?_, ?_, ?_⟩ <;> simp only [] <;> nlinarith

/-- C15: the claim that `lookupColor` reads only valid table entries for every coord
in [0, 1] holds on [0, 1): there the base index is in 0..3 and `base + 1` in 1..4.
At `coord = 1` it fails: the base index is `min 4 4 = 4` and `lookupTable[base + 1]`
is entry 5 of a table whose entries are 0..4.  `shadePixel` passes this coord for a
pixel centre exactly on the rim of a snowflake (sample: radius 1 at distance 1), and
`render` then has no defined result. -/
theorem lookupColor_access :
    (∀ coord : ℚ, 0 ≤ coord → coord < 1 →
      castInt (coord * 4) = some ⌊coord * 4⌋
      ∧ 0 ≤ min ⌊coord * 4⌋ 4 ∧ min ⌊coord * 4⌋ 4 + 1 ≤ 4
      ∧ (lookupColor coord).isSome = true)
    ∧ castInt (1 * 4) = some 4 ∧ min (4 : ℤ) 4 + 1 = 5 ∧ tableAt (min 4 4 + 1) = none
    ∧ lookupColor 1 = none
    ∧ (rimFlake.position (3 * 0) - 1 / 2) * (rimFlake.position (3 * 0) - 1 / 2)
        + (rimFlake.position (3 * 0 + 1) - 1 / 2) * (rimFlake.position (3 * 0 + 1) - 1 / 2)
        = rimFlake.radius 0 * rimFlake.radius 0
    ∧ sampleExt.sqrt 1 / rimFlake.radius 0 = 1
    ∧ rimFlake.shadePixel sampleExt 0 (1 / 2) (1 / 2) (rimFlake.position (3 * 0))
        (rimFlake.position (3 * 0 + 1)) (rimFlake.position (3 * 0 + 2))
        rimFlake.image.data 0 = none
    ∧ rimFlake.renderData sampleExt = none := by
  refine ⟨?_, by decide!, by decide, by decide!, by decide!, by decide!, by decide!, ?_, ?_⟩
  · intro coord h0 h1
    obtain ⟨hc, hf0, hf3⟩ := lookupColor_base coord h0 h1
    obtain ⟨c, hcol, -⟩ := lookupColor_inside coord h0 h1
    have hmin : min ⌊coord * 4⌋ 4 = ⌊coord * 4⌋ := min_eq_left (by omega)
    rw [hmin, hcol]
    exact ⟨hc, hf0, by omega, rfl⟩
  · cases h : rimFlake.shadePixel sampleExt 0 (1 / 2) (1 / 2) (rimFlake.position (3 * 0))
        (rimFlake.position (3 * 0 + 1)) (rimFlake.position (3 * 0 + 2))
        rimFlake.image.data 0 with
    | none => rfl
    | some d =>
      exfalso
      have hs : (rimFlake.shadePixel sampleExt 0 (1 / 2) (1 / 2) (rimFlake.position (3 * 0))
        (rimFlake.position (3 * 0 + 1)) (rimFlake.position (3 * 0 + 2))
        rimFlake.image.data 0).isSome = false := by decide!
      rw [h] at hs
      simp at hs
  · cases h : rimFlake.renderData sampleExt with
    | none => rfl
    | some d =>
      exfalso
      have hs : (rimFlake.renderData sampleExt).isSome = false := by decide!
      rw [h] at hs
      simp at hs

/-! ## shadePixel: the snowflake shading -/

theorem permute_index (i : Nat) :
    (3 * i) / 3 = i ∧ (3 * i) % 3 = 0 ∧ (3 * i + 1) / 3 = i ∧ (3 * i + 1) % 3 = 1
    ∧ (3 * i + 2) / 3 = i ∧ (3 * i + 2) % 3 = 2 := by
  omega

theorem permute_position (σ : Nat → Nat) (s : RefRenderer) (i : Nat) :
    (s.permute σ).position (3 * i) = s.position (3 * σ i)
    ∧ (s.permute σ).position (3 * i + 1) = s.position (3 * σ i + 1)
    ∧ (s.permute σ).position (3 * i + 2) = s.position (3 * σ i + 2)
    ∧ (s.permute σ).color (3 * i) = s.color (3 * σ i)
    ∧ (s.permute σ).color (3 * i + 1) = s.color (3 * σ i + 1)
    ∧ (s.permute σ).color (3 * i + 2) = s.color (3 * σ i + 2)
    ∧ (s.permute σ).radius i = s.radius (σ i) := by
  obtain ⟨e0, e1, e2, e3, e4, e5⟩ := permute_index i
  simp [RefRenderer.permute, e0, e1, e2, e3, e4, e5]

theorem sum_range_permute (n : Nat) (σ : Nat → Nat) (f : Nat → ℚ)
    (hmap : ∀ i, i < n → σ i < n)
    (hinj : ∀ i j, i < n → j < n → σ i = σ j → i = j) :
    ∑ i in Finset.range n, f (σ i) = ∑ i in Finset.range n, f i := by
  have hinjOn : Set.InjOn σ (Finset.range n : Set Nat) := by
    intro a ha b hb hab
    exact hinj a b (Finset.mem_range.mp ha) (Finset.mem_range.mp hb) hab
  have himg : (Finset.range n).image σ = Finset.range n := by
    apply Finset.eq_of_subset_of_card_le
    · intro a ha
      obtain ⟨b, hb, rfl⟩ := Finset.mem_image.mp ha
      exact Finset.mem_range.mpr (hmap b (Finset.mem_range.mp hb))
    · rw [Finset.card_image_of_injOn hinjOn]
  calc ∑ i in Finset.range n, f (σ i)
      = ∑ i in (Finset.range n).image σ, f i := (Finset.sum_image (fun a ha b hb hab =>
          hinjOn ha hb hab)).symm
    _ = ∑ i in Finset.range n, f i := by rw [himg]

/-! ## render: the ordering property and the coverage of the box, for boxes that fit -/

theorem roundNearestEven_error (y : ℚ) : |(roundNearestEven y : ℚ) - y| ≤ 1 / 2 := by
  have h1 := Int.floor_le y
  have h2 := Int.lt_floor_add_one y
  unfold roundNearestEven
  simp only []
  rw [abs_le]
  split_ifs with a b c
  · constructor <;> linarith
  · push_cast
    constructor <;> linarith
  · have hab : y - (⌊y⌋ : ℚ) = 1 / 2 := le_antisymm (not_lt.mp b) (not_lt.mp a)
    constructor <;> linarith
  · have hab : y - (⌊y⌋ : ℚ) = 1 / 2 := le_antisymm (not_lt.mp b) (not_lt.mp a)
    push_cast
    constructor <;> linarith

theorem log2Fuel_spec (fuel n : Nat) (hn : n ≤ fuel) (h0 : 0 < n) :
    2 ^ log2Fuel fuel n ≤ n ∧ n < 2 ^ (log2Fuel fuel n + 1) := by
  induction fuel generalizing n with
  | zero => omega
  | succ fuel ih =>
    unfold log2Fuel
    by_cases h2 : n < 2
    · rw [if_pos h2]
      constructor
      · simp; omega
      · simp; omega
    · rw [if_neg h2]
      obtain ⟨a, b⟩ := ih (n / 2) (by omega) (by omega)
      constructor
      · rw [pow_succ]
        omega
      · rw [pow_succ]
        omega

theorem binaryExponent_nonpos (x : ℚ) (h0 : 0 < x) (h1 : x ≤ 1) : binaryExponent x ≤ 0 := by
  unfold binaryExponent
  simp only []
  have hnum : 0 < x.num := Rat.num_pos.mpr h0
  have hden : 0 < x.den := x.den_pos
  have hle : x.num.natAbs ≤ x.den := by
    have h := Rat.num_div_den x
    have hd : (0 : ℚ) < (x.den : ℚ) := by exact_mod_cast hden
    have h3 : (x.num : ℚ) ≤ (x.den : ℚ) := by
      have : (x.num : ℚ) / (x.den : ℚ) ≤ 1 := by rw [h]; exact h1
      rwa [div_le_one hd] at this
    have h4 : x.num ≤ (x.den : ℤ) := by exact_mod_cast h3
    omega
  obtain ⟨a1, -⟩ := log2Fuel_spec x.num.natAbs x.num.natAbs le_rfl (by omega)
  obtain ⟨-, b2⟩ := log2Fuel_spec x.den x.den le_rfl hden
  have hab : log2Fuel x.num.natAbs x.num.natAbs < log2Fuel x.den x.den + 1 := by
    have : 2 ^ log2Fuel x.num.natAbs x.num.natAbs < 2 ^ (log2Fuel x.den x.den + 1) :=
      lt_of_le_of_lt (le_trans a1 hle) b2
    exact (Nat.pow_lt_pow_iff_right (by norm_num)).mp this
  split_ifs <;> omega

theorem ieee_error_unit (x : ℚ) (h0 : 0 ≤ x) (h1 : x ≤ 1) : |ieee.fl x - x| ≤ 1 / 100000 := by
  show |roundBinary 23 (-126) x - x| ≤ 1 / 100000
  unfold roundBinary
  by_cases hx : x = 0
  · rw [if_pos hx, hx]
    norm_num
  · rw [if_neg hx]
    simp only []
    have hpos : 0 < x := lt_of_le_of_ne h0 (Ne.symm hx)
    have he : max (binaryExponent x) (-126) ≤ 0 :=
      max_le (binaryExponent_nonpos x hpos h1) (by norm_num)
    generalize max (binaryExponent x) (-126) = e at he
    have hu : (0 : ℚ) < (2 : ℚ) ^ (e - 23) := zpow_pos (by norm_num) _
    have hu2 : (2 : ℚ) ^ (e - 23) ≤ (2 : ℚ) ^ (-23 : ℤ) :=
      zpow_le_zpow_right₀ (by norm_num) (by omega)
    have hu3 : (2 : ℚ) ^ (-23 : ℤ) = 1 / 8388608 := by norm_num
    generalize (2 : ℚ) ^ (e - 23) = u at hu hu2
    have hr := roundNearestEven_error (x / u)
    have hxe : (roundNearestEven (x / u) : ℚ) * u - x
        = ((roundNearestEven (x / u) : ℚ) - x / u) * u := by
      field_simp
    rw [hxe, abs_mul, abs_of_pos hu]
    have : |(roundNearestEven (x / u) : ℚ) - x / u| * u ≤ 1 / 2 * u :=
      mul_le_mul_of_nonneg_right hr (le_of_lt hu)
    rw [hu3] at hu2
    linarith

/-! ## BOUNCING_BALLS with rounding -/

theorem bouncingBallsBodyR_fields (rnd : Rounding) (i : Nat) (s : RefRenderer) :
    (bouncingBallsBodyR rnd i s).sceneName = s.sceneName
    ∧ (bouncingBallsBodyR rnd i s).numCircles = s.numCircles
    ∧ (bouncingBallsBodyR rnd i s).color = s.color
    ∧ (bouncingBallsBodyR rnd i s).radius = s.radius
    ∧ (bouncingBallsBodyR rnd i s).image = s.image := by
  unfold bouncingBallsBodyR
  simp only []
  split_ifs <;> simp

theorem bouncingBallsBodyR_other (rnd : Rounding) (i : Nat) (s : RefRenderer) (k : Nat)
    (hk : k ≠ 3 * i + 1) :
    (bouncingBallsBodyR rnd i s).position k = s.position k
    ∧ (bouncingBallsBodyR rnd i s).velocity k = s.velocity k := by
  unfold bouncingBallsBodyR
  simp only []
  split_ifs <;> simp [Function.update, hk]

theorem bouncingBallsBodyR_self (rnd : Rounding) (i : Nat) (s : RefRenderer) :
    ((bouncingBallsBodyR rnd i s).velocity (3 * i + 1),
      (bouncingBallsBodyR rnd i s).position (3 * i + 1))
      = ballTickR rnd (s.velocity (3 * i + 1), s.position (3 * i + 1)) := by
  unfold bouncingBallsBodyR ballTickR
  simp only []
  generalize hv : s.velocity (3 * i + 1) = v
  generalize hp : s.position (3 * i + 1) = p
  by_cases h0 : v = 0 ∧ p = 0
  · rw [if_pos h0, if_pos h0, hv, hp]
  · rw [if_neg h0, if_neg h0]
    by_cases hb : p < 0 ∧ v < 0
    · simp only [if_pos hb, Function.update_same]
      split_ifs <;> simp
    · simp only [if_neg hb, Function.update_same, hv]
      split_ifs <;> simp

theorem forLoop_bouncingBallsR_fields (rnd : Rounding) (n : Nat) (s : RefRenderer) :
    (forLoop n (bouncingBallsBodyR rnd) s).sceneName = s.sceneName
    ∧ (forLoop n (bouncingBallsBodyR rnd) s).numCircles = s.numCircles
    ∧ (forLoop n (bouncingBallsBodyR rnd) s).color = s.color
    ∧ (forLoop n (bouncingBallsBodyR rnd) s).radius = s.radius
    ∧ (forLoop n (bouncingBallsBodyR rnd) s).image = s.image := by
  induction n with
  | zero => simp [forLoop]
  | succ n ih =>
    obtain ⟨h1, h2, h3, h4, h5⟩ :=
      bouncingBallsBodyR_fields rnd n (forLoop n (bouncingBallsBodyR rnd) s)
    obtain ⟨i1, i2, i3, i4, i5⟩ := ih
    simp only [forLoop]
    exact ⟨h1.trans i1, h2.trans i2, h3.trans i3, h4.trans i4, h5.trans i5⟩

theorem forLoop_bouncingBallsR_other (rnd : Rounding) (n : Nat) (s : RefRenderer) (k : Nat)
    (hk : ∀ i, i < n → k ≠ 3 * i + 1) :
    (forLoop n (bouncingBallsBodyR rnd) s).position k = s.position k
    ∧ (forLoop n (bouncingBallsBodyR rnd) s).velocity k = s.velocity k := by
  induction n with
  | zero => simp [forLoop]
  | succ n ih =>
    obtain ⟨h1, h2⟩ := bouncingBallsBodyR_other rnd n (forLoop n (bouncingBallsBodyR rnd) s) k
      (hk n (Nat.lt_succ_self n))
    obtain ⟨i1, i2⟩ := ih (fun i hi => hk i (Nat.lt_succ_of_lt hi))
    simp only [forLoop]
    exact ⟨h1.trans i1, h2.trans i2⟩

theorem forLoop_bouncingBallsR_self (rnd : Rounding) (n : Nat) (s : RefRenderer) (i : Nat)
    (hi : i < n) :
    ((forLoop n (bouncingBallsBodyR rnd) s).velocity (3 * i + 1),
      (forLoop n (bouncingBallsBodyR rnd) s).position (3 * i + 1))
      = ballTickR rnd (s.velocity (3 * i + 1), s.position (3 * i + 1)) := by
  induction n with
  | zero => omega
  | succ n ih =>
    simp only [forLoop]
    rcases Nat.lt_succ_iff_lt_or_eq.mp hi with hlt | heq
    · obtain ⟨h1, h2⟩ := bouncingBallsBodyR_other rnd n (forLoop n (bouncingBallsBodyR rnd) s)
        (3 * i + 1) (by omega)
      rw [h1, h2]
      exact ih hlt
    · subst heq
      rw [bouncingBallsBodyR_self]
      obtain ⟨h1, h2⟩ := forLoop_bouncingBallsR_other rnd i s (3 * i + 1) (by intro j hj; omega)
      rw [h1, h2]

theorem advanceAnimationR_bouncingBalls (rnd : Rounding) (ext : Externals) (s : RefRenderer)
    (hs : s.sceneName = SceneName.BOUNCING_BALLS) :
    s.advanceAnimationR rnd ext = forLoop s.numCircles (bouncingBallsBodyR rnd) s := by
  simp [RefRenderer.advanceAnimationR, hs]

/-- C10: one BOUNCING_BALLS tick on a ball `i` that is not at rest computes, in float
arithmetic, `v1 = (if position.y < 0 and velocity.y < 0 then -0.8 * velocity.y else
velocity.y) + (-2.8) * (1/60)` and `p1 = position.y + v1 * (1/60)`, and snaps both to 0
exactly when `|v1 - velocity.y| < 0.001`, `position.y < 0` and
`|p1 - position.y| < 0.001`; the x and z position, x and z velocity, radius and colour
of the ball are unchanged.  Every operation and every literal is rounded by `rnd.fl`,
whatever rounding operator that is; the test is made on the rounded values. -/
theorem bouncingBalls_tick_rounded (rnd : Rounding) (ext : Externals) (s : RefRenderer)
    (i : Nat) (hs : s.sceneName = SceneName.BOUNCING_BALLS) (hi : i < s.numCircles)
    (hmove : ¬ (s.velocity (3 * i + 1) = 0 ∧ s.position (3 * i + 1) = 0)) :
    let v := s.velocity (3 * i + 1)
    let p := s.position (3 * i + 1)
    let dt := rnd.fl (1 / 60)
    let v1 := rnd.fl ((if p < 0 ∧ v < 0 then rnd.fl (v * rnd.fl (-(4 / 5))) else v)
      + rnd.fl (rnd.fl (-(14 / 5)) * dt))
    let p1 := rnd.fl (p + rnd.fl (v1 * dt))
    let snap := |rnd.fl (v1 - v)| < rnd.fl (1 / 1000) ∧ p < 0
      ∧ |rnd.fl (p1 - p)| < rnd.fl (1 / 1000)
    (s.advanceAnimationR rnd ext).velocity (3 * i + 1) = (if snap then 0 else v1)
    ∧ (s.advanceAnimationR rnd ext).position (3 * i + 1) = (if snap then 0 else p1)
    ∧ (s.advanceAnimationR rnd ext).position (3 * i) = s.position (3 * i)
    ∧ (s.advanceAnimationR rnd ext).position (3 * i + 2) = s.position (3 * i + 2)
    ∧ (s.advanceAnimationR rnd ext).velocity (3 * i) = s.velocity (3 * i)
    ∧ (s.advanceAnimationR rnd ext).velocity (3 * i + 2) = s.velocity (3 * i + 2)
    ∧ (s.advanceAnimationR rnd ext).radius i = s.radius i
    ∧ (s.advanceAnimationR rnd ext).color (3 * i) = s.color (3 * i)
    ∧ (s.advanceAnimationR rnd ext).color (3 * i + 1) = s.color (3 * i + 1)
    ∧ (s.advanceAnimationR rnd ext).color (3 * i + 2) = s.color (3 * i + 2) := by
  intro v p dt v1 p1 snap
  have hy := forLoop_bouncingBallsR_self rnd s.numCircles s i hi
  rw [advanceAnimationR_bouncingBalls rnd ext s hs]
  obtain ⟨-, -, hc, hr, -⟩ := forLoop_bouncingBallsR_fields rnd s.numCircles s
  obtain ⟨hx1, hx2⟩ := forLoop_bouncingBallsR_other rnd s.numCircles s (3 * i)
    (by intro j _; omega)
  obtain ⟨hz1, hz2⟩ := forLoop_bouncingBallsR_other rnd s.numCircles s (3 * i + 2)
    (by intro j _; omega)
  have hT : ballTickR rnd (s.velocity (3 * i + 1), s.position (3 * i + 1))
      = (if snap then 0 else v1, if snap then 0 else p1) := by
    unfold ballTickR
    simp only []
    rw [if_neg hmove]
    by_cases hsnap : snap
    · rw [if_pos hsnap, if_pos hsnap, if_pos hsnap]
    · rw [if_neg hsnap, if_neg hsnap, if_neg hsnap]
  rw [hT] at hy
  simp only [Prod.mk.injEq] at hy
  exact ⟨hy.1, hy.2, hx1, hz1, hx2, hz2, by rw [hr], by rw [hc], by rw [hc], by rw [hc]⟩

set_option maxRecDepth 100000 in
theorem bouncingBalls_tick_rounded_witness :
    grazingBall.sceneName = SceneName.BOUNCING_BALLS ∧ 0 < grazingBall.numCircles
    ∧ ¬ (grazingBall.velocity (3 * 0 + 1) = 0 ∧ grazingBall.position (3 * 0 + 1) = 0)
    ∧ |ieee.fl (-(6840133 / 268435456) - grazingBall.velocity (3 * 0 + 1))|
        = 536871 / 536870912
    ∧ ieee.fl (1 / 1000) = 8589935 / 8589934592
    ∧ (grazingBall.advanceAnimationR ieee sampleExt).velocity (3 * 0 + 1)
        = -(6840133 / 268435456)
    ∧ (grazingBall.advanceAnimationR ieee sampleExt).position (3 * 0 + 1)
        = -(11193427 / 1073741824)
    ∧ (grazingBall.advanceAnimationR ieee sampleExt).position (3 * 0) = 1 / 2 := by
  have hmove : ¬ (grazingBall.velocity (3 * 0 + 1) = 0
      ∧ grazingBall.position (3 * 0 + 1) = 0) := by decide!
  have h := bouncingBalls_tick_rounded ieee sampleExt grazingBall 0 rfl (by decide) hmove
  simp only [] at h
  refine ⟨rfl, by decide, hmove, by decide!, by decide!, ?_, ?_, ?_⟩
  · rw [h.1]; decide!
  · rw [h.2.1]; decide!
  · rw [h.2.2.1]; decide!

/-! ## HYPNOSIS with rounding -/

theorem hypnosisBodyR_fields (rnd : Rounding) (i : Nat) (s : RefRenderer) :
    (hypnosisBodyR rnd i s).sceneName = s.sceneName
    ∧ (hypnosisBodyR rnd i s).numCircles = s.numCircles := by
  unfold hypnosisBodyR
  simp only []
  split_ifs <;> simp

theorem hypnosisBodyR_radius (rnd : Rounding) (i : Nat) (s : RefRenderer) (k : Nat) :
    (hypnosisBodyR rnd i s).radius k
      = if k = i then radiusTickR rnd (s.radius i) else s.radius k := by
  unfold hypnosisBodyR radiusTickR
  simp only []
  by_cases hk : k = i
  · subst hk
    rw [if_pos rfl]
    split_ifs <;> simp
  · rw [if_neg hk]
    split_ifs <;> simp [Function.update, hk]

theorem forLoop_hypnosisR_fields (rnd : Rounding) (n : Nat) (s : RefRenderer) :
    (forLoop n (hypnosisBodyR rnd) s).sceneName = s.sceneName
    ∧ (forLoop n (hypnosisBodyR rnd) s).numCircles = s.numCircles := by
  induction n with
  | zero => simp [forLoop]
  | succ n ih =>
    obtain ⟨h1, h2⟩ := hypnosisBodyR_fields rnd n (forLoop n (hypnosisBodyR rnd) s)
    simp only [forLoop]
    exact ⟨h1.trans ih.1, h2.trans ih.2⟩

theorem forLoop_hypnosisR_radius (rnd : Rounding) (n : Nat) (s : RefRenderer) (k : Nat) :
    (forLoop n (hypnosisBodyR rnd) s).radius k
      = if k < n then radiusTickR rnd (s.radius k) else s.radius k := by
  induction n with
  | zero => simp [forLoop]
  | succ n ih =>
    simp only [forLoop]
    rw [hypnosisBodyR_radius, ih]
    by_cases hk : k = n
    · subst hk
      simp [ih]
    · rw [if_neg hk]
      by_cases hlt : k < n
      · rw [if_pos hlt, if_pos (Nat.lt_succ_of_lt hlt)]
      · rw [if_neg hlt, if_neg (by omega)]

theorem advanceAnimationR_hypnosis (rnd : Rounding) (ext : Externals) (s : RefRenderer)
    (hs : s.sceneName = SceneName.HYPNOSIS) :
    s.advanceAnimationR rnd ext = forLoop s.numCircles (hypnosisBodyR rnd) s := by
  simp [RefRenderer.advanceAnimationR, hs]

theorem iterate_hypnosisR (rnd : Rounding) (ext : Externals) (n : Nat) (s : RefRenderer)
    (hs : s.sceneName = SceneName.HYPNOSIS) (i : Nat) (hi : i < s.numCircles) :
    ((RefRenderer.advanceAnimationR rnd ext)^[n] s).sceneName = SceneName.HYPNOSIS
    ∧ ((RefRenderer.advanceAnimationR rnd ext)^[n] s).numCircles = s.numCircles
    ∧ ((RefRenderer.advanceAnimationR rnd ext)^[n] s).radius i
        = (radiusTickR rnd)^[n] (s.radius i) := by
  induction n with
  | zero => exact ⟨hs, rfl, rfl⟩
  | succ n ih =>
    obtain ⟨h1, h2, h3⟩ := ih
    rw [Function.iterate_succ_apply', Function.iterate_succ_apply']
    rw [advanceAnimationR_hypnosis rnd ext _ h1]
    obtain ⟨f1, f2⟩ := forLoop_hypnosisR_fields rnd
      ((RefRenderer.advanceAnimationR rnd ext)^[n] s).numCircles
      ((RefRenderer.advanceAnimationR rnd ext)^[n] s)
    refine ⟨f1.trans h1, f2.trans h2, ?_⟩
    rw [forLoop_hypnosisR_radius, h2, if_pos hi, h3]

theorem radiusTickR_grow (rnd : Rounding) (r0 : ℚ) (h0 : 0 ≤ r0)
    (herr : ∀ x : ℚ, 0 ≤ x → x ≤ 1 → |rnd.fl x - x| ≤ 1 / 100000)
    (j : Nat) (hj : j ≤ 100) (hlow : ∀ m, m < j → (radiusTickR rnd)^[m] r0 ≤ 1 / 2) :
    |(radiusTickR rnd)^[j] r0 - (r0 + (j : ℚ) / 100)| ≤ (j : ℚ) / 50000 := by
  induction j with
  | zero => simp
  | succ j ih =>
    have hprev := ih (by omega) (fun m hm => hlow m (Nat.lt_succ_of_lt hm))
    have hle := hlow j (Nat.lt_succ_self j)
    rw [Function.iterate_succ_apply']
    generalize (radiusTickR rnd)^[j] r0 = r at hprev hle
    have hc := herr (1 / 100) (by norm_num) (by norm_num)
    have hjq : (j : ℚ) ≤ 100 := by exact_mod_cast (by omega : j ≤ 100)
    have hj0 : (0 : ℚ) ≤ (j : ℚ) := by exact_mod_cast Nat.zero_le j
    obtain ⟨p1, p2⟩ := abs_le.mp hprev
    obtain ⟨c1, c2⟩ := abs_le.mp hc
    have hr0 : 0 ≤ r := by nlinarith
    have hs := herr (r + rnd.fl (1 / 100)) (by linarith) (by linarith)
    obtain ⟨s1, s2⟩ := abs_le.mp hs
    unfold radiusTickR
    rw [if_neg (not_lt.mpr hle)]
    push_cast
    rw [abs_le]
    constructor <;> linarith

theorem radiusTickR_cycle (rnd : Rounding) (r0 : ℚ) (h0 : 0 ≤ r0) (h1 : r0 ≤ 1 / 2)
    (herr : ∀ x : ℚ, 0 ≤ x → x ≤ 1 → |rnd.fl x - x| ≤ 1 / 100000) :
    ∃ k : Nat, 1 ≤ k
      ∧ (∀ j, j < k → (radiusTickR rnd)^[j] r0 ≤ 1 / 2)
      ∧ (radiusTickR rnd)^[k] r0 > 1 / 2
      ∧ (radiusTickR rnd)^[k + 1] r0 = rnd.fl (1 / 50)
      ∧ ⌊(1 / 2 - r0) / (1 / 100)⌋₊ ≤ k ∧ k ≤ ⌊(1 / 2 - r0) / (1 / 100)⌋₊ + 2 := by
  have hnn : (0 : ℚ) ≤ (1 / 2 - r0) / (1 / 100) := by
    apply div_nonneg <;> linarith
  have hfl := Nat.floor_le hnn
  have hlt := Nat.lt_floor_add_one ((1 / 2 - r0) / (1 / 100))
  set F := ⌊(1 / 2 - r0) / (1 / 100)⌋₊ with hF
  have hmul : (1 / 2 - r0) / (1 / 100) = (1 / 2 - r0) * 100 := by ring
  rw [hmul] at hfl hlt
  have hF50 : F ≤ 50 := by
    have : (F : ℚ) ≤ 50 := by linarith
    exact_mod_cast this
  have hFq : (F : ℚ) ≤ 50 := by exact_mod_cast hF50
  -- the radius exceeds one half after at most F + 2 calls
  have hex : ∃ k, (radiusTickR rnd)^[k] r0 > 1 / 2 := by
    by_contra hno
    push_neg at hno
    have hg := radiusTickR_grow rnd r0 h0 herr (F + 2) (by omega) (fun m _ => hno m)
    have hb := hno (F + 2)
    obtain ⟨g1, -⟩ := abs_le.mp hg
    push_cast at g1
    linarith
  let k := Nat.find hex
  have hk : (radiusTickR rnd)^[k] r0 > 1 / 2 := Nat.find_spec hex
  have hmin : ∀ j, j < k → (radiusTickR rnd)^[j] r0 ≤ 1 / 2 := by
    intro j hj
    exact not_lt.mp (Nat.find_min hex hj)
  have hk2 : k ≤ F + 2 := by
    by_contra hc
    have hg := radiusTickR_grow rnd r0 h0 herr (F + 2) (by omega)
      (fun m hm => hmin m (by omega))
    have hb := hmin (F + 2) (by omega)
    obtain ⟨g1, -⟩ := abs_le.mp hg
    push_cast at g1
    linarith
  have hk1 : 1 ≤ k := by
    by_contra hc
    have hk0 : k = 0 := by omega
    rw [hk0] at hk
    simp only [Function.iterate_zero, id_eq] at hk
    linarith
  have hkF : F ≤ k := by
    by_contra hc
    have hkF1 : k + 1 ≤ F := by omega
    have hg := radiusTickR_grow rnd r0 h0 herr k (by omega) hmin
    obtain ⟨-, g2⟩ := abs_le.mp hg
    have hkq : (k : ℚ) + 1 ≤ (F : ℚ) := by exact_mod_cast hkF1
    have hk0 : (0 : ℚ) ≤ (k : ℚ) := by exact_mod_cast Nat.zero_le k
    linarith
  refine ⟨k, hk1, hmin, hk, ?_, hkF, hk2⟩
  rw [Function.iterate_succ_apply']
  generalize (radiusTickR rnd)^[k] r0 = r at hk
  unfold radiusTickR
  rw [if_pos hk]

/-- C4, as stated, fails.  A HYPNOSIS circle that starts with radius 0.5 has
`k = ceil((0.5 - 0.5)/0.01) = 0`, but after 0 calls its radius is 0.5, which does not
exceed 0.5.  In float arithmetic a circle that starts with radius 0.1f has `k = 40`,
but after 40 calls its radius is 0.49999982, which does not exceed 0.5; it is
0.5099998 after 41 calls and 0.02f after 42. -/
theorem hypnosis_cycle_ceil_counterexample :
    (halfRing.sceneName = SceneName.HYPNOSIS ∧ halfRing.radius 0 ≤ 1 / 2
      ∧ ⌈(1 / 2 - halfRing.radius 0) / (1 / 100)⌉₊ = 0
      ∧ ¬ (((RefRenderer.advanceAnimationR ieee sampleExt)^[0] halfRing).radius 0 > 1 / 2))
    ∧ (tenthRing.sceneName = SceneName.HYPNOSIS ∧ tenthRing.radius 0 ≤ 1 / 2
      ∧ ⌈(1 / 2 - tenthRing.radius 0) / (1 / 100)⌉₊ = 40
      ∧ ((RefRenderer.advanceAnimationR ieee sampleExt)^[40] tenthRing).radius 0
          = 8388605 / 16777216
      ∧ ¬ (((RefRenderer.advanceAnimationR ieee sampleExt)^[40] tenthRing).radius 0 > 1 / 2)
      ∧ ((RefRenderer.advanceAnimationR ieee sampleExt)^[41] tenthRing).radius 0
          = 8556377 / 16777216
      ∧ ((RefRenderer.advanceAnimationR ieee sampleExt)^[42] tenthRing).radius 0
          = ieee.fl (1 / 50)) := by
  have hk : ⌈(1 / 2 - halfRing.radius 0) / (1 / 100)⌉₊ = 0 := by
    simp [halfRing]
  have hk2 : ⌈(1 / 2 - tenthRing.radius 0) / (1 / 100)⌉₊ = 40 := by
    simp only [tenthRing]
    rw [Nat.ceil_eq_iff (by norm_num)]
    norm_num
  have e40 : (radiusTickR ieee)^[40] (tenthRing.radius 0) = 8388605 / 16777216 := by decide!
  have e41 : (radiusTickR ieee)^[41] (tenthRing.radius 0) = 8556377 / 16777216 := by decide!
  have e42 : (radiusTickR ieee)^[42] (tenthRing.radius 0) = ieee.fl (1 / 50) := by decide!
  refine ⟨⟨rfl, by decide!, hk, by decide!⟩, rfl, by decide!, hk2, ?_, ?_, ?_, ?_⟩
  · rw [(iterate_hypnosisR ieee sampleExt 40 tenthRing rfl 0 (by decide)).2.2, e40]
  · rw [(iterate_hypnosisR ieee sampleExt 40 tenthRing rfl 0 (by decide)).2.2, e40]
    norm_num
  · rw [(iterate_hypnosisR ieee sampleExt 41 tenthRing rfl 0 (by decide)).2.2, e41]
  · rw [(iterate_hypnosisR ieee sampleExt 42 tenthRing rfl 0 (by decide)).2.2, e42]

/-- C4, amended: in the HYPNOSIS scene, for every particle with starting radius
`0 ≤ r0 ≤ 0.5`, there is a number `k ≥ 1` of `advanceAnimation` calls such that the
particle's radius is at most 0.5 after every smaller number of calls, exceeds 0.5
after `k` calls, and is exactly 0.02 (the float `0.02f`) after the following
`(k+1)`-th call; `k` differs from `floor((0.5 - r0)/0.01) + 1` by at most one.  This
holds for every rounding of the float additions whose error on the interval from 0 to
1 is at most 0.00001, as that of `float` is. -/
theorem hypnosis_cycle_rounded (rnd : Rounding) (ext : Externals) (s : RefRenderer) (i : Nat)
    (hs : s.sceneName = SceneName.HYPNOSIS) (hi : i < s.numCircles)
    (h0 : 0 ≤ s.radius i) (h1 : s.radius i ≤ 1 / 2)
    (herr : ∀ x : ℚ, 0 ≤ x → x ≤ 1 → |rnd.fl x - x| ≤ 1 / 100000) :
    ∃ k : Nat, 1 ≤ k
      ∧ (∀ j, j < k → ((RefRenderer.advanceAnimationR rnd ext)^[j] s).radius i ≤ 1 / 2)
      ∧ ((RefRenderer.advanceAnimationR rnd ext)^[k] s).radius i > 1 / 2
      ∧ ((RefRenderer.advanceAnimationR rnd ext)^[k + 1] s).radius i = rnd.fl (1 / 50)
      ∧ ⌊(1 / 2 - s.radius i) / (1 / 100)⌋₊ ≤ k
      ∧ k ≤ ⌊(1 / 2 - s.radius i) / (1 / 100)⌋₊ + 2 := by
  obtain ⟨k, a, b, c, d, e, f⟩ := radiusTickR_cycle rnd (s.radius i) h0 h1 herr
  refine ⟨k, a, ?_, ?_, ?_, e, f⟩
  · intro j hj
    rw [(iterate_hypnosisR rnd ext j s hs i hi).2.2]
    exact b j hj
  · rw [(iterate_hypnosisR rnd ext k s hs i hi).2.2]
    exact c
  · rw [(iterate_hypnosisR rnd ext (k + 1) s hs i hi).2.2]
    exact d

set_option maxRecDepth 1000000 in
theorem hypnosis_cycle_rounded_witness :
    tenthRing.sceneName = SceneName.HYPNOSIS ∧ 0 < tenthRing.numCircles
    ∧ 0 ≤ tenthRing.radius 0 ∧ tenthRing.radius 0 ≤ 1 / 2
    ∧ (∀ x : ℚ, 0 ≤ x → x ≤ 1 → |ieee.fl x - x| ≤ 1 / 100000)
    ∧ ⌊(1 / 2 - tenthRing.radius 0) / (1 / 100)⌋₊ + 1 = 40
    ∧ ∃ k : Nat, 1 ≤ k
      ∧ (∀ j, j < k →
          ((RefRenderer.advanceAnimationR ieee sampleExt)^[j] tenthRing).radius 0 ≤ 1 / 2)
      ∧ ((RefRenderer.advanceAnimationR ieee sampleExt)^[k] tenthRing).radius 0 > 1 / 2
      ∧ ((RefRenderer.advanceAnimationR ieee sampleExt)^[k + 1] tenthRing).radius 0
          = ieee.fl (1 / 50)
      ∧ ⌊(1 / 2 - tenthRing.radius 0) / (1 / 100)⌋₊ ≤ k
      ∧ k ≤ ⌊(1 / 2 - tenthRing.radius 0) / (1 / 100)⌋₊ + 2 := by
  have hF : ⌊(1 / 2 - tenthRing.radius 0) / (1 / 100)⌋₊ + 1 = 40 := by
    simp only [tenthRing]
    have : ⌊((1 : ℚ) / 2 - 13421773 / 134217728) / (1 / 100)⌋₊ = 39 := by
      rw [Nat.floor_eq_iff (by norm_num)]
      norm_num
    rw [this]
  exact ⟨rfl, by decide, by decide!, by decide!, ieee_error_unit, hF,
    hypnosis_cycle_rounded ieee sampleExt tenthRing 0 rfl (by decide) (by decide!) (by decide!)
      ieee_error_unit⟩

/-! ## SNOWFLAKES with rounding -/

theorem snowflakesBodyR_fields (rnd : Rounding) (ext : Externals) (i : Nat) (s : RefRenderer) :
    (snowflakesBodyR rnd ext i s).radius = s.radius
    ∧ (snowflakesBodyR rnd ext i s).color = s.color := by
  unfold snowflakesBodyR
  simp only []
  split_ifs <;> exact ⟨rfl, rfl⟩

theorem snowflakesBodyR_frame (rnd : Rounding) (ext : Externals) (i : Nat) (s : RefRenderer)
    (m : Nat) (hm : ¬ m / 3 = i) :
    (snowflakesBodyR rnd ext i s).position m = s.position m
    ∧ (snowflakesBodyR rnd ext i s).velocity m = s.velocity m := by
  have h0 : m ≠ 3 * i := by omega
  have h1 : m ≠ 3 * i + 1 := by omega
  have h2 : m ≠ 3 * i + 2 := by omega
  unfold snowflakesBodyR
  simp only []
  split_ifs <;> simp [Function.update, h0, h1, h2]

theorem snowflakesBodyR_self (rnd : Rounding) (ext : Externals) (i : Nat) (s : RefRenderer) :
    (snowflakesBodyR rnd ext i s).particle i
      = snowTickR rnd ext i (s.particle i).1 (s.particle i).2 (s.radius i) := by
  have e01 : 3 * i ≠ 3 * i + 1 := by omega
  have e02 : 3 * i ≠ 3 * i + 2 := by omega
  have e12 : 3 * i + 1 ≠ 3 * i + 2 := by omega
  have e10 : 3 * i + 1 ≠ 3 * i := by omega
  have e20 : 3 * i + 2 ≠ 3 * i := by omega
  have e21 : 3 * i + 2 ≠ 3 * i + 1 := by omega
  unfold snowflakesBodyR snowTickR RefRenderer.particle
  simp only [Function.update, e01, e02, e12, e10, e20, e21, eq_rec_constant, dite_eq_ite,
    if_true, if_false, ite_true, ite_false]
  split_ifs <;> simp [Function.update, e01, e02, e12, e10, e20, e21]

theorem advanceAnimationR_snowflakes (rnd : Rounding) (ext : Externals) (s : RefRenderer)
    (hs : s.sceneName = SceneName.SNOWFLAKES) :
    s.advanceAnimationR rnd ext = forLoop s.numCircles (snowflakesBodyR rnd ext) s := by
  simp [RefRenderer.advanceAnimationR, hs]

theorem forLoop_snowflakesR_particle (rnd : Rounding) (ext : Externals) (s : RefRenderer)
    (n i : Nat) (hi : i < n) :
    (forLoop n (snowflakesBodyR rnd ext) s).particle i
      = snowTickR rnd ext i (s.particle i).1 (s.particle i).2 (s.radius i) := by
  have hframe : ∀ k t m, ¬ (fun k m => m / 3 = k) k m →
      (snowflakesBodyR rnd ext k t).position m = t.position m
      ∧ (snowflakesBodyR rnd ext k t).velocity m = t.velocity m :=
    fun k t m h => snowflakesBodyR_frame rnd ext k t m h
  have hat : ∀ m, m / 3 = i →
      (forLoop n (snowflakesBodyR rnd ext) s).position m
        = (snowflakesBodyR rnd ext i (forLoop i (snowflakesBodyR rnd ext) s)).position m
      ∧ (forLoop n (snowflakesBodyR rnd ext) s).velocity m
        = (snowflakesBodyR rnd ext i (forLoop i (snowflakesBodyR rnd ext) s)).velocity m := by
    intro m hm
    exact forLoop_at_pv _ (fun k m => m / 3 = k) hframe n s i hi m
      (by intro k hk _ hR; have hR2 : m / 3 = k := hR; omega)
  have hT : ∀ m, m / 3 = i →
      (forLoop i (snowflakesBodyR rnd ext) s).position m = s.position m
      ∧ (forLoop i (snowflakesBodyR rnd ext) s).velocity m = s.velocity m := by
    intro m hm
    exact forLoop_frame_pv _ (fun k m => m / 3 = k) hframe i s m
      (by intro k hk hR; have hR2 : m / 3 = k := hR; omega)
  have hTr : (forLoop i (snowflakesBodyR rnd ext) s).radius = s.radius :=
    forLoop_radius _ (fun k t => (snowflakesBodyR_fields rnd ext k t).1) i s
  have hself := snowflakesBodyR_self rnd ext i (forLoop i (snowflakesBodyR rnd ext) s)
  have hTp : (forLoop i (snowflakesBodyR rnd ext) s).particle i = s.particle i := by
    unfold RefRenderer.particle
    rw [(hT (3 * i) (by omega)).1, (hT (3 * i + 1) (by omega)).1, (hT (3 * i + 2) (by omega)).1,
      (hT (3 * i) (by omega)).2, (hT (3 * i + 1) (by omega)).2, (hT (3 * i + 2) (by omega)).2]
  rw [hTp, hTr] at hself
  rw [← hself]
  unfold RefRenderer.particle
  rw [(hat (3 * i) (by omega)).1, (hat (3 * i + 1) (by omega)).1,
    (hat (3 * i + 2) (by omega)).1, (hat (3 * i) (by omega)).2,
    (hat (3 * i + 1) (by omega)).2, (hat (3 * i + 2) (by omega)).2]

/-- C12: in the SNOWFLAKES scene, for any noise function, a tick respawns particle `i`
exactly when its position after integration, as stored in float, satisfies
`y + radius < 0` or `x + radius < 0` or `x - radius > 1` (the sums and the difference
computed in float).  In that case the particle ends the tick with
`position.y = 1.35 + radius[i]`, `velocity.y = 0`, `position.x = 0.5 + 0.5*n0` and
`velocity.x = 2*n1`, where `(n0, n1)` is the noise sample at `(255x, 255y, 255z)` of
the integrated position with index `i`; otherwise it ends the tick at the integrated
position with the velocity updated by the forces.  In both cases the radius is
unchanged, position.z is the integrated z and velocity.z is unchanged.  Every
operation and every literal is rounded by `rnd.fl`, whatever rounding operator that
is. -/
theorem snowflakes_respawn_rounded (rnd : Rounding) (ext : Externals) (s : RefRenderer)
    (i : Nat) (hs : s.sceneName = SceneName.SNOWFLAKES) (hi : i < s.numCircles) :
    let dt := rnd.fl (1 / 60)
    let x1 := rnd.fl (s.position (3 * i) + rnd.fl (s.velocity (3 * i) * dt))
    let y1 := rnd.fl (s.position (3 * i + 1) + rnd.fl (s.velocity (3 * i + 1) * dt))
    let z1 := rnd.fl (s.position (3 * i + 2) + rnd.fl (s.velocity (3 * i + 2) * dt))
    let respawn := rnd.fl (y1 + s.radius i) < 0 ∨ rnd.fl (x1 + s.radius i) < 0
      ∨ rnd.fl (x1 - s.radius i) > 1
    let noise2 := ext.vec2CellNoise (rnd.fl (255 * x1)) (rnd.fl (255 * y1))
      (rnd.fl (255 * z1)) i
    let forceScaling : ℚ := CLAMP (rnd.fl (1 - s.position (3 * i + 2))) (rnd.fl (1 / 10)) 1
    let noise1 := ext.vec2CellNoise (rnd.fl (10 * s.position (3 * i)))
      (rnd.fl (10 * s.position (3 * i + 1))) (rnd.fl (255 * s.position (3 * i + 2))) i
    (respawn →
        (s.advanceAnimationR rnd ext).position (3 * i + 1)
          = rnd.fl (rnd.fl (27 / 20) + s.radius i)
        ∧ (s.advanceAnimationR rnd ext).velocity (3 * i + 1) = 0
        ∧ (s.advanceAnimationR rnd ext).position (3 * i)
          = rnd.fl (1 / 2 + rnd.fl (1 / 2 * noise2.1))
        ∧ (s.advanceAnimationR rnd ext).velocity (3 * i) = rnd.fl (2 * noise2.2))
    ∧ (¬ respawn →
        (s.advanceAnimationR rnd ext).position (3 * i) = x1
        ∧ (s.advanceAnimationR rnd ext).position (3 * i + 1) = y1
        ∧ (s.advanceAnimationR rnd ext).velocity (3 * i)
            = rnd.fl (s.velocity (3 * i) + rnd.fl (rnd.fl (forceScaling
                * rnd.fl (rnd.fl (noise1.1 * (15 / 2))
                    + rnd.fl (rnd.fl (-1 * 2) * s.velocity (3 * i)))) * dt))
        ∧ (s.advanceAnimationR rnd ext).velocity (3 * i + 1)
            = rnd.fl (s.velocity (3 * i + 1) + rnd.fl (rnd.fl (forceScaling
                * rnd.fl (rnd.fl (rnd.fl (-(9 / 5)) + rnd.fl (noise1.2 * 5))
                    + rnd.fl (rnd.fl (-1 * 2) * s.velocity (3 * i + 1)))) * dt)))
    ∧ (s.advanceAnimationR rnd ext).radius i = s.radius i
    ∧ (s.advanceAnimationR rnd ext).position (3 * i + 2) = z1
    ∧ (s.advanceAnimationR rnd ext).velocity (3 * i + 2) = s.velocity (3 * i + 2) := by
  intro dt x1 y1 z1 respawn noise2 forceScaling noise1
  have hp := forLoop_snowflakesR_particle rnd ext s s.numCircles i hi
  rw [← advanceAnimationR_snowflakes rnd ext s hs] at hp
  have hr : (s.advanceAnimationR rnd ext).radius = s.radius := by
    rw [advanceAnimationR_snowflakes rnd ext s hs]
    exact forLoop_radius _ (fun k t => (snowflakesBodyR_fields rnd ext k t).1) _ s
  unfold snowTickR RefRenderer.particle at hp
  simp only [] at hp
  by_cases hre : respawn
  · rw [if_pos hre] at hp
    simp only [Prod.mk.injEq] at hp
    obtain ⟨⟨p0, p1, p2⟩, v0, v1, v2⟩ := hp
    exact ⟨fun _ => ⟨p1, v1, p0, v0⟩, fun h => absurd hre h, by rw [hr], p2, v2⟩
  · rw [if_neg hre] at hp
    simp only [Prod.mk.injEq] at hp
    obtain ⟨⟨p0, p1, p2⟩, v0, v1, v2⟩ := hp
    exact ⟨fun h => absurd h hre, fun _ => ⟨p0, p1, v0, v1⟩, by rw [hr], p2, v2⟩

set_option maxRecDepth 100000 in
theorem snowflakes_respawn_rounded_witness :
    dustScene.sceneName = SceneName.SNOWFLAKES ∧ 1 < dustScene.numCircles
    ∧ ieee.fl (ieee.fl (dustScene.position (3 * 0 + 1)
          + ieee.fl (dustScene.velocity (3 * 0 + 1) * ieee.fl (1 / 60)))
        + dustScene.radius 0) = 0
    ∧ (dustScene.advanceAnimationR ieee sampleExt).position (3 * 0 + 1)
        = -(13421773 / 134217728)
    ∧ ieee.fl (ieee.fl (dustScene.position (3 * 1 + 1)
          + ieee.fl (dustScene.velocity (3 * 1 + 1) * ieee.fl (1 / 60)))
        + dustScene.radius 1) < 0
    ∧ (dustScene.advanceAnimationR ieee sampleExt).position (3 * 1 + 1)
        = ieee.fl (ieee.fl (27 / 20) + dustScene.radius 1)
    ∧ (dustScene.advanceAnimationR ieee sampleExt).velocity (3 * 1 + 1) = 0
    ∧ (dustScene.advanceAnimationR ieee sampleExt).radius 1 = dustScene.radius 1 := by
  have h0 := snowflakes_respawn_rounded ieee sampleExt dustScene 0 rfl (by decide)
  have h1 := snowflakes_respawn_rounded ieee sampleExt dustScene 1 rfl (by decide)
  simp only [] at h0 h1
  have hlow : ieee.fl (ieee.fl (dustScene.position (3 * 1 + 1)
          + ieee.fl (dustScene.velocity (3 * 1 + 1) * ieee.fl (1 / 60)))
        + dustScene.radius 1) < 0 := by decide!
  obtain ⟨-, b0, -, -, -⟩ := h0
  obtain ⟨a1, -, c1, -, -⟩ := h1
  obtain ⟨p, q, -, -⟩ := a1 (Or.inl hlow)
  have hstay := (b0 (by decide!)).2.1
  refine ⟨rfl, by decide, by decide!, ?_, hlow, p, q, c1⟩
  rw [hstay]
  decide!

/-! ## FIREWORKS with rounding -/

theorem screenBoxR_defined (rnd : Rounding) (s : RefRenderer) (i : Nat)
    (h : s.boxFitsR rnd i) :
    s.screenBoxR rnd i
      = some
        (CLAMP (truncate (rnd.fl (rnd.fl (s.position (3 * i) - s.radius i)
            * rnd.fl (s.image.width : ℚ)))) 0 s.image.width,
         CLAMP (truncate (rnd.fl (rnd.fl (s.position (3 * i) + s.radius i)
            * rnd.fl (s.image.width : ℚ))) + 1) 0 s.image.width,
         CLAMP (truncate (rnd.fl (rnd.fl (s.position (3 * i + 1) - s.radius i)
            * rnd.fl (s.image.height : ℚ)))) 0 s.image.height,
         CLAMP (truncate (rnd.fl (rnd.fl (s.position (3 * i + 1) + s.radius i)
            * rnd.fl (s.image.height : ℚ))) + 1) 0 s.image.height) := by
  obtain ⟨hx0, hx1, hy0, hy1⟩ := h
  unfold RefRenderer.screenBoxR
  simp only []
  rw [(castInt_defined _ hx0.1 hx0.2).1, (castInt_defined _ hx1.1 hx1.2).1,
    (castInt_defined _ hy0.1 hy0.2).1, (castInt_defined _ hy1.1 hy1.2).1]
  simp only [Option.some_bind]
  rw [(castInt_defined _ hx1.1 hx1.2).2, (castInt_defined _ hy1.1 hy1.2).2]
  rfl

/-- C13, as stated, fails: for a circle of radius 0.25 at x = -0.5 and width 1 the
product `(center + radius) * width` is -0.25 (exactly, also in float), which
`static_cast<int>` truncates to 0, so the upper bound `render` iterates to is
`clamp(0 + 1, 0, 1) = 1`, whereas `clamp(floor(-0.25) + 1, 0, 1) = 0`. -/
theorem screenBox_floor_counterexample :
    0 < leftDisc.image.width ∧ 0 < leftDisc.image.height
    ∧ leftDisc.screenBoxR ieee 0 = some (0, 1, 0, 1)
    ∧ leftDisc.screenBox 0 = some (0, 1, 0, 1)
    ∧ (leftDisc.position (3 * 0) + leftDisc.radius 0) * (leftDisc.image.width : ℚ) = -(1 / 4)
    ∧ CLAMP (⌊(leftDisc.position (3 * 0) + leftDisc.radius 0)
          * (leftDisc.image.width : ℚ)⌋ + 1) 0 leftDisc.image.width = 0 := by
  decide!

/-- C13, amended: for every circle and every image size `width, height > 0`, let
`P-` and `P+` be, on each axis, the float values the code computes for
`(center - radius) * dimension` and `(center + radius) * dimension`: the difference
or sum rounded to float, then its product with the dimension converted to float,
rounded to float.  Whenever the four products lie in the range from `-2^31` to
`2^31 - 1` of the conversion to `int`, the pixel-space box `render` iterates over
has, on each axis, lower bound `clamp(floor(P-), 0, dimension)` and upper (exclusive)
bound `clamp(trunc(P+) + 1, 0, dimension)`, where `trunc` rounds toward zero.  The
upper bound equals `clamp(floor(P+) + 1, 0, dimension)` unless `-1 < P+ < 0`, where
it is 1.  This holds whatever the rounding operator `rnd.fl` is. -/
theorem screenBox_bounds_rounded (rnd : Rounding) (s : RefRenderer) (i : Nat)
    (hw : 0 < s.image.width) (hh : 0 < s.image.height) (hfit : s.boxFitsR rnd i) :
    let xLo := rnd.fl (rnd.fl (s.position (3 * i) - s.radius i) * rnd.fl (s.image.width : ℚ))
    let xHi := rnd.fl (rnd.fl (s.position (3 * i) + s.radius i) * rnd.fl (s.image.width : ℚ))
    let yLo := rnd.fl (rnd.fl (s.position (3 * i + 1) - s.radius i)
      * rnd.fl (s.image.height : ℚ))
    let yHi := rnd.fl (rnd.fl (s.position (3 * i + 1) + s.radius i)
      * rnd.fl (s.image.height : ℚ))
    s.screenBoxR rnd i
      = some (CLAMP ⌊xLo⌋ 0 s.image.width, CLAMP (truncate xHi + 1) 0 s.image.width,
              CLAMP ⌊yLo⌋ 0 s.image.height, CLAMP (truncate yHi + 1) 0 s.image.height)
    ∧ (¬ (-1 < xHi ∧ xHi < 0) →
        CLAMP (truncate xHi + 1) 0 s.image.width = CLAMP (⌊xHi⌋ + 1) 0 s.image.width)
    ∧ (¬ (-1 < yHi ∧ yHi < 0) →
        CLAMP (truncate yHi + 1) 0 s.image.height = CLAMP (⌊yHi⌋ + 1) 0 s.image.height)
    ∧ ((-1 < xHi ∧ xHi < 0) → CLAMP (truncate xHi + 1) 0 s.image.width = 1)
    ∧ ((-1 < yHi ∧ yHi < 0) → CLAMP (truncate yHi + 1) 0 s.image.height = 1) := by
  intro xLo xHi yLo yHi
  refine ⟨?_, fun h => CLAMP_truncate_high _ _ h, fun h => CLAMP_truncate_high _ _ h,
    fun h => (CLAMP_truncate_gap _ _ hw h).1, fun h => (CLAMP_truncate_gap _ _ hh h).1⟩
  rw [screenBoxR_defined rnd s i hfit, CLAMP_truncate_low, CLAMP_truncate_low]

set_option maxRecDepth 100000 in
theorem screenBox_bounds_rounded_witness :
    0 < offsetDisc.image.width ∧ 0 < offsetDisc.image.height ∧ offsetDisc.boxFitsR ieee 0
    ∧ ieee.fl (ieee.fl (offsetDisc.position (3 * 0) + offsetDisc.radius 0)
        * ieee.fl (offsetDisc.image.width : ℚ)) = 8
    ∧ (offsetDisc.position (3 * 0) + offsetDisc.radius 0) * (offsetDisc.image.width : ℚ) < 8
    ∧ offsetDisc.screenBoxR ieee 0 = some (5, 9, 5, 9)
    ∧ offsetDisc.screenBoxR ieee 0
      = some (CLAMP ⌊ieee.fl (ieee.fl (offsetDisc.position (3 * 0) - offsetDisc.radius 0)
                * ieee.fl (offsetDisc.image.width : ℚ))⌋ 0 offsetDisc.image.width,
              CLAMP (truncate (ieee.fl (ieee.fl (offsetDisc.position (3 * 0)
                + offsetDisc.radius 0) * ieee.fl (offsetDisc.image.width : ℚ))) + 1) 0
                offsetDisc.image.width,
              CLAMP ⌊ieee.fl (ieee.fl (offsetDisc.position (3 * 0 + 1) - offsetDisc.radius 0)
                * ieee.fl (offsetDisc.image.height : ℚ))⌋ 0 offsetDisc.image.height,
              CLAMP (truncate (ieee.fl (ieee.fl (offsetDisc.position (3 * 0 + 1)
                + offsetDisc.radius 0) * ieee.fl (offsetDisc.image.height : ℚ))) + 1) 0
                offsetDisc.image.height) := by
  have hfit : offsetDisc.boxFitsR ieee 0 := by
    unfold RefRenderer.boxFitsR
    decide!
  exact ⟨by decide, by decide, hfit, by decide!, by decide!, by decide!,
    (screenBox_bounds_rounded ieee offsetDisc 0 (by decide) (by decide) hfit).1⟩

/-! ## render with rounding: one circle -/

theorem shadePixelR_reject (rnd : Rounding) (ext : Externals) (s : RefRenderer) (i : Nat)
    (cx cy px py pz : ℚ) (data : ℤ → ℚ) (p : ℤ)
    (h : rnd.fl (rnd.fl (rnd.fl (px - cx) * rnd.fl (px - cx))
          + rnd.fl (rnd.fl (py - cy) * rnd.fl (py - cy)))
        > rnd.fl (s.radius i * s.radius i)) :
    s.shadePixelR rnd ext i cx cy px py pz data p = some data := by
  unfold RefRenderer.shadePixelR
  simp only []
  rw [if_pos h]

theorem shadePixelR_blend (rnd : Rounding) (ext : Externals) (s : RefRenderer) (i : Nat)
    (cx cy px py pz : ℚ) (data : ℤ → ℚ) (p : ℤ)
    (h : ¬ rnd.fl (rnd.fl (rnd.fl (px - cx) * rnd.fl (px - cx))
          + rnd.fl (rnd.fl (py - cy) * rnd.fl (py - cy)))
        > rnd.fl (s.radius i * s.radius i)) :
    s.shadePixelR rnd ext i cx cy px py pz data p
      = (s.shadingR rnd ext i
          (rnd.fl (rnd.fl (rnd.fl (px - cx) * rnd.fl (px - cx))
            + rnd.fl (rnd.fl (py - cy) * rnd.fl (py - cy))))
          (s.radius i) pz).bind
          fun c => some (Function.update (Function.update (Function.update (Function.update data
            p (rnd.fl (rnd.fl (c.2.2.2 * c.1) + rnd.fl (rnd.fl (1 - c.2.2.2) * data p))))
            (p + 1) (rnd.fl (rnd.fl (c.2.2.2 * c.2.1)
              + rnd.fl (rnd.fl (1 - c.2.2.2) * data (p + 1)))))
            (p + 2) (rnd.fl (rnd.fl (c.2.2.2 * c.2.2.1)
              + rnd.fl (rnd.fl (1 - c.2.2.2) * data (p + 2)))))
            (p + 3) (rnd.fl (data (p + 3) + c.2.2.2))) := by
  unfold RefRenderer.shadePixelR
  simp only []
  rw [if_neg h]
  congr 1
  funext c
  have h1 : p + 1 ≠ p := by omega
  have h2 : p + 2 ≠ p := by omega
  have h3 : p + 3 ≠ p := by omega
  have h21 : p + 2 ≠ p + 1 := by omega
  have h31 : p + 3 ≠ p + 1 := by omega
  have h32 : p + 3 ≠ p + 2 := by omega
  simp [Function.update, h1, h2, h3, h21, h31, h32]

theorem shadingR_static (rnd : Rounding) (ext : Externals) (s : RefRenderer) (i : Nat)
    (d rad pz : ℚ) (h1 : s.sceneName ≠ SceneName.SNOWFLAKES)
    (h2 : s.sceneName ≠ SceneName.SNOWFLAKES_SINGLE_FRAME) :
    s.shadingR rnd ext i d rad pz
      = some (s.color (3 * i), s.color (3 * i + 1), s.color (3 * i + 2), 1 / 2) := by
  unfold RefRenderer.shadingR
  simp [h1, h2]

theorem shadePixelR_frame (rnd : Rounding) (ext : Externals) (s : RefRenderer) (i : Nat)
    (cx cy px py pz : ℚ) (data d1 : ℤ → ℚ) (p : ℤ)
    (h : s.shadePixelR rnd ext i cx cy px py pz data p = some d1)
    (m : ℤ) (hm : ¬ (p ≤ m ∧ m < p + 4)) : d1 m = data m := by
  by_cases hd : rnd.fl (rnd.fl (rnd.fl (px - cx) * rnd.fl (px - cx))
          + rnd.fl (rnd.fl (py - cy) * rnd.fl (py - cy)))
        > rnd.fl (s.radius i * s.radius i)
  · rw [shadePixelR_reject rnd ext s i cx cy px py pz data p hd] at h
    simp only [Option.some.injEq] at h
    rw [← h]
  · rw [shadePixelR_blend rnd ext s i cx cy px py pz data p hd] at h
    obtain ⟨c, -, hc⟩ := Option.bind_eq_some.mp h
    simp only [Option.some.injEq] at hc
    rw [← hc]
    apply update4_other
    omega

theorem shadePixelR_static_defined (rnd : Rounding) (ext : Externals) (s : RefRenderer)
    (i : Nat) (cx cy px py pz : ℚ) (d : ℤ → ℚ) (p : ℤ)
    (h1 : s.sceneName ≠ SceneName.SNOWFLAKES)
    (h2 : s.sceneName ≠ SceneName.SNOWFLAKES_SINGLE_FRAME) :
    ∃ d1, s.shadePixelR rnd ext i cx cy px py pz d p = some d1 := by
  by_cases hd : rnd.fl (rnd.fl (rnd.fl (px - cx) * rnd.fl (px - cx))
          + rnd.fl (rnd.fl (py - cy) * rnd.fl (py - cy)))
        > rnd.fl (s.radius i * s.radius i)
  · exact ⟨d, shadePixelR_reject rnd ext s i cx cy px py pz d p hd⟩
  · rw [shadePixelR_blend rnd ext s i cx cy px py pz d p hd,
      shadingR_static rnd ext s i _ _ _ h1 h2]
    exact ⟨_, rfl⟩

theorem boxLoop_cells (w : ℤ) (op : ℤ → ℤ → (ℤ → ℚ) → Option (ℤ → ℚ))
    (hframe : ∀ x y d d1, op x y d = some d1 → ∀ m, ¬ inSlot w x y m → d1 m = d m)
    (x0 x1 y0 y1 : ℤ) (hx0 : 0 ≤ x0) (hx1 : x1 ≤ max 0 w) (data data1 : ℤ → ℚ)
    (h : forRangeM y0 y1 (fun pixelY dataY =>
      forRangeM x0 x1 (fun pixelX dataX => op pixelX pixelY dataX) dataY) data = some data1) :
    (∀ x y : ℤ, x0 ≤ x → x < x1 → y0 ≤ y → y < y1 →
        ∃ d1 d2 : ℤ → ℚ, op x y d1 = some d2
          ∧ (∀ m, inSlot w x y m → d1 m = data m)
          ∧ (∀ m, inSlot w x y m → data1 m = d2 m))
    ∧ (∀ m : ℤ, (∀ x y : ℤ, x0 ≤ x → x < x1 → y0 ≤ y → y < y1 → ¬ inSlot w x y m) →
        data1 m = data m) := by
  have hinner : ∀ (y : ℤ) (d d1 : ℤ → ℚ),
      forRangeM x0 x1 (fun pixelX dataX => op pixelX y dataX) d = some d1 →
      ∀ m, ¬ (∃ x, x0 ≤ x ∧ x < x1 ∧ inSlot w x y m) → d1 m = d m := by
    intro y d d1 hd m hm
    refine forRangeM_frame _ (fun x m => inSlot w x y m) ?_ x0 x1 d d1 hd m ?_
    · intro z e e1 he m1 hm1
      exact hframe z y e e1 he m1 hm1
    · intro z hz1 hz2 hin
      exact hm ⟨z, hz1, hz2, hin⟩
  have hlt : ∀ a : ℤ, x0 ≤ a → a < x1 → 0 ≤ a ∧ a < w := by
    intro a ha1 ha2
    rcases max_cases 0 w with ⟨e1, _⟩ | ⟨e1, _⟩ <;> rw [e1] at hx1 <;> omega
  constructor
  · intro x y hx hxx hy hyy
    obtain ⟨D1, D2, hD, hD1, hD2⟩ := forRangeM_cell _
      (fun y m => ∃ x, x0 ≤ x ∧ x < x1 ∧ inSlot w x y m)
      hinner y0 y1
      (by
        intro z z1 m _ _ _ _ hne ⟨a, ha1, ha2, ha⟩ ⟨b, hb1, hb2, hb⟩
        exact hne (slot_disjoint w a z b z1 m (hlt a ha1 ha2).1 (hlt a ha1 ha2).2
          (hlt b hb1 hb2).1 (hlt b hb1 hb2).2 ha hb).2)
      data data1 h y hy hyy
    obtain ⟨d1, d2, hd, hd1, hd2⟩ := forRangeM_cell _
      (fun x m => inSlot w x y m)
      (by
        intro z e e1 he m1 hm1
        exact hframe z y e e1 he m1 hm1)
      x0 x1
      (by
        intro z z1 m _ _ _ _ hne ha hb
        unfold inSlot at ha hb
        omega)
      D1 D2 hD x hx hxx
    refine ⟨d1, d2, hd, ?_, ?_⟩
    · intro m hm
      rw [hd1 m hm]
      exact hD1 m ⟨x, hx, hxx, hm⟩
    · intro m hm
      rw [hD2 m ⟨x, hx, hxx, hm⟩]
      exact hd2 m hm
  · intro m hm
    refine forRangeM_frame _ (fun y m => ∃ x, x0 ≤ x ∧ x < x1 ∧ inSlot w x y m)
      hinner y0 y1 data data1 h m ?_
    intro z hz1 hz2 ⟨a, ha1, ha2, ha⟩
    exact hm a z ha1 ha2 hz1 hz2 ha

theorem screenBoxR_bounds (rnd : Rounding) (s : RefRenderer) (i : Nat) (x0 x1 y0 y1 : ℤ)
    (h : s.screenBoxR rnd i = some (x0, x1, y0, y1)) :
    0 ≤ x0 ∧ x1 ≤ max 0 s.image.width ∧ 0 ≤ y0 ∧ y1 ≤ max 0 s.image.height := by
  unfold RefRenderer.screenBoxR at h
  simp only [] at h
  obtain ⟨a, -, h⟩ := Option.bind_eq_some.mp h
  obtain ⟨b, -, h⟩ := Option.bind_eq_some.mp h
  obtain ⟨c, -, h⟩ := Option.bind_eq_some.mp h
  obtain ⟨d, -, h⟩ := Option.bind_eq_some.mp h
  simp only [Option.some.injEq, Prod.mk.injEq] at h
  obtain ⟨rfl, rfl, rfl, rfl⟩ := h
  exact ⟨(CLAMP_bounds _ _).1, (CLAMP_bounds _ _).2, (CLAMP_bounds _ _).1, (CLAMP_bounds _ _).2⟩

theorem boxR_pixel_in_image (rnd : Rounding) (s : RefRenderer) (i : Nat)
    (x0 x1 y0 y1 x y : ℤ) (h : s.screenBoxR rnd i = some (x0, x1, y0, y1))
    (hx : x0 ≤ x) (hxx : x < x1) (hy : y0 ≤ y) (hyy : y < y1) :
    0 ≤ x ∧ x < s.image.width ∧ 0 ≤ y ∧ y < s.image.height := by
  obtain ⟨h1, h2, h3, h4⟩ := screenBoxR_bounds rnd s i x0 x1 y0 y1 h
  rcases max_cases 0 s.image.width with ⟨e1, _⟩ | ⟨e1, _⟩ <;>
    rcases max_cases 0 s.image.height with ⟨e2, _⟩ | ⟨e2, _⟩ <;>
    rw [e1] at h2 <;> rw [e2] at h4 <;> omega

theorem renderCircleR_eq_shadeBoxR (rnd : Rounding) (ext : Externals) (s : RefRenderer)
    (i : Nat) (data : ℤ → ℚ) :
    s.renderCircleR rnd ext i data
      = (s.screenBoxR rnd i).bind fun box =>
          s.shadeBoxR rnd ext i box.1 box.2.1 box.2.2.1 box.2.2.2 data := by
  rfl

theorem renderCircleR_cells (rnd : Rounding) (ext : Externals) (s : RefRenderer) (i : Nat)
    (data data1 : ℤ → ℚ) (h : s.renderCircleR rnd ext i data = some data1) :
    ∃ x0 x1 y0 y1 : ℤ, s.screenBoxR rnd i = some (x0, x1, y0, y1)
      ∧ (∀ x y : ℤ, x0 ≤ x → x < x1 → y0 ≤ y → y < y1 →
          ∃ d1 d2 : ℤ → ℚ,
            s.shadePixelR rnd ext i (pixelCenterR rnd s.image.width x)
              (pixelCenterR rnd s.image.height y)
              (s.position (3 * i)) (s.position (3 * i + 1)) (s.position (3 * i + 2))
              d1 (4 * (y * s.image.width + x)) = some d2
            ∧ (∀ m, inSlot s.image.width x y m → d1 m = data m)
            ∧ (∀ m, inSlot s.image.width x y m → data1 m = d2 m))
      ∧ (∀ m : ℤ, (∀ x y : ℤ, x0 ≤ x → x < x1 → y0 ≤ y → y < y1 →
          ¬ inSlot s.image.width x y m) → data1 m = data m) := by
  rw [renderCircleR_eq_shadeBoxR] at h
  obtain ⟨⟨x0, x1, y0, y1⟩, hbox, hloop⟩ := Option.bind_eq_some.mp h
  obtain ⟨hx0, hx1, -, -⟩ := screenBoxR_bounds rnd s i x0 x1 y0 y1 hbox
  obtain ⟨hc, hr⟩ := boxLoop_cells s.image.width
    (fun x y d => s.shadePixelR rnd ext i (pixelCenterR rnd s.image.width x)
      (pixelCenterR rnd s.image.height y)
      (s.position (3 * i)) (s.position (3 * i + 1)) (s.position (3 * i + 2))
      d (4 * (y * s.image.width + x)))
    (fun x y d d1 hd m hm => shadePixelR_frame rnd ext s i _ _ _ _ _ d d1 _ hd m hm)
    x0 x1 y0 y1 hx0 hx1 data data1 hloop
  exact ⟨x0, x1, y0, y1, hbox, hc, hr⟩

theorem renderCircleR_defined (rnd : Rounding) (ext : Externals) (s : RefRenderer) (i : Nat)
    (data : ℤ → ℚ) (x0 x1 y0 y1 : ℤ) (hbox : s.screenBoxR rnd i = some (x0, x1, y0, y1))
    (hdef : ∀ (x y : ℤ) (d : ℤ → ℚ), x0 ≤ x → x < x1 → y0 ≤ y → y < y1 →
      ∃ d1, s.shadePixelR rnd ext i (pixelCenterR rnd s.image.width x)
        (pixelCenterR rnd s.image.height y)
        (s.position (3 * i)) (s.position (3 * i + 1)) (s.position (3 * i + 2))
        d (4 * (y * s.image.width + x)) = some d1) :
    ∃ data1, s.renderCircleR rnd ext i data = some data1 := by
  rw [renderCircleR_eq_shadeBoxR, hbox]
  simp only [Option.some_bind]
  unfold RefRenderer.shadeBoxR
  apply forRangeM_defined
  intro y d hy hyy
  apply forRangeM_defined
  intro x e hx hxx
  exact hdef x y e hx hxx hy hyy

theorem boxFitsR_defined (rnd : Rounding) (s : RefRenderer) (i : Nat)
    (h : s.boxFitsR rnd i) : (s.screenBoxR rnd i).isSome = true := by
  obtain ⟨hx0, hx1, hy0, hy1⟩ := h
  unfold RefRenderer.screenBoxR
  simp only []
  rw [(castInt_defined _ hx0.1 hx0.2).1, (castInt_defined _ hx1.1 hx1.2).1,
    (castInt_defined _ hy0.1 hy0.2).1, (castInt_defined _ hy1.1 hy1.2).1]
  simp only [Option.some_bind]
  rw [(castInt_defined _ hx1.1 hx1.2).2, (castInt_defined _ hy1.1 hy1.2).2]
  rfl

theorem renderDataR_static_defined (rnd : Rounding) (ext : Externals) (s : RefRenderer)
    (h1 : s.sceneName ≠ SceneName.SNOWFLAKES)
    (h2 : s.sceneName ≠ SceneName.SNOWFLAKES_SINGLE_FRAME)
    (n : Nat) (hfit : ∀ i, i < n → s.boxFitsR rnd i) (data : ℤ → ℚ) :
    ∃ data1, forLoopM n (fun circleIndex d => s.renderCircleR rnd ext circleIndex d) data
      = some data1 := by
  apply forLoopM_defined
  intro k d hk
  obtain ⟨⟨x0, x1, y0, y1⟩, hb⟩ :=
    Option.isSome_iff_exists.mp (boxFitsR_defined rnd s k (hfit k hk))
  exact renderCircleR_defined rnd ext s k d x0 x1 y0 y1 hb
    (fun x y e _ _ _ _ => shadePixelR_static_defined rnd ext s k _ _ _ _ _ e _ h1 h2)

/-! ## render with rounding: the accumulated A channel -/

theorem contributesR_iff (rnd : Rounding) (s : RefRenderer) (i : Nat) (x y x0 x1 y0 y1 : ℤ)
    (hbox : s.screenBoxR rnd i = some (x0, x1, y0, y1)) :
    s.contributesR rnd i x y = true
      ↔ (x0 ≤ x ∧ x < x1 ∧ y0 ≤ y ∧ y < y1)
        ∧ ¬ s.pixelDistR rnd i x y > rnd.fl (s.radius i * s.radius i) := by
  unfold RefRenderer.contributesR
  rw [hbox]
  simp only [Bool.and_eq_true, decide_eq_true_eq]

theorem renderCircleR_alpha_static (rnd : Rounding) (ext : Externals) (s : RefRenderer)
    (i : Nat) (h1 : s.sceneName ≠ SceneName.SNOWFLAKES)
    (h2 : s.sceneName ≠ SceneName.SNOWFLAKES_SINGLE_FRAME)
    (t t1 : ℤ → ℚ) (h : s.renderCircleR rnd ext i t = some t1)
    (x y : ℤ) (hx : 0 ≤ x) (hxw : x < s.image.width) :
    t1 (4 * (y * s.image.width + x) + 3)
      = if s.contributesR rnd i x y = true
        then rnd.fl (t (4 * (y * s.image.width + x) + 3) + 1 / 2)
        else t (4 * (y * s.image.width + x) + 3) := by
  obtain ⟨x0, x1, y0, y1, hbox, hcell, hrest⟩ := renderCircleR_cells rnd ext s i t t1 h
  have hslot : inSlot s.image.width x y (4 * (y * s.image.width + x) + 3) :=
    ⟨by omega, by omega⟩
  have hiff := contributesR_iff rnd s i x y x0 x1 y0 y1 hbox
  by_cases hin : x0 ≤ x ∧ x < x1 ∧ y0 ≤ y ∧ y < y1
  · obtain ⟨d1, d2, hd, hd1, hd2⟩ := hcell x y hin.1 hin.2.1 hin.2.2.1 hin.2.2.2
    rw [hd2 _ hslot, ← hd1 _ hslot]
    by_cases hrej : s.pixelDistR rnd i x y > rnd.fl (s.radius i * s.radius i)
    · rw [shadePixelR_reject rnd ext s i _ _ _ _ _ d1 _ hrej] at hd
      simp only [Option.some.injEq] at hd
      rw [← hd, if_neg (fun hc => (hiff.mp hc).2 hrej)]
    · rw [shadePixelR_blend rnd ext s i _ _ _ _ _ d1 _ hrej,
        shadingR_static rnd ext s i _ _ _ h1 h2] at hd
      simp only [Option.some_bind, Option.some.injEq] at hd
      have hr := update4_read d1 (4 * (y * s.image.width + x))
        (rnd.fl (rnd.fl (1 / 2 * s.color (3 * i))
          + rnd.fl (rnd.fl (1 - 1 / 2) * d1 (4 * (y * s.image.width + x)))))
        (rnd.fl (rnd.fl (1 / 2 * s.color (3 * i + 1))
          + rnd.fl (rnd.fl (1 - 1 / 2) * d1 (4 * (y * s.image.width + x) + 1))))
        (rnd.fl (rnd.fl (1 / 2 * s.color (3 * i + 2))
          + rnd.fl (rnd.fl (1 - 1 / 2) * d1 (4 * (y * s.image.width + x) + 2))))
        (rnd.fl (d1 (4 * (y * s.image.width + x) + 3) + 1 / 2))
      rw [hd] at hr
      simp only [readPixel, Prod.mk.injEq] at hr
      rw [hr.2.2.2, if_pos (hiff.mpr ⟨hin, hrej⟩)]
  · have hsame : t1 (4 * (y * s.image.width + x) + 3) = t (4 * (y * s.image.width + x) + 3) := by
      apply hrest
      intro a b ha1 ha2 hb1 hb2 hab
      obtain ⟨p1, p2, -, -⟩ := boxR_pixel_in_image rnd s i x0 x1 y0 y1 a b hbox ha1 ha2 hb1 hb2
      obtain ⟨rfl, rfl⟩ := slot_disjoint s.image.width a b x y _ p1 p2 hx hxw hab hslot
      exact hin ⟨ha1, ha2, hb1, hb2⟩
    rw [hsame, if_neg (fun hc => hin (hiff.mp hc).1)]

theorem card_filter_range_succ (n : Nat) (P : Nat → Prop) [DecidablePred P] :
    ((Finset.range (n + 1)).filter P).card
      = ((Finset.range n).filter P).card + (if P n then 1 else 0) := by
  rw [Finset.range_succ, Finset.filter_insert]
  split_ifs with h
  · rw [Finset.card_insert_of_not_mem]
    intro hmem
    have := (Finset.mem_filter.mp hmem).1
    simp at this
  · rfl

theorem render_prefix_alpha_static (rnd : Rounding) (ext : Externals) (s : RefRenderer)
    (h1 : s.sceneName ≠ SceneName.SNOWFLAKES)
    (h2 : s.sceneName ≠ SceneName.SNOWFLAKES_SINGLE_FRAME) (n : Nat)
    (data data1 : ℤ → ℚ)
    (h : forLoopM n (fun circleIndex d => s.renderCircleR rnd ext circleIndex d) data
      = some data1)
    (x y : ℤ) (hx : 0 ≤ x) (hxw : x < s.image.width) :
    data1 (4 * (y * s.image.width + x) + 3)
      = (fun a => rnd.fl (a + 1 / 2))^[((Finset.range n).filter
            (fun i => s.contributesR rnd i x y = true)).card]
          (data (4 * (y * s.image.width + x) + 3)) := by
  induction n generalizing data1 with
  | zero =>
    simp only [forLoopM, Option.some.injEq] at h
    rw [h]
    simp
  | succ n ih =>
    obtain ⟨t, ht, hb⟩ := forLoopM_succ_some n _ data data1 h
    rw [renderCircleR_alpha_static rnd ext s n h1 h2 t data1 hb x y hx hxw, ih t ht,
      card_filter_range_succ]
    split_ifs with hc
    · rw [Function.iterate_succ_apply']
    · rfl

theorem permute_screenBoxR (rnd : Rounding) (σ : Nat → Nat) (s : RefRenderer) (i : Nat) :
    (s.permute σ).screenBoxR rnd i = s.screenBoxR rnd (σ i) := by
  obtain ⟨p0, p1, -, -, -, -, pr⟩ := permute_position σ s i
  unfold RefRenderer.screenBoxR
  simp only []
  rw [p0, p1, pr]
  rfl

theorem permute_contributesR (rnd : Rounding) (σ : Nat → Nat) (s : RefRenderer) (i : Nat)
    (x y : ℤ) : (s.permute σ).contributesR rnd i x y = s.contributesR rnd (σ i) x y := by
  obtain ⟨p0, p1, -, -, -, -, pr⟩ := permute_position σ s i
  unfold RefRenderer.contributesR RefRenderer.pixelDistR
  rw [permute_screenBoxR, p0, p1, pr]
  rfl

theorem permute_boxFitsR (rnd : Rounding) (σ : Nat → Nat) (s : RefRenderer) (i : Nat) :
    (s.permute σ).boxFitsR rnd i ↔ s.boxFitsR rnd (σ i) := by
  obtain ⟨p0, p1, -, -, -, -, pr⟩ := permute_position σ s i
  unfold RefRenderer.boxFitsR
  rw [p0, p1, pr]
  rfl

theorem card_filter_permute (n : Nat) (σ : Nat → Nat) (P : Nat → Prop) [DecidablePred P]
    (hmap : ∀ i, i < n → σ i < n)
    (hinj : ∀ i j, i < n → j < n → σ i = σ j → i = j) :
    ((Finset.range n).filter (fun i => P (σ i))).card = ((Finset.range n).filter P).card := by
  have h := sum_range_permute n σ (fun i => if P i then (1 : ℚ) else 0) hmap hinj
  simp only [Finset.sum_ite, Finset.sum_const, Finset.sum_const_zero, add_zero, nsmul_eq_mul,
    mul_one] at h
  exact_mod_cast h

/-! ## render with rounding: a circle of radius 0 -/

/-- C20, as stated, fails in float arithmetic, in which the accumulation
`pixelData[3] += alpha` is rounded after every circle.  The two sample flakes are
blended into the pixel with opacities 0.47500002 and 0.42500001.  From the pre-render
A = 1, `render` leaves A = 1.9000001 (3984589/2097152); with the two flakes in the
other order it leaves A = 1.8999999 (15938355/8388608); and the pre-render A plus the
sum of the two opacities, 31876711/16777216, is neither. -/
theorem alpha_order_counterexample :
    twoFlakes.contributesR ieee 0 0 0 = true ∧ twoFlakes.contributesR ieee 1 0 0 = true
    ∧ (twoFlakes.shadingR ieee sampleExt 0 (twoFlakes.pixelDistR ieee 0 0 0)
          (twoFlakes.radius 0) (twoFlakes.position (3 * 0 + 2))).map (fun c => c.2.2.2)
        = some (3984589 / 8388608)
    ∧ (twoFlakes.shadingR ieee sampleExt 1 (twoFlakes.pixelDistR ieee 1 0 0)
          (twoFlakes.radius 1) (twoFlakes.position (3 * 1 + 2))).map (fun c => c.2.2.2)
        = some (7130317 / 16777216)
    ∧ twoFlakes.image.data 3 = 1
    ∧ (twoFlakes.renderDataR ieee sampleExt).map (fun d => d 3) = some (3984589 / 2097152)
    ∧ ((twoFlakes.permute (fun k => 1 - k)).renderDataR ieee sampleExt).map (fun d => d 3)
        = some (15938355 / 8388608)
    ∧ (1 : ℚ) + 3984589 / 8388608 + 7130317 / 16777216 = 31876711 / 16777216
    ∧ (3984589 : ℚ) / 2097152 ≠ 15938355 / 8388608
    ∧ (3984589 : ℚ) / 2097152 ≠ 31876711 / 16777216 := by
  decide!

/-- C20, amended: in a scene that is not a snowflake scene, with bounding-box products
that fit the conversion to `int`, the accumulated A channel does not depend on the
compositing order.  After `render`, the A of each pixel of the image is its pre-render
A with 0.5 added, in float arithmetic, once for each circle that contributes to the
pixel (the pixel is in the circle's box and its computed squared distance does not
exceed the computed squared radius); it is pre-render A + 0.5 * number of
contributing circles whenever these additions are exact; and rendering the circles
in any other order `σ` leaves the same A in every pixel.  This holds whatever the
rounding operator `rnd.fl` is.  (In the snowflake scenes the opacities differ, and the
rounded sum depends on the order.) -/
theorem alpha_order_independent_static (rnd : Rounding) (ext : Externals) (s : RefRenderer)
    (h1 : s.sceneName ≠ SceneName.SNOWFLAKES)
    (h2 : s.sceneName ≠ SceneName.SNOWFLAKES_SINGLE_FRAME)
    (hfit : ∀ i, i < s.numCircles → s.boxFitsR rnd i) :
    ∃ data1 : ℤ → ℚ, s.renderDataR rnd ext = some data1
      ∧ (∀ x y : ℤ, 0 ≤ x → x < s.image.width → 0 ≤ y → y < s.image.height →
          data1 (4 * (y * s.image.width + x) + 3)
            = (fun a => rnd.fl (a + 1 / 2))^[((Finset.range s.numCircles).filter
                  (fun i => s.contributesR rnd i x y = true)).card]
                (s.image.data (4 * (y * s.image.width + x) + 3))
          ∧ ((∀ m : Nat, m < ((Finset.range s.numCircles).filter
                  (fun i => s.contributesR rnd i x y = true)).card →
                rnd.fl (s.image.data (4 * (y * s.image.width + x) + 3) + 1 / 2 * (m : ℚ) + 1 / 2)
                  = s.image.data (4 * (y * s.image.width + x) + 3) + 1 / 2 * (m : ℚ) + 1 / 2) →
              data1 (4 * (y * s.image.width + x) + 3)
                = s.image.data (4 * (y * s.image.width + x) + 3)
                  + 1 / 2 * (((Finset.range s.numCircles).filter
                      (fun i => s.contributesR rnd i x y = true)).card : ℚ)))
      ∧ (∀ σ : Nat → Nat, (∀ i, i < s.numCircles → σ i < s.numCircles) →
          (∀ i j, i < s.numCircles → j < s.numCircles → σ i = σ j → i = j) →
          ∃ data2 : ℤ → ℚ, (s.permute σ).renderDataR rnd ext = some data2
            ∧ ∀ x y : ℤ, 0 ≤ x → x < s.image.width → 0 ≤ y → y < s.image.height →
              data2 (4 * (y * s.image.width + x) + 3)
                = data1 (4 * (y * s.image.width + x) + 3)) := by
  obtain ⟨data1, hd1⟩ := renderDataR_static_defined rnd ext s h1 h2 s.numCircles hfit
    s.image.data
  have hA : ∀ x y : ℤ, 0 ≤ x → x < s.image.width →
      data1 (4 * (y * s.image.width + x) + 3)
        = (fun a => rnd.fl (a + 1 / 2))^[((Finset.range s.numCircles).filter
              (fun i => s.contributesR rnd i x y = true)).card]
            (s.image.data (4 * (y * s.image.width + x) + 3)) :=
    fun x y hx hxw =>
      render_prefix_alpha_static rnd ext s h1 h2 s.numCircles s.image.data data1 hd1 x y hx hxw
  refine ⟨data1, hd1, ?_, ?_⟩
  · intro x y hx hxw _ _
    refine ⟨hA x y hx hxw, ?_⟩
    rw [hA x y hx hxw]
    generalize ((Finset.range s.numCircles).filter
      (fun i => s.contributesR rnd i x y = true)).card = c
    generalize s.image.data (4 * (y * s.image.width + x) + 3) = a0
    intro hexact
    induction c with
    | zero => simp
    | succ c ih =>
      rw [Function.iterate_succ_apply', ih (fun m hm => hexact m (Nat.lt_succ_of_lt hm))]
      have := hexact c (Nat.lt_succ_self c)
      simp only [] at this ⊢
      rw [this]
      push_cast
      ring
  · intro σ hmap hinj
    have hs1 : (s.permute σ).sceneName ≠ SceneName.SNOWFLAKES := h1
    have hs2 : (s.permute σ).sceneName ≠ SceneName.SNOWFLAKES_SINGLE_FRAME := h2
    have hn : (s.permute σ).numCircles = s.numCircles := rfl
    obtain ⟨data2, hd2⟩ := renderDataR_static_defined rnd ext (s.permute σ) hs1 hs2
      s.numCircles
      (fun i hi => (permute_boxFitsR rnd σ s i).mpr (hfit (σ i) (hmap i hi)))
      s.image.data
    refine ⟨data2, hd2, ?_⟩
    intro x y hx hxw _ _
    have e2 := render_prefix_alpha_static rnd ext (s.permute σ) hs1 hs2 s.numCircles
      s.image.data data2 hd2 x y hx hxw
    have hw : (s.permute σ).image.width = s.image.width := rfl
    rw [hw] at e2
    rw [e2, hA x y hx hxw]
    have hcard : ((Finset.range s.numCircles).filter
          (fun i => (s.permute σ).contributesR rnd i x y = true)).card
        = ((Finset.range s.numCircles).filter
          (fun i => s.contributesR rnd i x y = true)).card := by
      rw [← card_filter_permute s.numCircles σ (fun i => s.contributesR rnd i x y = true)
        hmap hinj]
      congr 1
      apply Finset.filter_congr
      intro i _
      rw [permute_contributesR]
    rw [hcard]

set_option maxRecDepth 100000 in
theorem alpha_order_independent_static_witness :
    twoDiscs.sceneName ≠ SceneName.SNOWFLAKES
    ∧ twoDiscs.sceneName ≠ SceneName.SNOWFLAKES_SINGLE_FRAME
    ∧ (∀ i, i < twoDiscs.numCircles → twoDiscs.boxFitsR ieee i)
    ∧ (twoDiscs.renderDataR ieee sampleExt).map (fun d => readPixel d 0)
        = some (1 / 2, 1 / 4, 3 / 4, 2)
    ∧ ((twoDiscs.permute (fun k => 1 - k)).renderDataR ieee sampleExt).map
          (fun d => readPixel d 0) = some (3 / 4, 1 / 4, 1 / 2, 2)
    ∧ ∃ data1 : ℤ → ℚ, twoDiscs.renderDataR ieee sampleExt = some data1
      ∧ ∃ data2 : ℤ → ℚ, (twoDiscs.permute (fun k => 1 - k)).renderDataR ieee sampleExt
          = some data2
        ∧ data2 (4 * (0 * twoDiscs.image.width + 0) + 3)
          = data1 (4 * (0 * twoDiscs.image.width + 0) + 3) := by
  have hfit : ∀ i, i < twoDiscs.numCircles → twoDiscs.boxFitsR ieee i := by
    intro i hi
    have h2 : i < 2 := hi
    have hcases : i = 0 ∨ i = 1 := by omega
    rcases hcases with rfl | rfl
    · unfold RefRenderer.boxFitsR; decide!
    · unfold RefRenderer.boxFitsR; decide!
  have hmap : ∀ i, i < twoDiscs.numCircles → (fun k => 1 - k) i < twoDiscs.numCircles := by
    intro i hi
    have h2 : i < 2 := hi
    show 1 - i < 2
    omega
  have hinj : ∀ i j, i < twoDiscs.numCircles → j < twoDiscs.numCircles →
      (fun k => 1 - k) i = (fun k => 1 - k) j → i = j := by
    intro i j hi hj h
    have h1 : i < 2 := hi
    have h2 : j < 2 := hj
    have h3 : 1 - i = 1 - j := h
    omega
  obtain ⟨data1, hd1, -, hperm⟩ :=
    alpha_order_independent_static ieee sampleExt twoDiscs (by decide) (by decide) hfit
  obtain ⟨data2, hd2, heq⟩ := hperm (fun k => 1 - k) hmap hinj
  exact ⟨by decide, by decide, hfit, by decide!, by decide!, data1, hd1, data2, hd2,
    heq 0 0 (by decide) (by decide) (by decide) (by decide)⟩

/-! ## lookupColor: the values at the endpoints -/

theorem lookupColorIn_one (rnd : Rounding) (stray : ℤ → ℚ × ℚ × ℚ)
    (h4 : rnd.fl 4 = 4) (h0 : rnd.fl 0 = 0) (h1 : rnd.fl 1 = 1)
    (hi : rnd.fl (rnd.fl (4 / 5)) = rnd.fl (4 / 5)) :
    lookupColorIn rnd stray 1 = some (rnd.fl (4 / 5), rnd.fl (4 / 5), 1) := by
  have hc : castInt 4 = some 4 := by decide!
  have ht : tableAtR rnd 4 = some (rnd.fl (4 / 5), rnd.fl (4 / 5), 1) := by
    simp [tableAtR, lookupTableR]
  have ht5 : tableAtR rnd 5 = none := by
    simp [tableAtR, lookupTableR]
  unfold lookupColorIn
  simp only []
  have e1 : ((((5 : ℤ) - 1 : ℤ)) : ℚ) = 4 := by norm_num
  rw [e1, h4, one_mul, h4, hc]
  simp only [Option.some_bind]
  have e2 : min (4 : ℤ) (5 - 1) = 4 := by decide
  have e3 : (4 : ℤ) + 1 = 5 := by decide
  rw [e2, e3]
  have e4 : ((4 : ℤ) : ℚ) = 4 := by norm_num
  rw [e4, h4, sub_self, h0, sub_zero, h1]
  simp only [tableRead, ht, ht5, Option.getD_some, Option.getD_none, one_mul, zero_mul, h0,
    add_zero, hi, h1]

/-- C6: `lookupColor(0.0)` returns (1, 1, 1) and `lookupColor(1.0)` returns exactly
(0.8, 0.8, 1.0), the last entry of the gradient table: in exact arithmetic (4/5, 4/5, 1),
in float arithmetic the floats (0.8f, 0.8f, 1.0f).  At `coord = 1.0` the base index is 4
and the weight is 0, so the result is `1 * lookupTable[4] + 0 * lookupTable[5]`; the
read of `lookupTable[5]` lies outside the table (the defect of C15), and the value
returned is the same whatever floats `stray` lie there. -/
theorem lookupColor_endpoint_values (stray : ℤ → ℚ × ℚ × ℚ) :
    lookupColor 0 = some (1, 1, 1)
    ∧ lookupColorIn noRounding stray 0 = some (1, 1, 1)
    ∧ lookupColorIn noRounding stray 1 = some (4 / 5, 4 / 5, 1)
    ∧ lookupColorIn ieee stray 0 = some (1, 1, 1)
    ∧ lookupColorIn ieee stray 1 = some (ieee.fl (4 / 5), ieee.fl (4 / 5), 1)
    ∧ lookupTable.getLast? = some (4 / 5, 4 / 5, 1)
    ∧ (lookupTableR ieee).getLast? = some (ieee.fl (4 / 5), ieee.fl (4 / 5), 1) := by
  have z1 : ∀ rnd : Rounding, rnd.fl 0 = 0 → rnd.fl 1 = 1 →
      lookupColorIn rnd stray 0 = some (1, 1, 1) := by
    intro rnd h0 h1
    have hc : castInt 0 = some 0 := by decide!
    have ht : tableAtR rnd 0 = some (1, 1, 1) := by simp [tableAtR, lookupTableR]
    have ht1 : tableAtR rnd 1 = some (1, 1, 1) := by simp [tableAtR, lookupTableR]
    unfold lookupColorIn
    simp only [zero_mul, h0, hc, Option.some_bind]
    have e2 : min (0 : ℤ) (5 - 1) = 0 := by decide
    have e3 : (0 : ℤ) + 1 = 1 := by decide
    rw [e2, e3]
    simp only [Int.cast_zero, h0, sub_self, sub_zero, h1, tableRead, ht, ht1, Option.getD_some,
      one_mul, zero_mul, add_zero]
  refine ⟨by decide!, z1 noRounding rfl rfl, ?_, z1 ieee (by decide!) (by decide!), ?_, rfl, rfl⟩
  · exact lookupColorIn_one noRounding stray rfl rfl rfl rfl
  · exact lookupColorIn_one ieee stray (by decide!) (by decide!) (by decide!) (by decide!)

/-! ## The exact embedding is the embedding with rounding, without rounding -/

theorem advanceAnimationR_noRounding (ext : Externals) (s : RefRenderer) :
    s.advanceAnimationR noRounding ext = s.advanceAnimation ext := by
  rfl

theorem lookupColorR_noRounding (coord : ℚ) :
    lookupColorR noRounding coord = lookupColor coord := by
  rfl

theorem shadePixelR_noRounding (ext : Externals) (s : RefRenderer) (i : Nat)
    (cx cy px py pz : ℚ) (data : ℤ → ℚ) (p : ℤ) :
    s.shadePixelR noRounding ext i cx cy px py pz data p
      = s.shadePixel ext i cx cy px py pz data p := by
  rfl

theorem screenBoxR_noRounding (s : RefRenderer) (i : Nat) :
    s.screenBoxR noRounding i = s.screenBox i := by
  rfl

theorem renderDataR_noRounding (ext : Externals) (s : RefRenderer) :
    s.renderDataR noRounding ext = s.renderData ext := by
  rfl

end CircleRenderer
